import Mathlib

/-!
# Verification development for the APEX bundle engine (apex/apex.go)

A shallow embedding of the parts of `apex/apex.go` that decide the membership
walk (`ApexInfoMutator`), the native dependency declaration (`DepsMutator`) and
the normalisation of the packaged file list (`normalizeFileInfo`), followed by
theorems about them.

Conventions of the embedding:

* Go slices of strings are `List String`; `append(a, b...)` is `a ++ b`.
* A Go map read with a missing key returns the zero value, so a map from names
  to a membership value is a total function `String → ApexMembership`.
* Calls on the build context that only record something (declaring dependency
  edges, reporting an error, marking a module) are modelled by returning the
  recorded items.
* Facts that the build graph engine or other packages supply about a module or
  an edge (type assertions, `IsVndk`, `IsDepInSameApex`, ...) are fields of the
  records that stand for the module or the edge.
-/

set_option linter.dupNamespace false

namespace Apex

/-! ## Membership walk (`ApexInfoMutator`) -/

/-- Modelled from the spec: `android.ApexMembership` is declared in the
`android` package; the spec gives the tri-state record
not present, transitive-only, direct. -/
inductive ApexMembership where
  | notInApex
  | indirectlyInApex
  | directlyInApex
  deriving DecidableEq, Repr

/-- Position of a membership value in the order
`notInApex < indirectlyInApex < directlyInApex`. -/
def ApexMembership.rank : ApexMembership → Nat
  | .notInApex => 0
  | .indirectlyInApex => 1
  | .directlyInApex => 2

/-- Modelled from the spec: `ApexMembership.Add` is declared in the `android`
package. The spec: transition to direct-member when the edge's immediate source
is the bundle itself, to transitive-member otherwise; a later visit performs the
upgrade; direct is terminal and never downgraded. -/
def ApexMembership.Add (i : ApexMembership) (direct : Bool) : ApexMembership :=
  if direct || i == .directlyInApex then .directlyInApex else .indirectlyInApex

/-- What the walk can observe of a module: its name and the outcome of the type
assertions and queries made on it. -/
structure Module where
  /-- Result of `mctx.OtherModuleName`. -/
  name : String
  /-- The assertion `parent.(*apexBundle)` succeeds. -/
  isApexBundle : Bool
  /-- The assertion `child.(android.ApexModule)` succeeds. -/
  isApexModule : Bool
  /-- Result of `am.CanHaveApexVariants()`. -/
  canHaveApexVariants : Bool
  /-- The assertion `child.(*cc.Module)` succeeds. -/
  isCcModule : Bool
  /-- Result of `c.IsVndk()`. -/
  isVndk : Bool
  deriving DecidableEq, Repr

/-- One call of the visitor of `mctx.WalkDeps`: the edge `parent -> child`
together with what the context reports about the edge. -/
structure Visit where
  child : Module
  parent : Module
  /-- The edge's tag implements `android.AlwaysRequireApexVariantTag`. -/
  tagIsAlwaysRequire : Bool
  /-- Result of the tag's `AlwaysRequireApexVariant()`. -/
  tagAlwaysRequireApexVariant : Bool
  /-- Result of `android.IsDepInSameApex(mctx, parent, child)`. -/
  depInSameApex : Bool
  deriving DecidableEq, Repr

/-- The closure `continueApexDepsWalk` of `ApexInfoMutator`. -/
def continueApexDepsWalk (excludeVndkLibs : Bool) (v : Visit) : Bool :=
  if !v.child.isApexModule || !v.child.canHaveApexVariants then false
  else if v.tagIsAlwaysRequire && v.tagAlwaysRequireApexVariant then true
  else if !v.depInSameApex then false
  else if excludeVndkLibs && (v.child.isCcModule && v.child.isVndk) then false
  else true

/-- The membership table `contents` of `ApexInfoMutator`. -/
abbrev Contents := String → ApexMembership

/-- The table made by `make(map[string]android.ApexMembership)`. -/
def emptyContents : Contents := fun _ => .notInApex

/-- Assignment `contents[key] = value`. -/
def Contents.set (c : Contents) (key : String) (value : ApexMembership) : Contents :=
  fun k => if k = key then value else c k

/-- The visitor of the first `mctx.WalkDeps` of `ApexInfoMutator`: returns the
table after the call and the visitor's result (whether the walk recurses). -/
def contentsVisitor (excludeVndkLibs : Bool) (contents : Contents) (v : Visit) :
    Contents × Bool :=
  if !continueApexDepsWalk excludeVndkLibs v then (contents, false)
  else
    let directDep := v.parent.isApexBundle
    let depName := v.child.name
    (contents.set depName ((contents depName).Add directDep), true)

/-- The visitor of the second `mctx.WalkDeps` of `ApexInfoMutator`. The state is
the list of modules on which `BuildForApex(apexInfo)` has been called. -/
def buildForApexVisitor (excludeVndkLibs : Bool) (marked : List String) (v : Visit) :
    List String × Bool :=
  if !continueApexDepsWalk excludeVndkLibs v then (marked, false)
  else (marked ++ [v.child.name], true)

/-- The membership table after the visitor has been called on each visit of a
sequence, in order. -/
def walkContents (excludeVndkLibs : Bool) (contents : Contents) (visits : List Visit) :
    Contents :=
  visits.foldl (fun c v => (contentsVisitor excludeVndkLibs c v).1) contents

/-- The value one visit contributes to the entry of `name`: nothing when the
visit is for another module or is rejected by `continueApexDepsWalk`, direct
when the parent is the apexBundle, transitive otherwise. -/
def visitContribution (excludeVndkLibs : Bool) (name : String) (v : Visit) : Nat :=
  if v.child.name = name ∧ continueApexDepsWalk excludeVndkLibs v = true then
    (if v.parent.isApexBundle then 2 else 1)
  else 0

/-- The continuation condition in the words of the specification: the tag
mandates an apex variant unconditionally, or child and parent are in the same
apex and the child is not a VNDK library excluded by the active policy. -/
def specContinues (excludeVndkLibs : Bool) (v : Visit) : Prop :=
  (v.tagIsAlwaysRequire = true ∧ v.tagAlwaysRequireApexVariant = true) ∨
    (v.depInSameApex = true ∧
      ¬ (excludeVndkLibs = true ∧ v.child.isCcModule = true ∧ v.child.isVndk = true))

instance (excludeVndkLibs : Bool) (v : Visit) : Decidable (specContinues excludeVndkLibs v) := by
  unfold specContinues
  infer_instance

/-- The continuation condition of the code: the child is an ApexModule that can
have apex variants, and the condition of the specification holds. -/
def continuesWalk (excludeVndkLibs : Bool) (v : Visit) : Prop :=
  (v.child.isApexModule = true ∧ v.child.canHaveApexVariants = true) ∧
    specContinues excludeVndkLibs v

instance (excludeVndkLibs : Bool) (v : Visit) : Decidable (continuesWalk excludeVndkLibs v) := by
  unfold continuesWalk
  infer_instance

/-! ## Native dependency declaration (`DepsMutator`) -/

/-- The struct `ApexNativeDependencies`: six lists of names, each with a
parallel exclusion list. -/
structure ApexNativeDependencies where
  Native_shared_libs : List String := []
  Jni_libs : List String := []
  Rust_dyn_libs : List String := []
  Binaries : List String := []
  Tests : List String := []
  Filesystems : List String := []
  Exclude_native_shared_libs : List String := []
  Exclude_jni_libs : List String := []
  Exclude_rust_dyn_libs : List String := []
  Exclude_binaries : List String := []
  Exclude_tests : List String := []
  Exclude_filesystems : List String := []
  deriving DecidableEq, Repr

/-- The method `(a *ApexNativeDependencies) Merge(b ApexNativeDependencies)`:
the value of the receiver after the call. The argument is passed by value. -/
def ApexNativeDependencies.Merge (a b : ApexNativeDependencies) : ApexNativeDependencies where
  Native_shared_libs := a.Native_shared_libs ++ b.Native_shared_libs
  Jni_libs := a.Jni_libs ++ b.Jni_libs
  Rust_dyn_libs := a.Rust_dyn_libs ++ b.Rust_dyn_libs
  Binaries := a.Binaries ++ b.Binaries
  Tests := a.Tests ++ b.Tests
  Filesystems := a.Filesystems ++ b.Filesystems
  Exclude_native_shared_libs := a.Exclude_native_shared_libs ++ b.Exclude_native_shared_libs
  Exclude_jni_libs := a.Exclude_jni_libs ++ b.Exclude_jni_libs
  Exclude_rust_dyn_libs := a.Exclude_rust_dyn_libs ++ b.Exclude_rust_dyn_libs
  Exclude_binaries := a.Exclude_binaries ++ b.Exclude_binaries
  Exclude_tests := a.Exclude_tests ++ b.Exclude_tests
  Exclude_filesystems := a.Exclude_filesystems ++ b.Exclude_filesystems

/-- The struct `apexMultilibProperties`. -/
structure apexMultilibProperties where
  First : ApexNativeDependencies := {}
  Both : ApexNativeDependencies := {}
  Prefer32 : ApexNativeDependencies := {}
  Lib32 : ApexNativeDependencies := {}
  Lib64 : ApexNativeDependencies := {}
  deriving DecidableEq, Repr

/-- The effect of `proptools.AppendProperties(dst, src, nil)` on two
`apexMultilibProperties` values: every list of `src` is appended to the
corresponding list of `dst`. -/
def apexMultilibProperties.AppendProperties (dst src : apexMultilibProperties) :
    apexMultilibProperties where
  First := dst.First.Merge src.First
  Both := dst.Both.Merge src.Both
  Prefer32 := dst.Prefer32.Merge src.Prefer32
  Lib32 := dst.Lib32.Merge src.Lib32
  Lib64 := dst.Lib64.Merge src.Lib64

/-- The type `apexPackaging`: a packaging method for an APEX. -/
inductive apexPackaging where
  | imageApex
  | zipApex
  | flattenedApex
  deriving DecidableEq, Repr

/-- The struct `apexBundleProperties`, restricted to the dependency lists read
by `DepsMutator` and to the flags read by the functions modelled here. The
struct embeds `ApexNativeDependencies`; its own member `Filesystems`, which
shadows the embedded one, and the embedded one are one field here. -/
structure apexBundleProperties extends ApexNativeDependencies where
  Multilib : apexMultilibProperties := {}
  Rros : List String := []
  Bootclasspath_fragments : List String := []
  Systemserverclasspath_fragments : List String := []
  Java_libs : List String := []
  Sh_binaries : List String := []
  Compat_configs : List String := []
  Use_vndk_as_stable : Option Bool := none
  Dynamic_common_lib_apex : Option Bool := none
  IsCoverageVariant : Bool := false
  Min_sdk_version : Option String := none
  Updatable : Option Bool := none
  Future_updatable : Option Bool := none
  Platform_apis : Option Bool := none
  Installable : Option Bool := none
  Payload_type : Option String := none
  Test_only_force_compression : Option Bool := none
  ApexVariationName : String := ""
  PreventInstall : Bool := false
  ApexType : apexPackaging := .imageApex
  deriving DecidableEq, Repr

/-- The struct `overridableProperties`. -/
structure overridableProperties where
  Apps : List String := []
  Prebuilts : List String := []
  Bpfs : List String := []
  Overrides : List String := []
  Logging_parent : String := ""
  Package_name : String := ""
  Allowed_files : Option String := none
  Key : Option String := none
  Certificate : Option String := none
  Compressible : Option Bool := none
  Trim_against : Option String := none
  deriving DecidableEq, Repr

/-- The struct `apexTargetBundleProperties`: the four `Target.*.Multilib`
members. -/
structure apexTargetBundleProperties where
  Android : apexMultilibProperties := {}
  Host : apexMultilibProperties := {}
  Linux_bionic : apexMultilibProperties := {}
  Linux_glibc : apexMultilibProperties := {}
  deriving DecidableEq, Repr

/-- The struct `apexArchBundleProperties`: the five `Arch.*` members. -/
structure apexArchBundleProperties where
  Arm : ApexNativeDependencies := {}
  Arm64 : ApexNativeDependencies := {}
  Riscv64 : ApexNativeDependencies := {}
  X86 : ApexNativeDependencies := {}
  X86_64 : ApexNativeDependencies := {}
  deriving DecidableEq, Repr

/-- The struct `apexBundle`, restricted to the members read by the functions
modelled here. `host` and `device` are the results of `a.Host()` and
`a.Device()`; `socSpecific`, `deviceSpecific` and `productSpecific` are the
results of `a.SocSpecific()`, `a.DeviceSpecific()` and `a.ProductSpecific()`. -/
structure apexBundle where
  properties : apexBundleProperties := {}
  targetProperties : apexTargetBundleProperties := {}
  archProperties : apexArchBundleProperties := {}
  overridableProperties : overridableProperties := {}
  testApex : Bool := false
  vndkApex : Bool := false
  host : Bool := false
  device : Bool := true
  socSpecific : Bool := false
  deviceSpecific : Bool := false
  productSpecific : Bool := false
  primaryApexType : Bool := false
  suffix : String := ""
  linkToSystemLib : Bool := false
  isCompressed : Bool := false
  makeModulesToInstall : List String := []
  deriving DecidableEq, Repr

/-- The values of `target.Arch.ArchType` that `DepsMutator` tells apart; `other`
stands for every arch type of the switch's default case. -/
inductive ArchType where
  | Arm
  | Arm64
  | Riscv64
  | X86
  | X86_64
  | other
  deriving DecidableEq, Repr

/-- What `DepsMutator` reads of an `android.Target`. -/
structure Target where
  /-- Value of `target.Arch.ArchType`. -/
  archType : ArchType
  /-- Value of `target.Arch.ArchType.Multilib`. -/
  multilib : String
  /-- Value of `target.HostCross`. -/
  HostCross : Bool := false
  /-- Result of `target.OsVariation()`. -/
  OsVariation : String := "android"
  /-- Result of `target.ArchVariation()`. -/
  ArchVariation : String := ""
  deriving DecidableEq, Repr

/-- The struct `blueprint.Variation`. -/
structure Variation where
  Mutator : String
  Variation : String
  deriving DecidableEq, Repr

/-- Result of `target.Variations()`: the os and the arch variation. -/
def Target.Variations (target : Target) : List Variation :=
  [{ Mutator := "os", Variation := target.OsVariation },
   { Mutator := "arch", Variation := target.ArchVariation }]

/-- The struct `dependencyTag`; `memberType` is the name of the SDK member
type, if any. -/
structure dependencyTag where
  name : String
  payload : Bool := false
  sourceOnly : Bool := false
  memberType : Option String := none
  deriving DecidableEq, Repr

def androidAppTag : dependencyTag := { name := "androidApp", payload := true }
def bpfTag : dependencyTag := { name := "bpf", payload := true }
def certificateTag : dependencyTag := { name := "certificate" }
def dclaTag : dependencyTag := { name := "dcla" }
def executableTag : dependencyTag := { name := "executable", payload := true }
def fsTag : dependencyTag := { name := "filesystem", payload := true }
def bcpfTag : dependencyTag :=
  { name := "bootclasspathFragment", payload := true, sourceOnly := true,
    memberType := some "BootclasspathFragmentSdkMemberType" }
def sscpfTag : dependencyTag :=
  { name := "systemserverclasspathFragment", payload := true, sourceOnly := true,
    memberType := some "SystemServerClasspathFragmentSdkMemberType" }
def compatConfigTag : dependencyTag :=
  { name := "compatConfig", payload := true, sourceOnly := true,
    memberType := some "CompatConfigSdkMemberType" }
def javaLibTag : dependencyTag := { name := "javaLib", payload := true }
def jniLibTag : dependencyTag := { name := "jniLib", payload := true }
def keyTag : dependencyTag := { name := "key" }
def prebuiltTag : dependencyTag := { name := "prebuilt", payload := true }
def rroTag : dependencyTag := { name := "rro", payload := true }
def sharedLibTag : dependencyTag := { name := "sharedLib", payload := true }
def testForTag : dependencyTag := { name := "test for" }
def testTag : dependencyTag := { name := "test", payload := true }
def shBinaryTag : dependencyTag := { name := "shBinary", payload := true }

/-- One call `ctx.AddFarVariationDependencies(variations, tag, names...)`: an
edge with the tag is declared to each of the names. -/
structure DepCall where
  variations : List Variation
  tag : dependencyTag
  names : List String
  deriving DecidableEq, Repr

/-- Modelled from the spec: `android.InList` is declared in the `android`
package; membership of a name in a list. -/
def InList (s : String) (list : List String) : Bool :=
  list.any (fun x => x == s)

/-- Modelled from the spec: `android.RemoveListFromList` is declared in the
`android` package; the spec's exclusion-list subtraction: the names of the list
that the exclusion list does not contain, in their order. -/
def RemoveListFromList (list filter_out : List String) : List String :=
  list.filter (fun l => !InList l filter_out)

/-- What `DepsMutator` reads of its `android.BottomUpMutatorContext`. -/
structure MutatorContext where
  /-- Result of `ctx.Device()`. -/
  device : Bool := true
  /-- Result of `ctx.Os().Bionic()`. -/
  osBionic : Bool := true
  /-- Result of `ctx.MultiTargets()`. -/
  MultiTargets : List Target := []
  /-- Result of `a.getImageVariation(ctx)`. -/
  imageVariation : String := ""
  /-- Result of `ctx.Config().AndroidCommonTarget.Variations()`. -/
  commonVariation : List Variation := []
  deriving DecidableEq, Repr

/-- The function `addDependenciesForNativeModules`: the six calls of
`ctx.AddFarVariationDependencies` it makes, in order. -/
def addDependenciesForNativeModules (ctx : MutatorContext)
    (nativeModules : ApexNativeDependencies) (target : Target) (imageVariation : String) :
    List DepCall :=
  let binVariations := target.Variations
  let libVariations := target.Variations ++ [{ Mutator := "link", Variation := "shared" }]
  let rustLibVariations :=
    target.Variations ++ [{ Mutator := "rust_libraries", Variation := "dylib" }]
  let image : List Variation :=
    if ctx.device then [{ Mutator := "image", Variation := imageVariation }] else []
  let binVariations := binVariations ++ image
  let libVariations := libVariations ++ image
  let rustLibVariations := rustLibVariations ++ image
  [ { variations := binVariations, tag := executableTag,
      names := RemoveListFromList nativeModules.Binaries nativeModules.Exclude_binaries },
    { variations := binVariations, tag := testTag,
      names := RemoveListFromList nativeModules.Tests nativeModules.Exclude_tests },
    { variations := libVariations, tag := jniLibTag,
      names := RemoveListFromList nativeModules.Jni_libs nativeModules.Exclude_jni_libs },
    { variations := libVariations, tag := sharedLibTag,
      names := RemoveListFromList nativeModules.Native_shared_libs
        nativeModules.Exclude_native_shared_libs },
    { variations := rustLibVariations, tag := sharedLibTag,
      names := RemoveListFromList nativeModules.Rust_dyn_libs
        nativeModules.Exclude_rust_dyn_libs },
    { variations := target.Variations, tag := fsTag,
      names := RemoveListFromList nativeModules.Filesystems
        nativeModules.Exclude_filesystems } ]

/-- The method `combineProperties`: the bundle after the call. -/
def apexBundle.combineProperties (a : apexBundle) (ctx : MutatorContext) : apexBundle :=
  let multilib :=
    if ctx.device then
      a.properties.Multilib.AppendProperties a.targetProperties.Android
    else
      let m := a.properties.Multilib.AppendProperties a.targetProperties.Host
      if ctx.osBionic then m.AppendProperties a.targetProperties.Linux_bionic
      else m.AppendProperties a.targetProperties.Linux_glibc
  { a with properties := { a.properties with Multilib := multilib } }

/-- The first loop of `DepsMutator`: whether some target has multilib "lib32". -/
def has32BitTarget (targets : List Target) : Bool :=
  targets.foldl (fun acc target => if target.multilib = "lib32" then true else acc) false

/-- The value of `deps` in the iteration of `DepsMutator` for the target at
index `i`, when `addDependenciesForNativeModules` is called; the iteration panics
on an arch type outside the five of the switch. -/
def targetNativeDeps (a : apexBundle) (has32BitTarget : Bool) (i : Nat) (target : Target) :
    Except String ApexNativeDependencies :=
  let deps : ApexNativeDependencies := {}
  let deps := deps.Merge a.properties.Multilib.Both
  let deps := deps.Merge
    { Native_shared_libs := a.properties.Native_shared_libs,
      Tests := a.properties.Tests,
      Jni_libs := a.properties.Jni_libs,
      Binaries := [] }
  let isPrimaryAbi := i == 0
  let deps :=
    if isPrimaryAbi then
      (deps.Merge a.properties.Multilib.First).Merge
        { Native_shared_libs := [],
          Tests := [],
          Jni_libs := [],
          Binaries := a.properties.Binaries }
    else deps
  let deps :=
    if target.multilib = "lib32" then
      (deps.Merge a.properties.Multilib.Lib32).Merge a.properties.Multilib.Prefer32
    else if target.multilib = "lib64" then
      let deps := deps.Merge a.properties.Multilib.Lib64
      if !has32BitTarget then deps.Merge a.properties.Multilib.Prefer32 else deps
    else deps
  match target.archType with
  | .Arm => .ok (deps.Merge a.archProperties.Arm)
  | .Arm64 => .ok (deps.Merge a.archProperties.Arm64)
  | .Riscv64 => .ok (deps.Merge a.archProperties.Riscv64)
  | .X86 => .ok (deps.Merge a.archProperties.X86)
  | .X86_64 => .ok (deps.Merge a.archProperties.X86_64)
  | .other => .error "unsupported arch"

/-- The calls made by one iteration of the target loop of `DepsMutator`: none
for a host cross target, otherwise those of `addDependenciesForNativeModules`
followed by the one for `sh_binaries`. -/
def targetDepCalls (ctx : MutatorContext) (a : apexBundle) (has32BitTarget : Bool)
    (i : Nat) (target : Target) : Except String (List DepCall) :=
  if target.HostCross then .ok []
  else
    match targetNativeDeps a has32BitTarget i target with
    | .error e => .error e
    | .ok deps =>
      .ok (addDependenciesForNativeModules ctx deps target ctx.imageVariation ++
        [{ variations := [{ Mutator := "os", Variation := target.OsVariation },
                          { Mutator := "arch", Variation := target.ArchVariation }],
           tag := shBinaryTag, names := a.properties.Sh_binaries }])

/-- The target loop of `DepsMutator`, from index `i` on: the calls made, or the
panic that ends the loop. -/
def targetLoop (ctx : MutatorContext) (a : apexBundle) (has32BitTarget : Bool) :
    Nat → List Target → Except String (List DepCall)
  | _, [] => .ok []
  | i, target :: rest =>
    match targetDepCalls ctx a has32BitTarget i target with
    | .error e => .error e
    | .ok calls =>
      match targetLoop ctx a has32BitTarget (i + 1) rest with
      | .error e => .error e
      | .ok more => .ok (calls ++ more)

/-- The method `DepsMutator`: the bundle after the call (its multilib properties
are combined in place) and the calls of `ctx.AddFarVariationDependencies` in
order, or the panic. -/
def apexBundle.DepsMutator (a : apexBundle) (ctx : MutatorContext) :
    Except String (apexBundle × List DepCall) :=
  let targets := ctx.MultiTargets
  let a := a.combineProperties ctx
  match targetLoop ctx a (has32BitTarget targets) 0 targets with
  | .error e => .error e
  | .ok calls =>
    let commonVariation := ctx.commonVariation
    .ok (a, calls ++
      [ { variations := commonVariation, tag := rroTag, names := a.properties.Rros },
        { variations := commonVariation, tag := bcpfTag,
          names := a.properties.Bootclasspath_fragments },
        { variations := commonVariation, tag := sscpfTag,
          names := a.properties.Systemserverclasspath_fragments },
        { variations := commonVariation, tag := javaLibTag, names := a.properties.Java_libs },
        { variations := commonVariation, tag := fsTag, names := a.properties.Filesystems },
        { variations := commonVariation, tag := compatConfigTag,
          names := a.properties.Compat_configs } ])

/-- The six kinds of native list of an `ApexNativeDependencies`. -/
inductive NativeKind where
  | native_shared_libs
  | jni_libs
  | rust_dyn_libs
  | binaries
  | tests
  | filesystems
  deriving DecidableEq, Repr

/-- The inclusion list of a kind. -/
def ApexNativeDependencies.listOf (d : ApexNativeDependencies) : NativeKind → List String
  | .native_shared_libs => d.Native_shared_libs
  | .jni_libs => d.Jni_libs
  | .rust_dyn_libs => d.Rust_dyn_libs
  | .binaries => d.Binaries
  | .tests => d.Tests
  | .filesystems => d.Filesystems

/-- The exclusion list of a kind. -/
def ApexNativeDependencies.excludeOf (d : ApexNativeDependencies) : NativeKind → List String
  | .native_shared_libs => d.Exclude_native_shared_libs
  | .jni_libs => d.Exclude_jni_libs
  | .rust_dyn_libs => d.Exclude_rust_dyn_libs
  | .binaries => d.Exclude_binaries
  | .tests => d.Exclude_tests
  | .filesystems => d.Exclude_filesystems

/-- The kind of native list a call of `addDependenciesForNativeModules` declares
edges for, read off its tag and, for the shared library tag, off the link or
rust_libraries variation. -/
def DepCall.nativeKind (c : DepCall) : Option NativeKind :=
  if c.tag = executableTag then some .binaries
  else if c.tag = testTag then some .tests
  else if c.tag = jniLibTag then some .jni_libs
  else if c.tag = sharedLibTag then
    if ({ Mutator := "link", Variation := "shared" } : Variation) ∈ c.variations then
      some .native_shared_libs
    else if ({ Mutator := "rust_libraries", Variation := "dylib" } : Variation) ∈ c.variations
    then some .rust_dyn_libs
    else none
  else if c.tag = fsTag then some .filesystems
  else none

/-- The names for which the calls declare an edge of the kind. -/
def declaredNames (kind : NativeKind) (calls : List DepCall) : List String :=
  (calls.filter (fun c => c.nativeKind = some kind)).flatMap (fun c => c.names)

/-- The requests that the iteration of `DepsMutator` for the target at index
`i` merges into `deps`, in merge order. -/
def mergedRequests (a : apexBundle) (has32BitTarget : Bool) (i : Nat) (target : Target) :
    List ApexNativeDependencies :=
  [ a.properties.Multilib.Both,
    { Native_shared_libs := a.properties.Native_shared_libs,
      Tests := a.properties.Tests,
      Jni_libs := a.properties.Jni_libs } ]
  ++ (if i = 0 then [a.properties.Multilib.First, { Binaries := a.properties.Binaries }] else [])
  ++ (if target.multilib = "lib32" then
        [a.properties.Multilib.Lib32, a.properties.Multilib.Prefer32]
      else if target.multilib = "lib64" then
        a.properties.Multilib.Lib64 ::
          (if has32BitTarget then [] else [a.properties.Multilib.Prefer32])
      else [])
  ++ (match target.archType with
      | .Arm => [a.archProperties.Arm]
      | .Arm64 => [a.archProperties.Arm64]
      | .Riscv64 => [a.archProperties.Riscv64]
      | .X86 => [a.archProperties.X86]
      | .X86_64 => [a.archProperties.X86_64]
      | .other => [])

/-- The names left for a kind when every request has its own exclusion list
subtracted before the lists are concatenated, in the words of the specification
(each merge is concatenation after exclusion-list subtraction). -/
def specDeclaredNames (kind : NativeKind) (requests : List ApexNativeDependencies) :
    List String :=
  requests.flatMap (fun r => RemoveListFromList (r.listOf kind) (r.excludeOf kind))

/-- An arm64 device target, used in the examples. -/
def exampleArm64 : Target :=
  { archType := .Arm64, multilib := "lib64", OsVariation := "android", ArchVariation := "arm64" }

/-- A bundle that lists libfoo and libbar under `multilib.both` and excludes
libfoo for arm64, used in the examples. -/
def exampleArchExclusion : apexBundle :=
  { properties := { Multilib := { Both := { Native_shared_libs := ["libfoo", "libbar"] } } },
    archProperties := { Arm64 := { Exclude_native_shared_libs := ["libfoo"] } } }

/-- A bundle whose top-level properties both list and exclude libfoo, used in
the examples. -/
def exampleTopLevelExclusion : apexBundle :=
  { properties :=
      { Native_shared_libs := ["libfoo"], Exclude_native_shared_libs := ["libfoo"] } }

/-! ## Normalisation of the packaged files (`normalizeFileInfo`) -/

/-- The elements of a path between its slashes. -/
def splitSlash : List Char → List (List Char)
  | [] => [[]]
  | c :: cs =>
    if c = '/' then [] :: splitSlash cs
    else
      match splitSlash cs with
      | [] => [[c]]
      | h :: t => (c :: h) :: t

/-- The elements kept by Go's `filepath.Clean`, given the elements still to be
read and the kept ones, last first: empty and `.` elements are dropped, a `..`
element removes the element kept before it, is dropped at the root and is kept
otherwise. -/
def cleanElements (rooted : Bool) : List (List Char) → List (List Char) → List (List Char)
  | [], kept => kept.reverse
  | e :: rest, kept =>
    if e = [] ∨ e = ['.'] then cleanElements rooted rest kept
    else if e = ['.', '.'] then
      match kept with
      | top :: below =>
        if top = ['.', '.'] then cleanElements rooted rest (e :: kept)
        else cleanElements rooted rest below
      | [] => if rooted then cleanElements rooted rest [] else cleanElements rooted rest [e]
    else cleanElements rooted rest (e :: kept)

/-- Go's `filepath.Clean` for slash separated paths. -/
def filepathClean (path : String) : String :=
  if path = "" then "."
  else
    let rooted := path.toList.head? = some '/'
    let body := List.intercalate ['/'] (cleanElements rooted (splitSlash path.toList) [])
    let out := (if rooted then ['/'] else []) ++ body
    if out = [] then "." else String.mk out

/-- Go's `filepath.Join` of two elements: empty elements are ignored and the
result is cleaned; the result is empty when both elements are. -/
def filepathJoin (a b : String) : String :=
  if a ≠ "" then filepathClean (a ++ "/" ++ b)
  else if b ≠ "" then filepathClean b
  else ""

/-- Go's `filepath.Base`: the last element of the path, after trailing slashes
are removed; `.` for the empty path and `/` for a path of slashes only. -/
def filepathBase (path : String) : String :=
  if path = "" then "."
  else
    let stripped := (path.toList.reverse.dropWhile (fun c => c = '/'))
    let last := (stripped.takeWhile (fun c => c ≠ '/')).reverse
    if last = [] then "/" else String.mk last

/-- The type `apexFileClass`. -/
inductive apexFileClass where
  | app
  | appSet
  | etc
  | goBinary
  | javaSharedLib
  | nativeExecutable
  | nativeSharedLib
  | nativeTest
  | pyBinary
  | shBinary
  deriving DecidableEq, Repr

/-- The struct `apexFile`. A member of type `android.Path` holds the string the
path's `String()` returns (none for a nil path, except `builtFile`, which
`normalizeFileInfo` dereferences and which is therefore never nil here); the
members `dataPaths`, `lintDepSets`, `certificate` and `module` hold a printed
form of their value. -/
structure apexFile where
  builtFile : String
  installDir : String := ""
  partition : String := ""
  customStem : String := ""
  symlinks : List String := []
  androidMkModuleName : String := ""
  class_ : apexFileClass := .app
  moduleDir : String := ""
  requiredModuleNames : List String := []
  targetRequiredModuleNames : List String := []
  hostRequiredModuleNames : List String := []
  dataPaths : List String := []
  jacocoReportClassesFile : Option String := none
  lintDepSets : String := ""
  certificate : String := ""
  overriddenPackageName : String := ""
  transitiveDep : Bool := false
  isJniLib : Bool := false
  multilib : String := ""
  isBazelPrebuilt : Bool := false
  unstrippedBuiltFile : Option String := none
  arch : String := ""
  module : Option String := none
  deriving DecidableEq, Repr

/-- The method `apexRelativePath`. -/
def apexFile.apexRelativePath (af : apexFile) (path : String) : String :=
  filepathJoin af.installDir path

/-- The method `stem`; `af.builtFile.Base()` is the last element of the built
file's path. -/
def apexFile.stem (af : apexFile) : String :=
  if af.customStem ≠ "" then af.customStem else filepathBase af.builtFile

/-- The method `path`. -/
def apexFile.path (af : apexFile) : String :=
  af.apexRelativePath af.stem

/-- The key `dest` that `normalizeFileInfo` computes for a record:
`filepath.Join(f.installDir, f.builtFile.Base())`. -/
def apexFile.dest (f : apexFile) : String :=
  filepathJoin f.installDir (filepathBase f.builtFile)

/-- The map `encountered` of `normalizeFileInfo`, as the list of its entries in
the order in which their keys were first assigned. -/
abbrev FileMap := List (String × apexFile)

/-- Lookup `encountered[key]`: the entry, if any. -/
def FileMap.get : FileMap → String → Option apexFile
  | [], _ => none
  | (k, v) :: rest, key => if k = key then some v else FileMap.get rest key

/-- Assignment `encountered[key] = value`. -/
def FileMap.set : FileMap → String → apexFile → FileMap
  | [], key, value => [(key, value)]
  | (k, v) :: rest, key, value =>
    if k = key then (k, value) :: rest else (k, v) :: FileMap.set rest key value

/-- The values of the map, in the order of the entries. -/
def FileMap.values (m : FileMap) : List apexFile :=
  m.map Prod.snd

/-- The comparison of `sort.Slice` in `normalizeFileInfo`, as the order it
sorts into: `y.path() < x.path()` is false. Go compares strings byte by byte,
which for UTF-8 is the lexicographic order of the characters. -/
def apexFile.pathLE (x y : apexFile) : Prop :=
  x.path.toList ≤ y.path.toList

instance : DecidableRel apexFile.pathLE := fun x y =>
  inferInstanceAs (Decidable (x.path.toList ≤ y.path.toList))

/-- The struct `visitorContext`. -/
structure visitorContext where
  filesInfo : List apexFile := []
  provideNativeLibs : List String := []
  requireNativeLibs : List String := []
  handleSpecialLibs : Bool := false
  checkDuplicate : Bool := false
  deriving DecidableEq, Repr

/-- The first loop of `normalizeFileInfo` over the records still to be read:
the map `encountered` when the loop ends, or the message of the module error
on which the function returns. -/
def normalizeLoop (checkDuplicate : Bool) : List apexFile → FileMap → Except String FileMap
  | [], encountered => .ok encountered
  | f :: rest, encountered =>
    let dest := filepathJoin f.installDir (filepathBase f.builtFile)
    match encountered.get dest with
    | none => normalizeLoop checkDuplicate rest (encountered.set dest f)
    | some e =>
      if checkDuplicate && f.builtFile != e.builtFile then
        .error ("apex file " ++ dest ++ " is provided by two different files " ++
          e.builtFile ++ " and " ++ f.builtFile)
      else
        let e := { e with transitiveDep := e.transitiveDep && f.transitiveDep }
        normalizeLoop checkDuplicate rest (encountered.set dest e)

/-- The method `normalizeFileInfo`: the visitor context after the call and the
module errors reported. Go ranges over the map in an unspecified order and
`sort.Slice` is not stable, so the order of records with equal `path()` is not
determined by the source; here the entries are read in the order of first
assignment and sorted stably. -/
def visitorContext.normalizeFileInfo (vctx : visitorContext) : visitorContext × List String :=
  match normalizeLoop vctx.checkDuplicate vctx.filesInfo [] with
  | .error msg => (vctx, [msg])
  | .ok encountered =>
    ({ vctx with filesInfo := List.insertionSort apexFile.pathLE encountered.values }, [])

/-- The method `shouldCheckDuplicate`; `deviceArch` is the result of
`ctx.DeviceConfig().DeviceArch()`. -/
def apexBundle.shouldCheckDuplicate (a : apexBundle) (deviceArch : String) : Bool :=
  if a.properties.IsCoverageVariant then false
  else if a.testApex then false
  else if a.host then false
  else if a.device && deviceArch == "" then false
  else true

/-- A record into which the records of a list have been merged: the record with
its `transitiveDep` and-ed with theirs. -/
def apexFile.mergeInto (e : apexFile) (g : List apexFile) : apexFile :=
  { e with transitiveDep := e.transitiveDep && g.all (fun f => f.transitiveDep) }

/-- The entry of a destination after the records of a list with that
destination have been read, given the entry before: the first record, or the
entry before when there was one, with the others merged into it. -/
def groupValue : Option apexFile → List apexFile → Option apexFile
  | some e, g => some (e.mergeInto g)
  | none, [] => none
  | none, f :: g => some (f.mergeInto g)

/-- Well-formedness of the map `encountered`: no key occurs twice and every
record is stored under its own destination. -/
def FileMap.WF (m : FileMap) : Prop :=
  (m.map Prod.fst).Nodup ∧ ∀ p ∈ m, p.2.dest = p.1

/-- Two java libraries with the same stem: the dex jars differ, both are
installed as javalib/bar.jar. Used in the examples. -/
def exampleSameStem : List apexFile :=
  [ { builtFile := "out/foo/foo.jar", installDir := "javalib", customStem := "bar.jar",
      androidMkModuleName := "foo", class_ := .javaSharedLib },
    { builtFile := "out/bar/bar.jar", installDir := "javalib", customStem := "bar.jar",
      androidMkModuleName := "bar", class_ := .javaSharedLib } ]

/-- Two libraries that provide lib64/libfoo.so from different built files. Used
in the examples. -/
def exampleConflict : List apexFile :=
  [ { builtFile := "out/a/libfoo.so", installDir := "lib64", class_ := .nativeSharedLib },
    { builtFile := "out/b/libfoo.so", installDir := "lib64", class_ := .nativeSharedLib } ]

/-- A library included directly, reached again as a transitive dependency, and
a second library. Used in the examples. -/
def exampleDirectAndTransitive : List apexFile :=
  [ { builtFile := "out/b/libb.so", installDir := "lib64", class_ := .nativeSharedLib },
    { builtFile := "out/a/liba.so", installDir := "lib64", class_ := .nativeSharedLib,
      transitiveDep := true },
    { builtFile := "out/a/liba.so", installDir := "lib64", class_ := .nativeSharedLib } ]

/-- A library listed both in `native_shared_libs` and in `jni_libs`: two
records for the same built file, one of them marked as a JNI library. Used in
the examples. -/
def exampleJniAndShared : List apexFile :=
  [ { builtFile := "out/a/libfoo.so", installDir := "lib64", class_ := .nativeSharedLib },
    { builtFile := "out/a/libfoo.so", installDir := "lib64", class_ := .nativeSharedLib,
      isJniLib := true } ]

/-- The strict order on the `path()` of two records. -/
def apexFile.pathLT (x y : apexFile) : Prop :=
  x.path.toList < y.path.toList

/-- Whether the calls declare an edge of the kind to the name for the target:
some call of the kind, whose variations start with the os and arch variation of
the target, lists the name. -/
def edgeDeclared (kind : NativeKind) (target : Target) (name : String)
    (calls : List DepCall) : Bool :=
  calls.any (fun c =>
    decide (c.nativeKind = some kind) && (target.Variations.isPrefixOf c.variations
      && c.names.contains name))

/-- An arm device target, used in the examples. -/
def exampleArm : Target :=
  { archType := .Arm, multilib := "lib32", OsVariation := "android", ArchVariation := "arm" }

/-- A bundle that lists libfoo in its top-level `native_shared_libs`, used in
the examples. -/
def exampleUnqualifiedLib : apexBundle :=
  { properties := { Native_shared_libs := ["libfoo"] } }

/-- A host cross target, used in the examples. -/
def exampleHostCross : Target :=
  { archType := .X86_64, multilib := "lib64", HostCross := true,
    OsVariation := "windows", ArchVariation := "x86_64" }

/-- A bundle that lists toolA in its top-level `binaries`, used in the
examples. -/
def exampleUnqualifiedBinary : apexBundle :=
  { properties := { Binaries := ["toolA"] } }

/-- A bundle that lists libx under `multilib.prefer32` and excludes it for arm,
used in the examples. -/
def examplePrefer32Excluded : apexBundle :=
  { properties := { Multilib := { Prefer32 := { Native_shared_libs := ["libx"] } } },
    archProperties := { Arm := { Exclude_native_shared_libs := ["libx"] } } }

/-- A bundle that lists libx under `multilib.prefer32`, used in the examples. -/
def examplePrefer32 : apexBundle :=
  { properties := { Multilib := { Prefer32 := { Native_shared_libs := ["libx"] } } } }

/-- A bundle that lists a rust dylib in its top-level `rust_dyn_libs`, used in
the examples. -/
def exampleTopLevelRustDylib : apexBundle :=
  { properties := { Rust_dyn_libs := ["libfoo.dylib.rust"] } }

/-- A bundle that lists a rust dylib under `multilib.both`, used in the
examples. -/
def exampleBothRustDylib : apexBundle :=
  { properties := { Multilib := { Both := { Rust_dyn_libs := ["libfoo.dylib.rust"] } } } }

/-! ## Dependencies for the overridable properties (`OverridablePropertiesDepsMutator`) -/

/-- The function `proptools.String`: the string a pointer refers to, the empty
string for a nil pointer. -/
def proptoolsString (s : Option String) : String :=
  s.getD ""

/-- The function `proptools.Bool`: the value a pointer refers to, false for a
nil pointer. -/
def proptoolsBool (b : Option Bool) : Bool :=
  b.getD false

/-- What `OverridablePropertiesDepsMutator` reads of an `android.Arch` of the
device configuration. -/
structure Arch where
  /-- Value of `arch.ArchType.Multilib`. -/
  multilib : String
  /-- Result of `arch.String()`. -/
  name : String
  deriving DecidableEq, Repr

/-- What `OverridablePropertiesDepsMutator` reads of its
`android.BottomUpMutatorContext`. -/
structure OverridableContext where
  /-- Result of `ctx.ModuleName()`. -/
  ModuleName : String := ""
  /-- Result of `ctx.Config().AndroidCommonTarget.Variations()`. -/
  commonVariation : List Variation := []
  /-- Result of `ctx.DeviceConfig().Arches()`. -/
  Arches : List Arch := []
  /-- Result of `ctx.Os().String()`. -/
  osName : String := "android"
  /-- The constant `vndkApexName`. -/
  vndkApexName : String := "com.android.vndk"
  /-- The function `ctx.DeviceConfig().OverrideCertificateFor`: the certificate
  when the module has an override. -/
  OverrideCertificateFor : String → Option String := fun _ => none
  /-- The function `android.SrcIsModule`. -/
  SrcIsModule : String → String := fun _ => ""

/-- Something a mutator does on its context. -/
inductive MutatorCall where
  /-- `ctx.AddFarVariationDependencies(variations, tag, names...)`. -/
  | AddFarVariationDependencies (variations : List Variation) (tag : dependencyTag)
      (names : List String)
  /-- `ctx.AddDependency(ctx.Module(), tag, names...)`. -/
  | AddDependency (tag : dependencyTag) (names : List String)
  /-- `android.ExtractSourceDeps(ctx, src)`. -/
  | ExtractSourceDeps (src : Option String)
  /-- `ctx.PropertyErrorf(property, message)`. -/
  | PropertyErrorf (property : String) (message : String)
  deriving DecidableEq, Repr

/-- The method `getCertString`. -/
def apexBundle.getCertString (a : apexBundle) (ctx : OverridableContext) : String :=
  let moduleName := if a.vndkApex then ctx.vndkApexName else ctx.ModuleName
  match ctx.OverrideCertificateFor moduleName with
  | some certificate => ":" ++ certificate
  | none => proptoolsString a.overridableProperties.Certificate

/-- The arch that `OverridablePropertiesDepsMutator` picks for `prebuilts`: the
first 64-bit arch of a non-empty list, the first arch if there is none. -/
def archForPrebuiltEtc (first : Arch) (arches : List Arch) : Arch :=
  match arches.find? (fun arch => arch.multilib = "lib64") with
  | some arch => arch
  | none => first

/-- The method `OverridablePropertiesDepsMutator`: what it does on its context,
in order. -/
def apexBundle.OverridablePropertiesDepsMutator (a : apexBundle) (ctx : OverridableContext) :
    List MutatorCall :=
  let allowed : List MutatorCall :=
    if a.overridableProperties.Allowed_files.isSome then
      [.ExtractSourceDeps a.overridableProperties.Allowed_files]
    else []
  let commonVariation := ctx.commonVariation
  let apps : List MutatorCall :=
    [ .AddFarVariationDependencies commonVariation androidAppTag a.overridableProperties.Apps,
      .AddFarVariationDependencies commonVariation bpfTag a.overridableProperties.Bpfs ]
  let prebuilts : List MutatorCall :=
    if a.overridableProperties.Prebuilts.length > 0 then
      match ctx.Arches with
      | [] => []
      | first :: rest =>
        [ .AddFarVariationDependencies
            [ { Mutator := "os", Variation := ctx.osName },
              { Mutator := "arch",
                Variation := (archForPrebuiltEtc first (first :: rest)).name } ]
            prebuiltTag a.overridableProperties.Prebuilts ]
    else []
  let signing : List MutatorCall :=
    if proptoolsString a.overridableProperties.Key = "" then
      [.PropertyErrorf "key" "missing"]
    else
      let cert := ctx.SrcIsModule (a.getCertString ctx)
      .AddDependency keyTag [proptoolsString a.overridableProperties.Key] ::
        (if cert ≠ "" then [.AddDependency certificateTag [cert]] else [])
  allowed ++ apps ++ prebuilts ++ signing

/-- The names to which a call declares an edge with the tag. -/
def MutatorCall.namesTagged (tag : dependencyTag) : MutatorCall → List String
  | .AddFarVariationDependencies _ t names => if t = tag then names else []
  | .AddDependency t names => if t = tag then names else []
  | .ExtractSourceDeps _ => []
  | .PropertyErrorf _ _ => []

/-- The names to which the calls declare an edge with the tag. -/
def taggedNames (tag : dependencyTag) (calls : List MutatorCall) : List String :=
  calls.flatMap (MutatorCall.namesTagged tag)

/-- The properties on which the calls report a property error. -/
def propertyErrors (calls : List MutatorCall) : List String :=
  calls.filterMap (fun c =>
    match c with
    | .PropertyErrorf property _ => some property
    | _ => none)

/-! ## Walks over the dependency graph -/

/-- The walk that `ctx.WalkDeps` runs (the `walkDeps` of the graph engine with
duplicates allowed), started at a module: for each direct dependency of the
module, in order, the visitor is called on the edge, and when it returns true
and the child has not been walked before, the child is walked and then marked
as visited. The state of the visitor is threaded through the calls. The result
is none when the depth of the walk exceeds the fuel. -/
def WalkDeps {E σ : Type} (directDeps : String → List E) (childOf : E → String)
    (visit : σ → E → σ × Bool) : Nat → String → σ × List String → Option (σ × List String)
  | 0, _, _ => none
  | fuel + 1, module, s =>
    (directDeps module).foldl
      (fun acc dep =>
        match acc with
        | none => none
        | some (st, visited) =>
          let r := visit st dep
          if r.2 && !visited.contains (childOf dep) then
            match WalkDeps directDeps childOf visit fuel (childOf dep) (r.1, visited) with
            | none => none
            | some (st2, visited2) => some (st2, childOf dep :: visited2)
          else some (r.1, visited))
      (some s)

/-! ## Availability check (`checkApexAvailability`) -/

/-- Whether a string starts with a prefix (`strings.HasPrefix`). -/
def hasPrefix (s pre : String) : Bool :=
  pre.toList.isPrefixOf s.toList

/-- Modelled from the spec: `android.RemoveOptionalPrebuiltPrefix` is declared in
the `android` package; the prebuilt_ prefix of a module name is removed. -/
def RemoveOptionalPrebuiltPrefix (name : String) : String :=
  if hasPrefix name "prebuilt_" then String.mk (name.toList.drop "prebuilt_".length) else name

/-- Modelled from the spec: the constant `android.AvailableToAnyApex` is declared
in the `android` package; the key of the list of modules available to any
apex. -/
def AvailableToAnyApex : String := "//apex_available:anyapex"

/-- The function `makeApexAvailableBaseline`: the map from an apex to the modules
that are available for it whatever their `apex_available`, as the list of its
entries. -/
def makeApexAvailableBaseline : List (String × List String) :=
  [
    ("com.android.appsearch",
      ["icing-java-proto-lite", "libprotobuf-java-lite"]),
    ("com.android.btservices",
      []),
    ("com.android.cellbroadcast",
      ["CellBroadcastApp", "CellBroadcastServiceModule"]),
    ("com.android.extservices",
      ["error_prone_annotations", "ExtServices-core", "ExtServices", "libtextclassifier-java",
      "libz_current", "textclassifier-statsd", "TextClassifierNotificationLibNoManifest",
      "TextClassifierServiceLibNoManifest"]),
    ("com.android.neuralnetworks",
      ["android.hardware.neuralnetworks@1.0", "android.hardware.neuralnetworks@1.1",
      "android.hardware.neuralnetworks@1.2", "android.hardware.neuralnetworks@1.3",
      "android.hidl.allocator@1.0", "android.hidl.memory.token@1.0",
      "android.hidl.memory@1.0", "android.hidl.safe_union@1.0", "libarect", "libbuildversion",
      "libmath", "libprocpartition"]),
    ("com.android.media",
      []),
    ("com.android.media.swcodec",
      []),
    ("com.android.mediaprovider",
      ["MediaProvider", "MediaProviderGoogle", "fmtlib_ndk", "libbase_ndk", "libfuse",
      "libfuse_jni"]),
    ("com.android.runtime",
      ["bionic_libc_platform_headers", "libarm-optimized-routines-math", "libc_aeabi",
      "libc_bionic", "libc_bionic_ndk", "libc_bootstrap", "libc_common", "libc_common_shared",
      "libc_common_static", "libc_dns", "libc_dynamic_dispatch", "libc_fortify",
      "libc_freebsd", "libc_freebsd_large_stack", "libc_gdtoa", "libc_init_dynamic",
      "libc_init_static", "libc_jemalloc_wrapper", "libc_netbsd", "libc_nomalloc",
      "libc_nopthread", "libc_openbsd", "libc_openbsd_large_stack", "libc_openbsd_ndk",
      "libc_pthread", "libc_static_dispatch", "libc_syscalls", "libc_tzcode",
      "libc_unwind_static", "libdebuggerd", "libdebuggerd_common_headers",
      "libdebuggerd_handler_core", "libdebuggerd_handler_fallback", "libdl_static",
      "libjemalloc5", "liblinker_main", "liblinker_malloc", "liblz4", "liblzma",
      "libprocinfo", "libpropertyinfoparser", "libscudo", "libstdc++", "libsystemproperties",
      "libtombstoned_client_static", "libunwindstack", "libz", "libziparchive"]),
    ("com.android.tethering",
      ["android.hardware.tetheroffload.config-V1.0-java",
      "android.hardware.tetheroffload.control-V1.0-java", "android.hidl.base-V1.0-java",
      "libcgrouprc", "libcgrouprc_format", "libtetherutilsjni", "libvndksupport",
      "net-utils-framework-common", "netd_aidl_interface-V3-java", "netlink-client",
      "networkstack-aidl-interfaces-java", "tethering-aidl-interfaces-java",
      "TetheringApiCurrentLib"]),
    ("com.android.wifi",
      ["PlatformProperties", "android.hardware.wifi-V1.0-java",
      "android.hardware.wifi-V1.0-java-constants", "android.hardware.wifi-V1.1-java",
      "android.hardware.wifi-V1.2-java", "android.hardware.wifi-V1.3-java",
      "android.hardware.wifi-V1.4-java", "android.hardware.wifi.hostapd-V1.0-java",
      "android.hardware.wifi.hostapd-V1.1-java", "android.hardware.wifi.hostapd-V1.2-java",
      "android.hardware.wifi.supplicant-V1.0-java",
      "android.hardware.wifi.supplicant-V1.1-java",
      "android.hardware.wifi.supplicant-V1.2-java",
      "android.hardware.wifi.supplicant-V1.3-java", "android.hidl.base-V1.0-java",
      "android.hidl.manager-V1.0-java", "android.hidl.manager-V1.1-java",
      "android.hidl.manager-V1.2-java", "vendor.qti.hardware.wifi.hostapd-V1.0-java",
      "vendor.qti.hardware.wifi.hostapd-V1.1-java",
      "vendor.qti.hardware.wifi.hostapd-V1.2-java",
      "vendor.qti.hardware.wifi.supplicant-V2.0-java",
      "vendor.qti.hardware.wifi.supplicant-V2.1-java",
      "vendor.qti.hardware.wifi.supplicant-V2.2-java", "vendor.qti.hardware.fstman-V1.0-java",
      "bouncycastle-unbundled", "dnsresolver_aidl_interface-V2-java",
      "error_prone_annotations", "framework-wifi-pre-jarjar", "framework-wifi-util-lib",
      "ipmemorystore-aidl-interfaces-V3-java", "ipmemorystore-aidl-interfaces-java", "ksoap2",
      "libnanohttpd", "libwifi-jni", "net-utils-services-common",
      "netd_aidl_interface-V2-java", "netd_aidl_interface-unstable-java",
      "netd_event_listener_interface-java", "netlink-client", "networkstack-client",
      "services.net", "wifi-lite-protos", "wifi-nano-protos", "wifi-service-pre-jarjar",
      "wifi-service-resources"]),
    ("com.android.os.statsd",
      ["libstatssocket"]),
    (AvailableToAnyApex,
      ["androidx", "androidx-constraintlayout_constraintlayout",
      "androidx-constraintlayout_constraintlayout-nodeps",
      "androidx-constraintlayout_constraintlayout-solver",
      "androidx-constraintlayout_constraintlayout-solver-nodeps",
      "com.google.android.material_material", "com.google.android.material_material-nodeps",
      "libclang_rt", "libprofile-clang-extras", "libprofile-clang-extras_ndk",
      "libprofile-extras", "libprofile-extras_ndk", "libunwind"]) ]

/-- The variable `apexAvailBaseline`. -/
def apexAvailBaseline : List (String × List String) := makeApexAvailableBaseline

/-- The function `normalizeModuleName`. -/
def normalizeModuleName (moduleName : String) : String :=
  let moduleName := RemoveOptionalPrebuiltPrefix moduleName
  let moduleName := if hasPrefix moduleName "libclang_rt." then "libclang_rt" else moduleName
  if hasPrefix moduleName "androidx." then "androidx" else moduleName

/-- The function `baselineApexAvailable`. -/
def baselineApexAvailable (apex moduleName : String) : Bool :=
  let key := apex
  let moduleName := normalizeModuleName moduleName
  match apexAvailBaseline.lookup key with
  | some val =>
    if InList moduleName val then true
    else
      match apexAvailBaseline.lookup AvailableToAnyApex with
      | some val => InList moduleName val
      | none => false
  | none =>
    match apexAvailBaseline.lookup AvailableToAnyApex with
    | some val => InList moduleName val
    | none => false

/-- An edge `from -> to` of the dependency graph as the walk of `WalkPayloadDeps`
and the callback of `checkApexAvailability` observe it. -/
structure PayloadEdge where
  /-- Identity of the parent module in the graph. -/
  parent : String
  /-- Identity of the child module in the graph. -/
  child : String
  /-- Result of `ctx.OtherModuleName(from)`. -/
  fromName : String
  /-- Result of `ctx.OtherModuleName(to)`. -/
  toName : String
  /-- The assertion `child.(android.ApexModule)` succeeds. -/
  isApexModule : Bool := true
  /-- Result of `am.CanHaveApexVariants()`. -/
  canHaveApexVariants : Bool := true
  /-- The tag of the edge implements `android.ExcludeFromApexContentsTag`. -/
  tagExcludeFromApexContents : Bool := false
  /-- The tag of the edge, when it is a `*dependencyTag` of this package. -/
  apexTag : Option dependencyTag := none
  /-- The member `InApexVariants` of the child's `android.ApexInfo`. -/
  InApexVariants : List String := []
  /-- The assertion `from.(android.DepIsInSameApex)` succeeds. -/
  fromIsDepIsInSameApex : Bool := true
  /-- Result of `am.DepIsInSameApex(ctx, to)`. -/
  DepIsInSameApex : Bool := true
  /-- Result of `to.AvailableFor(apexName)`, for the name of the bundle. -/
  AvailableFor : Bool := false
  /-- The assertion `to.(*cc.Module)` succeeds. -/
  toIsCcModule : Bool := false
  /-- Result of `ccm.HasStubsVariants()`. -/
  HasStubsVariants : Bool := false
  deriving DecidableEq, Repr

/-- The arguments of the `ctx.ModuleErrorf` call of `checkApexAvailability`,
apart from the dependency path: the module `fromName` requires `toName`, which
does not list the apex `apexName` under apex_available. -/
structure AvailabilityError where
  fromName : String
  toName : String
  apexName : String
  deriving DecidableEq, Repr

/-- What `checkApexAvailability` reads of its `android.ModuleContext`. -/
structure AvailabilityContext where
  /-- Result of `ctx.ModuleName()`. -/
  ModuleName : String
  /-- Identity of the bundle in the graph. -/
  module : String
  /-- Result of `ctx.Host()`. -/
  Host : Bool := false
  /-- Result of `ctx.Config().EnforceProductPartitionInterface()`. -/
  EnforceProductPartitionInterface : Bool := false
  /-- Result of `ctx.Config().IsEnvTrue("EMMA_INSTRUMENT")`. -/
  emmaInstrument : Bool := false
  /-- Result of `a.IsNativeCoverageNeeded(ctx)`. -/
  IsNativeCoverageNeeded : Bool := false
  deriving DecidableEq, Repr

/-- The visitor that `WalkPayloadDeps` passes to `ctx.WalkDeps`, for a callback
`do` with state. -/
def WalkPayloadDepsVisitor {σ : Type} (moduleName : String)
    (callback : σ → PayloadEdge → Bool → σ × Bool) (s : σ) (e : PayloadEdge) : σ × Bool :=
  if !e.isApexModule || !e.canHaveApexVariants then (s, false)
  else if e.tagExcludeFromApexContents then (s, false)
  else if e.apexTag.any (fun dt => !dt.payload) then (s, false)
  else
    let externalDep := !InList moduleName e.InApexVariants
    callback s e externalDep

/-- The method `WalkPayloadDeps`, for a callback with state: the state after the
walk, none when the depth of the graph exceeds the fuel. -/
def WalkPayloadDeps {σ : Type} (moduleName module : String)
    (directDeps : String → List PayloadEdge) (fuel : Nat)
    (callback : σ → PayloadEdge → Bool → σ × Bool) (s : σ) : Option σ :=
  (WalkDeps directDeps (fun e => e.child) (WalkPayloadDepsVisitor moduleName callback)
    fuel module (s, [])).map (fun r => r.1)

/-- The callback that `checkApexAvailability` passes to `WalkPayloadDeps`; the
state is the list of module errors reported so far. -/
def checkApexAvailabilityCallback (apexName : String) (errors : List AvailabilityError)
    (e : PayloadEdge) (externalDep : Bool) : List AvailabilityError × Bool :=
  if externalDep then (errors, false)
  else
    let fromName := e.fromName
    let toName := e.toName
    if e.fromIsDepIsInSameApex && !e.DepIsInSameApex then (errors, false)
    else if e.AvailableFor || baselineApexAvailable apexName toName then (errors, true)
    else
      (errors ++ [{ fromName := fromName, toName := toName, apexName := apexName }], true)

/-- The method `checkApexAvailability`: the module errors reported, none when
the depth of the graph exceeds the fuel. -/
def apexBundle.checkApexAvailability (a : apexBundle) (ctx : AvailabilityContext)
    (directDeps : String → List PayloadEdge) (fuel : Nat) : Option (List AvailabilityError) :=
  if ctx.Host || a.testApex || a.vndkApex then some []
  else if a.socSpecific || a.deviceSpecific ||
      (a.productSpecific && ctx.EnforceProductPartitionInterface) then some []
  else if ctx.emmaInstrument || ctx.IsNativeCoverageNeeded then some []
  else
    WalkPayloadDeps ctx.ModuleName ctx.module directDeps fuel
      (checkApexAvailabilityCallback ctx.ModuleName) []

/-- A graph in which the bundle myapex depends on libA, which is not built for
myapex, and libA depends on libB, which is built for myapex and is not
available for it. Used in the examples. -/
def exampleExternalGraph (module : String) : List PayloadEdge :=
  if module = "myapex" then
    [{ parent := "myapex", child := "libA", fromName := "myapex", toName := "libA",
       apexTag := some sharedLibTag, InApexVariants := [] }]
  else if module = "libA" then
    [{ parent := "libA", child := "libB", fromName := "libA", toName := "libB",
       InApexVariants := ["myapex"] }]
  else []

/-- A graph in which the bundle myapex depends on libA and libA on libB, both
built for myapex; libA is available for myapex and libB is not. Used in the
examples. -/
def exampleInternalGraph (module : String) : List PayloadEdge :=
  if module = "myapex" then
    [{ parent := "myapex", child := "libA", fromName := "myapex", toName := "libA",
       apexTag := some sharedLibTag, InApexVariants := ["myapex"], AvailableFor := true }]
  else if module = "libA" then
    [{ parent := "libA", child := "libB", fromName := "libA", toName := "libB",
       InApexVariants := ["myapex"] }]
  else []

/-! ## Collection of the packaged files (`depVisitor`) -/

/-- The dynamic type of a child module, as far as the type switches and type
assertions of `depVisitor` tell types apart. -/
inductive ModuleType where
  | ccModule
  | rustModule
  | pythonBinaryModule
  | goBinaryTool
  | shBinary
  | bootclasspathFragmentModule
  | systemServerClasspathModule
  | javaLibrary
  | javaSdkLibrary
  | javaDexImport
  | javaSdkLibraryImport
  | javaImport
  | androidApp
  | androidAppImport
  | androidTestHelperApp
  | androidAppSet
  | runtimeResourceOverlayModule
  | bpfModule
  | filesystem
  | prebuiltEtcModule
  | platformCompatConfig
  | apexKey
  | androidAppCertificate
  | other
  deriving DecidableEq, Repr

/-- An edge `parent -> child` of the dependency graph as `depVisitor` observes
it: the outcome of every query that the function makes on the tag and on the
child. The members `file`, `files` and `optionalFile` hold what the
`apexFileFor...` function that `depVisitor` calls for the edge returns. -/
structure DepEdge where
  /-- Identity of the child module in the graph. -/
  child : String
  /-- Result of `ctx.OtherModuleName(child)`. -/
  depName : String
  /-- The assertion `parent.(*apexBundle)` succeeds. -/
  parentIsApexBundle : Bool := false
  /-- The tag implements `android.ExcludeFromApexContentsTag`. -/
  tagExcludeFromApexContents : Bool := false
  /-- The tag, when it is a `*dependencyTag` of this package. -/
  apexTag : Option dependencyTag := none
  IsSharedDepTag : Bool := false
  IsRuntimeDepTag : Bool := false
  IsTestPerSrcDepTag : Bool := false
  IsHeaderDepTag : Bool := false
  IsJniDepTag : Bool := false
  IsXmlPermissionsFileDepTag : Bool := false
  IsDylibDepTag : Bool := false
  IsRlibDepTag : Bool := false
  IsBootclasspathFragmentContentDepTag : Bool := false
  IsSystemServerClasspathFragmentContentDepTag : Bool := false
  /-- The tag implements `android.CopyDirectlyInAnyApexTag`. -/
  tagCopyDirectlyInAnyApex : Bool := false
  /-- The tag is `android.DarwinUniversalVariantTag`. -/
  tagDarwinUniversalVariant : Bool := false
  /-- Result of `android.PrettyPrintTag(depTag)`. -/
  prettyTag : String := ""
  /-- The assertion `child.(android.Module)` succeeds. -/
  isAndroidModule : Bool := true
  /-- Result of `mod.Enabled()`. -/
  Enabled : Bool := true
  moduleType : ModuleType := .other
  /-- Result of `ctx.OtherModuleType(child)`. -/
  moduleTypeName : String := ""
  /-- The assertion `child.(android.ApexModule)` succeeds. -/
  isApexModule : Bool := true
  CanHaveApexVariants : Bool := true
  IsInstallableToApex : Bool := true
  DirectlyInAnyApex : Bool := false
  HasStubsVariants : Bool := false
  IsStubs : Bool := false
  UseVndk : Bool := false
  IsVndk : Bool := false
  IsStubsImplementationRequired : Bool := false
  IsTestPerSrcAllTestsVariation : Bool := false
  /-- Result of `cc.InstallToBootstrap(ch.BaseModuleName(), ctx.Config())`. -/
  InstallToBootstrap : Bool := false
  /-- Value of `ch.ImplementationModuleNameForMake(ctx) + ch.Properties.SubName`. -/
  makeModuleName : String := ""
  /-- Result of `android.IsDepInSameApex(ctx, am, am)`. -/
  IsDepInSameApex : Bool := true
  /-- Result of `ch.HostToolPath().Valid()`. -/
  hostToolPathValid : Bool := false
  /-- The single `apexFile` made for the child. -/
  file : apexFile := { builtFile := "" }
  /-- Result of `af.ok()` for that file. -/
  fileOk : Bool := true
  /-- The list of `apexFile` made for a bootclasspath fragment or a bpf
  program. -/
  files : List apexFile := []
  /-- The optional `apexFile`: the classpath proto file of a
  systemserverclasspath fragment, the profile of a java module. -/
  optionalFile : Option apexFile := none
  /-- The key files of an apex_key, the certificate files of an
  android_app_certificate. -/
  privateKeyFile : Option String := none
  publicKeyFile : Option String := none
  certificatePem : Option String := none
  certificateKey : Option String := none
  deriving DecidableEq, Repr

/-- The arguments of a `ctx.PropertyErrorf` (with the property) or
`ctx.ModuleErrorf` (without) call of `depVisitor`. -/
structure VisitError where
  property : Option String
  format : String
  args : List String
  deriving DecidableEq, Repr

/-- What `depVisitor` reads and writes besides the edge: the visitor context,
the members of the bundle that it assigns, and the errors reported. -/
structure DepVisitorState where
  vctx : visitorContext := {}
  makeModulesToInstall : List String := []
  privateKeyFile : Option String := none
  publicKeyFile : Option String := none
  containerCertificateFile : Option String := none
  containerPrivateKeyFile : Option String := none
  errors : List VisitError := []
  deriving DecidableEq, Repr

/-- The statement `vctx.filesInfo = append(vctx.filesInfo, files...)`. -/
def DepVisitorState.appendFiles (s : DepVisitorState) (files : List apexFile) :
    DepVisitorState :=
  { s with vctx := { s.vctx with filesInfo := s.vctx.filesInfo ++ files } }

/-- A call of `ctx.PropertyErrorf`. -/
def DepVisitorState.PropertyErrorf (s : DepVisitorState) (property format : String)
    (args : List String) : DepVisitorState :=
  { s with errors := s.errors ++ [{ property := some property, format := format, args := args }] }

/-- A call of `ctx.ModuleErrorf`. -/
def DepVisitorState.ModuleErrorf (s : DepVisitorState) (format : String)
    (args : List String) : DepVisitorState :=
  { s with errors := s.errors ++ [{ property := none, format := format, args := args }] }

/-- What `depVisitor` reads of its `android.ModuleContext`. -/
structure DepVisitorContext where
  /-- Result of `ctx.Config().UnbundledBuild()`. -/
  UnbundledBuild : Bool := false
  /-- The membership table published by `ApexInfoMutator`, read through
  `ctx.Provider(ApexBundleInfoProvider)`. -/
  Contents : Contents := emptyContents

/-- Modelled from the spec: `ApexContents.DirectlyInApex` is declared in the
`android` package; whether the membership table has the name as a direct
member. -/
def DirectlyInApex (contents : Contents) (name : String) : Bool :=
  contents name == .directlyInApex

/-- The part of `depVisitor` for a direct dependency of the bundle: the switch on
the tag of the edge. -/
def apexBundle.depVisitorDirect (a : apexBundle) (s : DepVisitorState) (e : DepEdge) :
    DepVisitorState × Bool :=
  let depName := e.depName
  if e.apexTag = some sharedLibTag ∨ e.apexTag = some jniLibTag then
    let isJniLib := decide (e.apexTag = some jniLibTag)
    match e.moduleType with
    | .ccModule =>
      let fi := { e.file with isJniLib := isJniLib }
      let s := s.appendFiles [fi]
      let s :=
        if e.HasStubsVariants && !a.vndkApex && !e.InstallToBootstrap then
          { s with vctx := { s.vctx with
              provideNativeLibs := s.vctx.provideNativeLibs ++ [fi.stem] } }
        else s
      (s, true)
    | .rustModule =>
      let fi := { e.file with isJniLib := isJniLib }
      (s.appendFiles [fi], true)
    | _ =>
      let propertyName := if isJniLib then "jni_libs" else "native_shared_libs"
      (s.PropertyErrorf propertyName
        "%q is not a cc_library or cc_library_shared module" [depName], false)
  else if e.apexTag = some executableTag then
    match e.moduleType with
    | .ccModule => (s.appendFiles [e.file], true)
    | .pythonBinaryModule =>
      (if e.hostToolPathValid then s.appendFiles [e.file] else s, false)
    | .goBinaryTool => (if a.host then s.appendFiles [e.file] else s, false)
    | .rustModule => (s.appendFiles [e.file], true)
    | _ =>
      (s.PropertyErrorf "binaries"
        ("%q is neither cc_binary, rust_binary, (embedded) py_binary, " ++
          "(host) blueprint_go_binary, nor (host) bootstrap_go_binary") [depName], false)
  else if e.apexTag = some shBinaryTag then
    if e.moduleType = .shBinary then (s.appendFiles [e.file], false)
    else (s.PropertyErrorf "sh_binaries" "%q is not a sh_binary module" [depName], false)
  else if e.apexTag = some bcpfTag then
    if e.moduleType ≠ .bootclasspathFragmentModule then
      (s.PropertyErrorf "bootclasspath_fragments"
        "%q is not a bootclasspath_fragment module" [depName], false)
    else (s.appendFiles e.files, true)
  else if e.apexTag = some sscpfTag then
    if e.moduleType ≠ .systemServerClasspathModule then
      (s.PropertyErrorf "systemserverclasspath_fragments"
        "%q is not a systemserverclasspath_fragment module" [depName], false)
    else (s.appendFiles e.optionalFile.toList, true)
  else if e.apexTag = some javaLibTag then
    match e.moduleType with
    | .javaLibrary | .javaSdkLibrary | .javaDexImport | .javaSdkLibraryImport | .javaImport =>
      if !e.fileOk then
        (s.PropertyErrorf "java_libs" "%q is not configured to be compiled into dex" [depName],
          false)
      else (s.appendFiles [e.file], true)
    | _ =>
      (s.PropertyErrorf "java_libs" "%q of type %q is not supported"
        [depName, e.moduleTypeName], false)
  else if e.apexTag = some androidAppTag then
    match e.moduleType with
    | .androidApp => (s.appendFiles [e.file], true)
    | .androidAppImport => (s.appendFiles [e.file], false)
    | .androidTestHelperApp => (s.appendFiles [e.file], false)
    | .androidAppSet => (s.appendFiles [e.file], false)
    | _ => (s.PropertyErrorf "apps" "%q is not an android_app module" [depName], false)
  else if e.apexTag = some rroTag then
    if e.moduleType = .runtimeResourceOverlayModule then (s.appendFiles [e.file], false)
    else
      (s.PropertyErrorf "rros" "%q is not an runtime_resource_overlay module" [depName], false)
  else if e.apexTag = some bpfTag then
    if e.moduleType = .bpfModule then (s.appendFiles e.files, false)
    else (s.PropertyErrorf "bpfs" "%q is not a bpf module" [depName], false)
  else if e.apexTag = some fsTag then
    if e.moduleType = .filesystem then (s.appendFiles [e.file], false)
    else (s.PropertyErrorf "filesystems" "%q is not a filesystem module" [depName], false)
  else if e.apexTag = some prebuiltTag then
    if e.moduleType = .prebuiltEtcModule then (s.appendFiles [e.file], false)
    else (s.PropertyErrorf "prebuilts" "%q is not a prebuilt_etc module" [depName], false)
  else if e.apexTag = some compatConfigTag then
    if e.moduleType = .platformCompatConfig then (s.appendFiles [e.file], false)
    else
      (s.PropertyErrorf "compat_configs" "%q is not a platform_compat_config module" [depName],
        false)
  else if e.apexTag = some testTag then
    if e.moduleType = .ccModule then
      if e.IsTestPerSrcAllTestsVariation then (s, true)
      else (s.appendFiles [{ e.file with class_ := .nativeTest }], true)
    else (s.PropertyErrorf "tests" "%q is not a cc module" [depName], false)
  else if e.apexTag = some keyTag then
    if e.moduleType = .apexKey then
      ({ s with privateKeyFile := e.privateKeyFile, publicKeyFile := e.publicKeyFile }, false)
    else (s.PropertyErrorf "key" "%q is not an apex_key module" [depName], false)
  else if e.apexTag = some certificateTag then
    if e.moduleType = .androidAppCertificate then
      ({ s with containerCertificateFile := e.certificatePem,
                containerPrivateKeyFile := e.certificateKey }, false)
    else
      (s.ModuleErrorf "certificate dependency %q must be an android_app_certificate module"
        [depName], false)
  else (s, false)

/-- The part of `depVisitor` for an indirect dependency, after the test for the
VNDK apex. -/
def apexBundle.depVisitorIndirect (a : apexBundle) (ctx : DepVisitorContext)
    (s : DepVisitorState) (e : DepEdge) : DepVisitorState × Bool :=
  let depName := e.depName
  if !e.isApexModule then (s, false)
  else if e.IsSharedDepTag || e.IsRuntimeDepTag then
    if e.moduleType = .ccModule then
      if e.UseVndk && proptoolsBool a.properties.Use_vndk_as_stable && e.IsVndk then
        ({ s with vctx := { s.vctx with
            requireNativeLibs := s.vctx.requireNativeLibs ++ [":vndk"] } }, false)
      else
        let af := { e.file with transitiveDep := true }
        if a.host then (s.appendFiles [af], true)
        else if !DirectlyInApex ctx.Contents depName && (e.IsStubs || e.HasStubsVariants) then
          let s :=
            if e.IsStubsImplementationRequired && !e.DirectlyInAnyApex && !ctx.UnbundledBuild
            then
              let name := e.makeModuleName
              if !InList name s.makeModulesToInstall then
                { s with makeModulesToInstall := s.makeModulesToInstall ++ [name] }
              else s
            else s
          ({ s with vctx := { s.vctx with
              requireNativeLibs := s.vctx.requireNativeLibs ++ [af.stem] } }, false)
        else if !e.IsDepInSameApex then (s, false)
        else (s.appendFiles [af], true)
    else if e.moduleType = .rustModule then
      (s.appendFiles [{ e.file with transitiveDep := true }], true)
    else (s, false)
  else if e.IsTestPerSrcDepTag then
    if e.moduleType = .ccModule then
      let af := { e.file with androidMkModuleName := filepathBase e.file.builtFile,
                              transitiveDep := false }
      (s.appendFiles [af], true)
    else (s, false)
  else if e.IsHeaderDepTag then (s, false)
  else if e.IsJniDepTag then (s, false)
  else if e.IsXmlPermissionsFileDepTag then
    if e.moduleType = .prebuiltEtcModule then (s.appendFiles [e.file], false) else (s, false)
  else if e.IsDylibDepTag then
    if e.moduleType = .rustModule && e.IsInstallableToApex then
      (s.appendFiles [{ e.file with transitiveDep := true }], true)
    else (s, false)
  else if e.IsRlibDepTag then (s, true)
  else if e.IsBootclasspathFragmentContentDepTag then
    match e.moduleType with
    | .javaLibrary | .javaSdkLibrary =>
      if !e.fileOk then
        (s.PropertyErrorf "bootclasspath_fragments"
          "bootclasspath_fragment content %q is not configured to be compiled into dex"
          [depName], false)
      else (s.appendFiles [e.file], true)
    | _ =>
      (s.PropertyErrorf "bootclasspath_fragments"
        "bootclasspath_fragment content %q of type %q is not supported"
        [depName, e.moduleTypeName], false)
  else if e.IsSystemServerClasspathFragmentContentDepTag then
    match e.moduleType with
    | .javaLibrary | .javaSdkLibrary =>
      ((s.appendFiles [e.file]).appendFiles e.optionalFile.toList, true)
    | _ =>
      (s.PropertyErrorf "systemserverclasspath_fragments"
        "systemserverclasspath_fragment content %q of type %q is not supported"
        [depName, e.moduleTypeName], false)
  else if e.tagCopyDirectlyInAnyApex then (s, false)
  else if e.tagDarwinUniversalVariant then (s, false)
  else if e.CanHaveApexVariants && e.IsInstallableToApex then
    (s.ModuleErrorf "unexpected tag %s for indirect dependency %q" [e.prettyTag, depName],
      false)
  else (s, false)

/-- The method `depVisitor`: the state after the call and the result (whether
the walk goes on through the child). -/
def apexBundle.depVisitor (a : apexBundle) (ctx : DepVisitorContext) (s : DepVisitorState)
    (e : DepEdge) : DepVisitorState × Bool :=
  if e.tagExcludeFromApexContents then (s, false)
  else if e.isAndroidModule && !e.Enabled then (s, false)
  else if e.parentIsApexBundle then a.depVisitorDirect s e
  else if a.vndkApex then (s, false)
  else a.depVisitorIndirect ctx s e

/-! ## API levels and `minSdkVersionValue` -/

/-- The type `android.ApiLevel` and what the functions at hand use of it; they
are declared in the `android` package and are taken as parameters, together with
the result of `ctx.DeviceConfig().ApexGlobalMinSdkVersionOverride()`. -/
structure ApiLevels (L : Type) where
  /-- The value `android.NoneApiLevel`. -/
  NoneApiLevel : L
  /-- Result of `level.IsNone()`. -/
  IsNone : L → Bool
  /-- Result of `level.CompareTo(other)`. -/
  CompareTo : L → L → Int
  /-- Result of `level.String()`. -/
  levelString : L → String
  /-- Result of `android.ApiLevelFromUser(ctx, value)`: the level, or the text of
  the error. -/
  ApiLevelFromUser : String → Except String L
  /-- Result of `ctx.DeviceConfig().ApexGlobalMinSdkVersionOverride()`. -/
  ApexGlobalMinSdkVersionOverride : String := ""

/-- The function `minSdkVersionFromValue`: the level and the property errors
reported. -/
def minSdkVersionFromValue {L : Type} (api : ApiLevels L) (value : String) :
    L × List VisitError :=
  if value = "" then (api.NoneApiLevel, [])
  else
    match api.ApiLevelFromUser value with
    | .error err =>
      (api.NoneApiLevel, [{ property := some "min_sdk_version", format := "%s", args := [err] }])
    | .ok apiLevel => (apiLevel, [])

/-- The level that `minSdkVersionValue` holds in `minApiLevel` when it returns
its string, for the declared level and the level of the override. -/
def overriddenMinApiLevel {L : Type} (api : ApiLevels L) (minApiLevel overrideApiLevel : L) : L :=
  if !api.IsNone overrideApiLevel && decide (api.CompareTo overrideApiLevel minApiLevel > 0) then
    overrideApiLevel
  else minApiLevel

/-- The method `minSdkVersionValue`: the string returned and the property errors
reported. -/
def apexBundle.minSdkVersionValue {L : Type} (a : apexBundle) (api : ApiLevels L) :
    String × List VisitError :=
  let r := minSdkVersionFromValue api (proptoolsString a.properties.Min_sdk_version)
  if api.IsNone r.1 then ("", r.2)
  else
    let overrideMinSdkValue := api.ApexGlobalMinSdkVersionOverride
    let o := minSdkVersionFromValue api overrideMinSdkValue
    (api.levelString (overriddenMinApiLevel api r.1 o.1), r.2 ++ o.2)

/-- API levels for the examples: the levels are numbers, the level none is 0,
the strings 29, 30 and 31 are the levels that parse, and levels compare as
numbers. -/
def exampleApiLevels (overrideValue : String) : ApiLevels Nat where
  NoneApiLevel := 0
  IsNone := fun l => l == 0
  CompareTo := fun l other => if l < other then -1 else if l = other then 0 else 1
  levelString := fun l =>
    if l = 29 then "29" else if l = 30 then "30" else if l = 31 then "31" else "(no version)"
  ApiLevelFromUser := fun value =>
    if value = "29" then .ok 29
    else if value = "30" then .ok 30
    else if value = "31" then .ok 31
    else .error "could not be parsed as an integer and is not a recognized codename"
  ApexGlobalMinSdkVersionOverride := overrideValue

/-! ## The mutator `ApexInfoMutator` on a graph -/

/-- What `ApexInfoMutator` reads of its `android.TopDownMutatorContext`. -/
structure ApexInfoContext where
  /-- Result of `mctx.ModuleName()`. -/
  ModuleName : String
  /-- Identity of the bundle in the graph. -/
  module : String
  /-- Result of `mctx.Config().EnforceProductPartitionInterface()`. -/
  EnforceProductPartitionInterface : Bool := false
  /-- The modules that `mctx.VisitDirectDepsWithTag(sharedLibTag, ...)` visits. -/
  sharedLibDeps : List Module := []
  deriving DecidableEq, Repr

/-- What `ApexInfoMutator` leaves behind: the property errors reported, whether
the membership table was published with `mctx.SetProvider`, the table, the
modules on which `BuildForApex` was called, the `ApexVariationName` assigned and
the libraries published for a dynamic common lib apex. -/
structure ApexInfoResult where
  errors : List VisitError := []
  published : Bool := false
  contents : Contents := emptyContents
  marked : List String := []
  ApexVariationName : Option String := none
  ProvidedLibs : Option (List String) := none

/-- The value of `excludeVndkLibs` in `ApexInfoMutator`. -/
def apexBundle.excludeVndkLibs (a : apexBundle) (mctx : ApexInfoContext) : Bool :=
  let useVndk := a.socSpecific || a.deviceSpecific ||
    (a.productSpecific && mctx.EnforceProductPartitionInterface)
  useVndk && proptoolsBool a.properties.Use_vndk_as_stable

/-- The errors that `ApexInfoMutator` reports in its block for
`use_vndk_as_stable`, before the test of `mctx.Failed()`: the property errors on
`use_vndk_as_stable` and, between the first and the second of them, the errors
that the call of `a.minSdkVersionValue(mctx)` reports. -/
def apexBundle.useVndkAsStableErrors {L : Type} (a : apexBundle) (mctx : ApexInfoContext)
    (api : ApiLevels L) : List VisitError :=
  let useVndk := a.socSpecific || a.deviceSpecific ||
    (a.productSpecific && mctx.EnforceProductPartitionInterface)
  if proptoolsBool a.properties.Use_vndk_as_stable then
    (if !useVndk then
      [{ property := some "use_vndk_as_stable",
         format := "not supported for system/system_ext APEXes", args := [] }]
     else [])
    ++ (a.minSdkVersionValue api).2
    ++ (if (a.minSdkVersionValue api).1 ≠ "" then
      [{ property := some "use_vndk_as_stable",
         format := "not supported when min_sdk_version is set", args := [] }]
     else [])
    ++ (mctx.sharedLibDeps.filter (fun dep => dep.isCcModule && dep.isVndk)).map
      (fun dep =>
        { property := some "use_vndk_as_stable",
          format := "Trying to include a VNDK library(%s) while use_vndk_as_stable is true.",
          args := [dep.name] })
  else []

/-- The errors that the call of `a.minSdkVersion(mctx)` reports: those of
`minSdkVersionValue` and those of `minSdkVersionFromValue` on its result. -/
def apexBundle.minSdkVersionErrors {L : Type} (a : apexBundle) (api : ApiLevels L) :
    List VisitError :=
  (a.minSdkVersionValue api).2 ++ (minSdkVersionFromValue api (a.minSdkVersionValue api).1).2

/-- The method `ApexInfoMutator` on a graph whose edges are paired with the
identity of their child: none when the depth of the graph exceeds the fuel.
`mctx.Failed()`, tested in the block for `use_vndk_as_stable`, holds when an
error has been reported in this call. The `ApexInfo` passed to `BuildForApex` is
left out. -/
def apexBundle.ApexInfoMutator {L : Type} (a : apexBundle) (mctx : ApexInfoContext)
    (api : ApiLevels L) (directDeps : String → List (String × Visit)) (fuel : Nat) :
    Option ApexInfoResult :=
  if a.vndkApex then some {}
  else
    let excludeVndkLibs := a.excludeVndkLibs mctx
    let errors := a.useVndkAsStableErrors mctx api
    if proptoolsBool a.properties.Use_vndk_as_stable && !errors.isEmpty then
      some { errors := errors }
    else
      match WalkDeps directDeps (fun e => e.1)
          (fun contents e => contentsVisitor excludeVndkLibs contents e.2)
          fuel mctx.module (emptyContents, []) with
      | none => none
      | some (contents, _) =>
        match WalkDeps directDeps (fun e => e.1)
            (fun marked e => buildForApexVisitor excludeVndkLibs marked e.2)
            fuel mctx.module ([], []) with
        | none => none
        | some (marked, _) =>
          some { errors := errors ++ a.minSdkVersionErrors api, published := true,
                 contents := contents, marked := marked,
                 ApexVariationName := some mctx.ModuleName,
                 ProvidedLibs :=
                   if a.properties.Dynamic_common_lib_apex.getD false then
                     some a.properties.Native_shared_libs
                   else none }

/-- An indirect shared library edge to libstub, a cc library with stub variants.
Used in the examples. -/
def exampleStubEdge : DepEdge :=
  { child := "libstub", depName := "libstub", IsSharedDepTag := true,
    moduleType := .ccModule, HasStubsVariants := true,
    file := { builtFile := "out/libstub/libstub.so", installDir := "lib64",
              class_ := .nativeSharedLib } }

/-- An indirect shared library edge to libvndk, a VNDK library; `useVndk` tells
whether the variant reached uses the VNDK. Used in the examples. -/
def exampleVndkEdge (useVndk : Bool) : DepEdge :=
  { child := "libvndk", depName := "libvndk", IsSharedDepTag := true,
    moduleType := .ccModule, IsVndk := true, UseVndk := useVndk,
    file := { builtFile := "out/libvndk/libvndk.so", installDir := "lib64",
              class_ := .nativeSharedLib } }

/-- A vendor bundle with `use_vndk_as_stable: true`. Used in the examples. -/
def exampleVendorApex : apexBundle :=
  { properties := { Use_vndk_as_stable := some true }, socSpecific := true }

/-- The module libfoo, a cc library. Used in the examples. -/
def exampleLibfoo : Module :=
  { name := "libfoo", isApexBundle := false, isApexModule := true,
    canHaveApexVariants := true, isCcModule := true, isVndk := false }

/-- The module libvndk, a VNDK cc library. Used in the examples. -/
def exampleLibvndk : Module :=
  { name := "libvndk", isApexBundle := false, isApexModule := true,
    canHaveApexVariants := true, isCcModule := true, isVndk := true }

/-- The bundle myapex as a parent module. Used in the examples. -/
def exampleMyapex : Module :=
  { name := "myapex", isApexBundle := true, isApexModule := false,
    canHaveApexVariants := false, isCcModule := false, isVndk := false }

/-- A graph in which the bundle myapex depends on libfoo and libfoo on the VNDK
library libvndk; `always` tells whether the tag of the second edge always
requires an apex variant. Used in the examples. -/
def exampleVndkGraph (always : Bool) (module : String) : List (String × Visit) :=
  if module = "myapex" then
    [("libfoo", { child := exampleLibfoo, parent := exampleMyapex, tagIsAlwaysRequire := false,
                  tagAlwaysRequireApexVariant := false, depInSameApex := true })]
  else if module = "libfoo" then
    [("libvndk", { child := exampleLibvndk, parent := exampleLibfoo,
                   tagIsAlwaysRequire := always, tagAlwaysRequireApexVariant := always,
                   depInSameApex := true })]
  else []

/-! ## Checks before the build actions -/

/-- The arguments of the `ctx.ModuleErrorf` call of
`checkStaticLinkingToStubLibraries`, apart from the dependency path: the library
`toName`, required by `fromName`, is a native library providing stub. -/
structure StubLinkError where
  toName : String
  fromName : String
  deriving DecidableEq, Repr

/-- The callback that `checkStaticLinkingToStubLibraries` passes to
`WalkPayloadDeps`; `abInfo` is the membership table of the bundle and the state
is the list of module errors reported so far. -/
def checkStaticLinkingToStubLibrariesCallback (apexName : String) (abInfo : Contents)
    (errors : List StubLinkError) (e : PayloadEdge) (externalDep : Bool) :
    List StubLinkError × Bool :=
  if e.toIsCcModule then
    let fromName := e.fromName
    let toName := e.toName
    if e.fromIsDepIsInSameApex && !e.DepIsInSameApex then (errors, false)
    else if apexName == "com.android.runtime" &&
        (fromName == "linker" || fromName == "crash_dump" || fromName == "linkerconfig") then
      (errors, false)
    else
      let isStubLibraryFromOtherApex := e.HasStubsVariants && !DirectlyInApex abInfo toName
      if isStubLibraryFromOtherApex && !externalDep then
        (errors ++ [{ toName := toName, fromName := fromName }], true)
      else (errors, true)
  else (errors, true)

/-- The method `checkStaticLinkingToStubLibraries`: the module errors reported,
none when the depth of the graph exceeds the fuel. Of the context, `ModuleName`,
`module` and `Host` are read. -/
def apexBundle.checkStaticLinkingToStubLibraries (a : apexBundle) (ctx : AvailabilityContext)
    (abInfo : Contents) (directDeps : String → List PayloadEdge) (fuel : Nat) :
    Option (List StubLinkError) :=
  if ctx.Host || a.testApex || a.vndkApex then some []
  else
    WalkPayloadDeps ctx.ModuleName ctx.module directDeps fuel
      (checkStaticLinkingToStubLibrariesCallback ctx.ModuleName abInfo) []

/-- A graph of the bundle com.android.runtime: the bundle depends on the binary
named by `tool`, which links libc, a cc library with stub variants that is not a
direct member of the bundle. Used in the examples. -/
def exampleRuntimeGraph (tool : String) (module : String) : List PayloadEdge :=
  if module = "com.android.runtime" then
    [{ parent := "com.android.runtime", child := tool, fromName := "com.android.runtime",
       toName := tool, apexTag := some executableTag,
       InApexVariants := ["com.android.runtime"], toIsCcModule := true }]
  else if module = tool then
    [{ parent := tool, child := "libc", fromName := tool, toName := "libc",
       InApexVariants := ["com.android.runtime"], toIsCcModule := true,
       HasStubsVariants := true }]
  else []

/-- A direct dependency of the bundle as `checkStaticExecutables` observes
it. -/
structure ExecutableDep where
  /-- Result of `ctx.OtherModuleName(module)`. -/
  name : String
  /-- Result of `ctx.OtherModuleDependencyTag(module)`, when it is a
  `*dependencyTag` of this package. -/
  tag : Option dependencyTag := none
  /-- The assertion `module.(cc.LinkableInterface)` succeeds. -/
  isLinkableInterface : Bool := false
  /-- Result of `l.StaticExecutable()`. -/
  StaticExecutable : Bool := false
  deriving DecidableEq, Repr

/-- The function `isStaticExecutableAllowed`. -/
def isStaticExecutableAllowed (apex : String) (exec : String) : Bool :=
  let m : List (String × List String) := [("com.android.runtime", ["linker", "linkerconfig"])]
  match m.lookup apex with
  | some execNames => InList exec execNames
  | none => false

/-- The method `checkStaticExecutables`: the module errors reported, for the
result `host` of `ctx.Host()` and the direct dependencies of the bundle. -/
def apexBundle.checkStaticExecutables (a : apexBundle) (host : Bool)
    (directDeps : List ExecutableDep) : List VisitError :=
  if host then []
  else
    directDeps.flatMap (fun module =>
      if module.tag ≠ some executableTag then []
      else if module.isLinkableInterface && module.StaticExecutable then
        let apex := a.properties.ApexVariationName
        let exec := module.name
        if isStaticExecutableAllowed apex exec then []
        else [{ property := none, format := "executable %s is static", args := [module.name] }]
      else [])

/-! ## Minimum SDK version and updatability -/

/-- The function `proptools.BoolDefault`: the value a pointer refers to, the
default for a nil pointer. -/
def proptoolsBoolDefault (b : Option Bool) (defaultValue : Bool) : Bool :=
  b.getD defaultValue

/-- The function `proptools.StringDefault`: the string a pointer refers to, the
default for a nil pointer. -/
def proptoolsStringDefault (s : Option String) (defaultValue : String) : String :=
  s.getD defaultValue

/-- The method `Updatable` of the bundle. -/
def apexBundle.Updatable (a : apexBundle) : Bool :=
  proptoolsBoolDefault a.properties.Updatable true

/-- The method `FutureUpdatable`. -/
def apexBundle.FutureUpdatable (a : apexBundle) : Bool :=
  proptoolsBoolDefault a.properties.Future_updatable false

/-- The method `UsePlatformApis`. -/
def apexBundle.UsePlatformApis (a : apexBundle) : Bool :=
  proptoolsBoolDefault a.properties.Platform_apis false

/-- A direct dependency of the bundle as `checkJavaStableSdkVersion` and
`checkClasspathFragments` observe it. -/
structure UpdatableDep where
  /-- Result of `ctx.OtherModuleName(module)`. -/
  name : String
  /-- Result of `ctx.OtherModuleDependencyTag(module)`, when it is a
  `*dependencyTag` of this package. -/
  tag : Option dependencyTag := none
  /-- The member `ClasspathFragmentProtoGenerated` of the info that the module
  provides. -/
  ClasspathFragmentProtoGenerated : Bool := true
  /-- Result of `m.CheckStableSdkVersion(ctx)` when the module has the method:
  the text of the error, or none for nil. -/
  CheckStableSdkVersion : Option (Option String) := none
  deriving DecidableEq, Repr

/-- What `checkUpdatable` reads of its `android.ModuleContext`. -/
structure UpdatableContext (L : Type) where
  /-- Result of `ctx.ModuleName()`. -/
  ModuleName : String
  /-- The API levels of the configuration. -/
  api : ApiLevels L
  /-- The modules that `ctx.VisitDirectDeps` visits. -/
  directDeps : List UpdatableDep := []
  /-- The modules that `ctx.VisitDirectDepsBlueprint` visits. -/
  directDepsBlueprint : List UpdatableDep := []

/-- The method `checkClasspathFragments`: the errors reported, each on the
module named by its first argument. -/
def apexBundle.checkClasspathFragments {L : Type} (_a : apexBundle) (ctx : UpdatableContext L) :
    List VisitError :=
  ctx.directDeps.flatMap (fun module =>
    if module.tag = some bcpfTag ∨ module.tag = some sscpfTag then
      if !module.ClasspathFragmentProtoGenerated then
        [{ property := none,
           format := "is included in updatable apex %v, it must not set " ++
             "generate_classpaths_proto to false",
           args := [module.name, ctx.ModuleName] }]
      else []
    else [])

/-- The method `checkJavaStableSdkVersion`: the module errors reported. -/
def apexBundle.checkJavaStableSdkVersion {L : Type} (_a : apexBundle)
    (ctx : UpdatableContext L) : List VisitError :=
  ctx.directDepsBlueprint.flatMap (fun module =>
    if module.tag = some javaLibTag ∨ module.tag = some androidAppTag then
      match module.CheckStableSdkVersion with
      | some (some err) =>
        [{ property := none, format := "cannot depend on \"%v\": %v",
           args := [module.name, err] }]
      | _ => []
    else [])

/-- The method `checkUpdatable`: the errors reported, in order. -/
def apexBundle.checkUpdatable {L : Type} (a : apexBundle) (ctx : UpdatableContext L) :
    List VisitError :=
  if a.Updatable then
    let v := a.minSdkVersionValue ctx.api
    v.2
    ++ (if v.1 = "" then
          [{ property := some "updatable",
             format := "updatable APEXes should set min_sdk_version as well", args := [] }]
        else [])
    ++ (if a.UsePlatformApis then
          [{ property := some "updatable",
             format := "updatable APEXes can\x27t use platform APIs", args := [] }]
        else [])
    ++ (if proptoolsBool a.properties.Use_vndk_as_stable then
          [{ property := some "use_vndk_as_stable",
             format := "updatable APEXes can\x27t use external VNDK libs", args := [] }]
        else [])
    ++ (if a.FutureUpdatable then
          [{ property := some "future_updatable",
             format := "Already updatable. Remove `future_updatable: true:`", args := [] }]
        else [])
    ++ a.checkJavaStableSdkVersion ctx
    ++ a.checkClasspathFragments ctx
  else []

/-! ## Packaging variants and the settings of a variant -/

/-- File extension of an APEX of the image packaging. -/
def imageApexSuffix : String := ".apex"
/-- File extension of an APEX of the zip packaging. -/
def zipApexSuffix : String := ".zipapex"
/-- Suffix of the module name of a flattened APEX. -/
def flattenedSuffix : String := ".flattened"

/-- Name of the variant of the image packaging. -/
def imageApexType : String := "image"
/-- Name of the variant of the zip packaging. -/
def zipApexType : String := "zip"
/-- Name of the variant of the flattened packaging. -/
def flattenedApexType : String := "flattened"

/-- What the functions that configure a variant of the bundle read of their
`android.ModuleContext` and of its configuration. -/
structure BuildContext where
  /-- Result of `ctx.Host()`. -/
  Host : Bool := false
  /-- Result of `ctx.Config().UnbundledBuild()`. -/
  UnbundledBuild : Bool := false
  /-- Result of `ctx.Config().EnforceProductPartitionInterface()`. -/
  EnforceProductPartitionInterface : Bool := false
  /-- Result of `ctx.Config().ForceApexSymlinkOptimization()`. -/
  ForceApexSymlinkOptimization : Bool := false
  /-- Result of `ctx.Config().ApexCompressionEnabled()`. -/
  ApexCompressionEnabled : Bool := false
  /-- Result of `ctx.Config().FlattenApex()`. -/
  FlattenApex : Bool := false
  /-- Result of `ctx.Config().InstallExtraFlattenedApexes()`. -/
  InstallExtraFlattenedApexes : Bool := false
  /-- Result of `a.Name()`. -/
  Name : String := ""
  deriving DecidableEq, Repr

/-- The method `installable`. -/
def apexBundle.installable (a : apexBundle) : Bool :=
  !a.properties.PreventInstall &&
    (a.properties.Installable.isNone || proptoolsBool a.properties.Installable)

/-- The method `testOnlyShouldForceCompression`. -/
def apexBundle.testOnlyShouldForceCompression (a : apexBundle) : Bool :=
  proptoolsBool a.properties.Test_only_force_compression

/-- The method `isCompressable`. -/
def apexBundle.isCompressable (a : apexBundle) : Bool :=
  proptoolsBoolDefault a.overridableProperties.Compressible false && !a.testApex

/-- The method `setCompression`: the bundle after the assignment to
`isCompressed`. -/
def apexBundle.setCompression (a : apexBundle) (ctx : BuildContext) : apexBundle :=
  if a.properties.ApexType ≠ .imageApex then { a with isCompressed := false }
  else if a.testOnlyShouldForceCompression then { a with isCompressed := true }
  else { a with isCompressed := ctx.ApexCompressionEnabled && a.isCompressable }

/-- The method `setSystemLibLink`: the bundle after the assignments to
`linkToSystemLib`. -/
def apexBundle.setSystemLibLink (a : apexBundle) (ctx : BuildContext) : apexBundle :=
  let a1 := { a with linkToSystemLib := !ctx.UnbundledBuild && a.installable }
  let a2 :=
    if a1.socSpecific || a1.deviceSpecific ||
        (a1.productSpecific && ctx.EnforceProductPartitionInterface) then
      { a1 with linkToSystemLib := false }
    else a1
  let forced := ctx.ForceApexSymlinkOptimization
  let updatable := a2.Updatable || a2.FutureUpdatable
  let a3 :=
    if !forced && updatable && a2.properties.ApexType == .imageApex then
      { a2 with linkToSystemLib := false }
    else a2
  if ctx.Host then { a3 with linkToSystemLib := false } else a3

/-- The method `setApexTypeAndSuffix`: the bundle after the assignments to
`suffix`, `primaryApexType` and `makeModulesToInstall`. -/
def apexBundle.setApexTypeAndSuffix (a : apexBundle) (ctx : BuildContext) : apexBundle :=
  let buildFlattenedAsDefault := ctx.FlattenApex
  match a.properties.ApexType with
  | .imageApex =>
    if buildFlattenedAsDefault then { a with suffix := imageApexSuffix }
    else
      let a1 := { a with suffix := "", primaryApexType := true }
      if ctx.InstallExtraFlattenedApexes then
        { a1 with makeModulesToInstall := a1.makeModulesToInstall ++ [ctx.Name ++ flattenedSuffix] }
      else a1
  | .zipApex =>
    if proptoolsString a.properties.Payload_type = "zip" then
      { a with suffix := "", primaryApexType := true }
    else { a with suffix := zipApexSuffix }
  | .flattenedApex =>
    if buildFlattenedAsDefault then { a with suffix := "", primaryApexType := true }
    else { a with suffix := flattenedSuffix }

/-- The module that `apexFlattenedMutator` is run on, as far as its type
assertions tell modules apart. -/
inductive FlattenedMutatorModule where
  | apexBundle (ab : apexBundle)
  | OverrideApex
  | other

/-- What `apexFlattenedMutator` reads of its `android.BottomUpMutatorContext`. -/
structure FlattenedMutatorContext where
  /-- Result of `mctx.Module().Enabled()`. -/
  Enabled : Bool := true
  /-- Result of `mctx.Config().FlattenApex()`. -/
  FlattenApex : Bool := false
  /-- Result of `ab.Platform()`. -/
  Platform : Bool := true
  deriving DecidableEq, Repr

/-- What `apexFlattenedMutator` does: the property errors reported, the names
of the variants passed to `mctx.CreateLocalVariations` or
`mctx.CreateVariations`, for an `apexBundle` the modules of the variants after
the assignments to `ApexType`, and the names of the variants on which
`MakeAsSystemExt` is called. -/
structure FlattenedMutatorResult where
  errors : List VisitError := []
  variants : List String := []
  modules : List apexBundle := []
  madeSystemExt : List String := []
  deriving DecidableEq, Repr

/-- The variants that the switch of `apexFlattenedMutator` on `payload_type`
collects, none in the default case. -/
def payloadTypeVariants (payloadType : String) : Option (List String) :=
  if payloadType = "image" then some [imageApexType, flattenedApexType]
  else if payloadType = "zip" then some [zipApexType]
  else if payloadType = "both" then some [imageApexType, zipApexType, flattenedApexType]
  else none

/-- The body of the loop of `apexFlattenedMutator` over the variants: the
module of the variant `v`, a copy of `ab`, after the assignment to
`ApexType`. -/
def variantModule (ab : apexBundle) (v : String) : apexBundle :=
  if v = imageApexType then { ab with properties.ApexType := .imageApex }
  else if v = zipApexType then { ab with properties.ApexType := .zipApex }
  else if v = flattenedApexType then { ab with properties.ApexType := .flattenedApex }
  else ab

/-- The function `apexFlattenedMutator`. -/
def apexFlattenedMutator (mctx : FlattenedMutatorContext) (module : FlattenedMutatorModule) :
    FlattenedMutatorResult :=
  if !mctx.Enabled then {}
  else
    match module with
    | .apexBundle ab =>
      match payloadTypeVariants (proptoolsStringDefault ab.properties.Payload_type "image") with
      | none =>
        { errors := [{ property := some "payload_type",
                       format := "%q is not one of \"image\", \"zip\", or \"both\".",
                       args := [proptoolsString ab.properties.Payload_type] }] }
      | some variants =>
        { variants := variants,
          modules := variants.map (variantModule ab),
          madeSystemExt :=
            variants.filter (fun v =>
              v == flattenedApexType && (!mctx.FlattenApex && mctx.Platform)) }
    | .OverrideApex => { variants := [imageApexType, flattenedApexType] }
    | .other => {}

/-! ## Rust binaries (`rust/binary.go`) -/

/-- The values of the type `autoDep` that `binaryDecorator.autoDep` returns. -/
inductive autoDep where
  | rlibAutoDep
  | dylibAutoDep
  deriving DecidableEq, Repr

/-- The type `RustLinkage`, declared outside the file at hand; `other` stands
for every value but `RlibLinkage`. -/
inductive RustLinkage where
  | RlibLinkage
  | other
  deriving DecidableEq, Repr

/-- The struct `binaryDecorator`: the property `static_executable` of
`BinaryCompilerProperties`, the property `prefer_rlib` of the base compiler, and
the result `baseStdLinkage` of `binary.baseCompiler.stdLinkage(ctx)`. -/
structure binaryDecorator where
  Static_executable : Option Bool := none
  Prefer_rlib : Option Bool := none
  baseStdLinkage : RustLinkage := .other
  deriving DecidableEq, Repr

/-- The method `preferRlib`. -/
def binaryDecorator.preferRlib (binary : binaryDecorator) : Bool :=
  proptoolsBool binary.Prefer_rlib || proptoolsBool binary.Static_executable

/-- The method `autoDep`, for the result `device` of `ctx.Device()`. -/
def binaryDecorator.autoDep (binary : binaryDecorator) (device : Bool) : autoDep :=
  if binary.preferRlib then .rlibAutoDep
  else if device then .dylibAutoDep
  else .rlibAutoDep

/-- The method `stdLinkage`. -/
def binaryDecorator.stdLinkage (binary : binaryDecorator) : RustLinkage :=
  if binary.preferRlib then .RlibLinkage
  else binary.baseStdLinkage

/-- The method `staticallyLinked`. -/
def binaryDecorator.staticallyLinked (binary : binaryDecorator) : Bool :=
  proptoolsBool binary.Static_executable

/-! ## Conversion of the native shared libraries for Bazel -/

/-- The configuration axes that the conversions set values on. -/
inductive ConfigurationAxis where
  | NoConfigAxis
  | ArchConfigurationAxis
  deriving DecidableEq, Repr

/-- A `bazel.LabelListAttribute` that holds one value, set by
`SetSelectValue(axis, config, list)`. -/
structure SelectValue where
  axis : ConfigurationAxis
  config : String
  labels : List String
  deriving DecidableEq, Repr

/-- The struct `convertedNativeSharedLibs`; each `bazel.LabelListAttribute` is
the list of the attributes appended to it, in order. -/
structure convertedNativeSharedLibs where
  Native_shared_libs_32 : List SelectValue := []
  Native_shared_libs_64 : List SelectValue := []
  deriving DecidableEq, Repr

/-- The state of a conversion: the converted libraries and the property errors
reported. The labels of the libraries are their names. -/
structure ConversionState where
  nativeSharedLibs : convertedNativeSharedLibs := {}
  errors : List VisitError := []
  deriving DecidableEq, Repr

/-- The function `makeSharedLibsAttributes`, on the attribute it is given. -/
def makeSharedLibsAttributes (config : String) (libsLabelList : List String)
    (labelListAttr : List SelectValue) : List SelectValue :=
  labelListAttr ++ [{ axis := .ArchConfigurationAxis, config := config, labels := libsLabelList }]

/-- The function `makeNoConfig32SharedLibsAttributes`. -/
def makeNoConfig32SharedLibsAttributes (libsLabelList : List String)
    (n : convertedNativeSharedLibs) : convertedNativeSharedLibs :=
  { n with Native_shared_libs_32 := n.Native_shared_libs_32 ++
      [{ axis := .NoConfigAxis, config := "", labels := libsLabelList }] }

/-- The function `make32SharedLibsAttributes`. -/
def make32SharedLibsAttributes (libsLabelList : List String)
    (n : convertedNativeSharedLibs) : convertedNativeSharedLibs :=
  let n32 := makeSharedLibsAttributes "x86" libsLabelList n.Native_shared_libs_32
  { n with Native_shared_libs_32 := makeSharedLibsAttributes "arm" libsLabelList n32 }

/-- The function `make64SharedLibsAttributes`. -/
def make64SharedLibsAttributes (libsLabelList : List String)
    (n : convertedNativeSharedLibs) : convertedNativeSharedLibs :=
  let n64 := makeSharedLibsAttributes "x86_64" libsLabelList n.Native_shared_libs_64
  { n with Native_shared_libs_64 := makeSharedLibsAttributes "arm64" libsLabelList n64 }

/-- The function `makeFirstSharedLibsAttributes`. -/
def makeFirstSharedLibsAttributes (libsLabelList : List String)
    (n : convertedNativeSharedLibs) : convertedNativeSharedLibs :=
  make64SharedLibsAttributes libsLabelList (make32SharedLibsAttributes libsLabelList n)

/-- The function `invalidCompileMultilib`. -/
def invalidCompileMultilib (s : ConversionState) (value : String) : ConversionState :=
  { s with errors := s.errors ++
      [{ property := some "compile_multilib", format := "Invalid value: %s", args := [value] }] }

/-- The function `convert32Libs`. -/
def convert32Libs (compileMultilb : String) (libs : List String) (s : ConversionState) :
    ConversionState :=
  if compileMultilb = "both" ∨ compileMultilb = "32" then
    { s with nativeSharedLibs := makeNoConfig32SharedLibsAttributes libs s.nativeSharedLibs }
  else if compileMultilb = "first" then
    { s with nativeSharedLibs := make32SharedLibsAttributes libs s.nativeSharedLibs }
  else if compileMultilb = "64" then s
  else invalidCompileMultilib s compileMultilb

/-- The function `convert64Libs`. -/
def convert64Libs (compileMultilb : String) (libs : List String) (s : ConversionState) :
    ConversionState :=
  if compileMultilb = "both" ∨ compileMultilb = "64" ∨ compileMultilb = "first" then
    { s with nativeSharedLibs := make64SharedLibsAttributes libs s.nativeSharedLibs }
  else if compileMultilb = "32" then s
  else invalidCompileMultilib s compileMultilb

/-- The function `convertBothLibs`. -/
def convertBothLibs (compileMultilb : String) (libs : List String) (s : ConversionState) :
    ConversionState :=
  if compileMultilb = "both" then
    { s with nativeSharedLibs :=
        make64SharedLibsAttributes libs (makeNoConfig32SharedLibsAttributes libs s.nativeSharedLibs) }
  else if compileMultilb = "first" then
    { s with nativeSharedLibs := makeFirstSharedLibsAttributes libs s.nativeSharedLibs }
  else if compileMultilb = "32" then
    { s with nativeSharedLibs := makeNoConfig32SharedLibsAttributes libs s.nativeSharedLibs }
  else if compileMultilb = "64" then
    { s with nativeSharedLibs := make64SharedLibsAttributes libs s.nativeSharedLibs }
  else invalidCompileMultilib s compileMultilb

/-- The function `convertFirstLibs`. -/
def convertFirstLibs (compileMultilb : String) (libs : List String) (s : ConversionState) :
    ConversionState :=
  if compileMultilb = "both" ∨ compileMultilb = "first" then
    { s with nativeSharedLibs := makeFirstSharedLibsAttributes libs s.nativeSharedLibs }
  else if compileMultilb = "32" then
    { s with nativeSharedLibs := make32SharedLibsAttributes libs s.nativeSharedLibs }
  else if compileMultilb = "64" then
    { s with nativeSharedLibs := make64SharedLibsAttributes libs s.nativeSharedLibs }
  else invalidCompileMultilib s compileMultilb

/-- The labels that an attribute selects for an architecture: the labels of its
values on no configuration axis and of its values for the architecture. -/
def selectFor (arch : String) (attr : List SelectValue) : List String :=
  attr.flatMap (fun v =>
    if v.axis = .NoConfigAxis ∨ (v.axis = .ArchConfigurationAxis ∧ v.config = arch) then v.labels
    else [])

/-- The bit widths in which a library is built for an architecture: 32 when
`Native_shared_libs_32` selects it, 64 when `Native_shared_libs_64` does. -/
def builtFor (arch : String) (lib : String) (n : convertedNativeSharedLibs) : List Nat :=
  (if lib ∈ selectFor arch n.Native_shared_libs_32 then [32] else [])
    ++ (if lib ∈ selectFor arch n.Native_shared_libs_64 then [64] else [])

/-- A cell of the table in the comment above the conversions: how a library is
built for a 64-bit device (arm64) and for a 32-bit device (arm). -/
def tableCell (lib : String) (s : ConversionState) : List Nat × List Nat :=
  (builtFor "arm64" lib s.nativeSharedLibs, builtFor "arm" lib s.nativeSharedLibs)

/-- The conversion for a bucket of `multilib`: 32, 64, both or first. -/
def convertBucket (bucket : String) (compileMultilb : String) (libs : List String)
    (s : ConversionState) : ConversionState :=
  if bucket = "32" then convert32Libs compileMultilb libs s
  else if bucket = "64" then convert64Libs compileMultilb libs s
  else if bucket = "both" then convertBothLibs compileMultilb libs s
  else convertFirstLibs compileMultilb libs s

/-- The table in the comment above the conversions: the cell in the row and in
the column with the given labels, of the labels 32, 64, both and first. -/
def commentTable (row : String) (column : String) : Option (List Nat × List Nat) :=
  let cell : List (String × List Nat × List Nat) → Option (List Nat × List Nat) :=
    fun cells => cells.lookup column
  if row = "32" then
    cell [("32", [32], [32]), ("64", [], []), ("both", [32], [32]), ("first", [], [32])]
  else if row = "64" then
    cell [("32", [], []), ("64", [64], []), ("both", [64], []), ("first", [64], [])]
  else if row = "both" then
    cell [("32", [32], [32]), ("64", [64], []), ("both", [32, 64], [32]), ("first", [64], [32])]
  else if row = "first" then
    cell [("32", [32], [32]), ("64", [64], []), ("both", [64], [32]), ("first", [64], [32])]
  else none

/-- A bundle that lists libfoo under the bucket `multilib.lib32`, used in the
examples. -/
def exampleLib32Bucket : apexBundle :=
  { properties := { Multilib := { Lib32 := { Native_shared_libs := ["libfoo"] } } } }

/-- The edge from the bundle to the cc test mytest, one of its `tests`, as
`depVisitor` observes it. Used in the examples. -/
def exampleStaticTestEdge : DepEdge :=
  { child := "mytest", depName := "mytest", parentIsApexBundle := true,
    apexTag := some testTag, moduleType := .ccModule,
    file := { builtFile := "out/mytest/mytest", installDir := "bin",
              class_ := .nativeExecutable } }

/-- The cc test mytest, a static executable, as `checkStaticExecutables`
observes it among the direct dependencies of the bundle. Used in the
examples. -/
def exampleStaticTest : ExecutableDep :=
  { name := "mytest", tag := some testTag, isLinkableInterface := true,
    StaticExecutable := true }

/-! ## Theorems -/

theorem Add_rank (i : ApexMembership) (direct : Bool) :
    (i.Add direct).rank = max i.rank (if direct then 2 else 1) := by
  cases i <;> cases direct <;> rfl

theorem contentsVisitor_rank (excl : Bool) (c : Contents) (v : Visit) (name : String) :
    ((contentsVisitor excl c v).1 name).rank
      = max (c name).rank (visitContribution excl name v) := by
  unfold contentsVisitor visitContribution
  by_cases hc : continueApexDepsWalk excl v = true
  · by_cases hn : v.child.name = name
    · subst hn
      simp [hc, Contents.set, Add_rank]
    · have hn2 : ¬ name = v.child.name := fun h => hn h.symm
      simp [hc, hn, hn2, Contents.set]
  · simp [hc]

/-- C1: from any membership table, after the visitor of `ApexInfoMutator` has
run on any sequence of visits, the entry of every name is the maximum, in the
order notInApex < indirectlyInApex < directlyInApex, of its previous value and
of the values contributed by the visits; in particular it never decreases and a
direct entry stays direct. -/
theorem ApexInfoMutator_membership_is_max (excludeVndkLibs : Bool) (contents : Contents)
    (visits : List Visit) (name : String) :
    ((walkContents excludeVndkLibs contents visits) name).rank
        = max (contents name).rank
            ((visits.map (visitContribution excludeVndkLibs name)).foldr max 0)
      ∧ (contents name).rank ≤ ((walkContents excludeVndkLibs contents visits) name).rank := by
  have key : ∀ (vs : List Visit) (c : Contents),
      ((walkContents excludeVndkLibs c vs) name).rank
        = max (c name).rank ((vs.map (visitContribution excludeVndkLibs name)).foldr max 0) := by
    intro vs
    induction vs with
    | nil => intro c; simp [walkContents]
    | cons v vs ih =>
      intro c
      have h := ih ((contentsVisitor excludeVndkLibs c v).1)
      simp only [walkContents, List.foldl_cons] at h ⊢
      rw [h, contentsVisitor_rank]
      simp [max_assoc]
  refine ⟨key visits contents, ?_⟩
  rw [key visits contents]
  exact le_max_left _ _

theorem continueApexDepsWalk_iff (excl : Bool) (v : Visit) :
    continueApexDepsWalk excl v = true ↔ continuesWalk excl v := by
  unfold continueApexDepsWalk continuesWalk specContinues
  cases v.child.isApexModule <;> cases v.child.canHaveApexVariants <;>
    cases v.tagIsAlwaysRequire <;> cases v.tagAlwaysRequireApexVariant <;>
    cases v.depInSameApex <;> cases excl <;> cases v.child.isCcModule <;>
    cases v.child.isVndk <;> simp

/-- C2 (as stated, refuted): an edge whose tag always requires an apex variant,
to a child that is not an ApexModule. The condition of the claim holds, yet
`continueApexDepsWalk` returns false: the child is neither recorded nor marked
and the visitors return false. -/
theorem continueApexDepsWalk_rejects_non_apex_module :
    specContinues false
        { child := { name := "libfoo", isApexBundle := false, isApexModule := false,
                     canHaveApexVariants := false, isCcModule := false, isVndk := false },
          parent := { name := "myapex", isApexBundle := true, isApexModule := false,
                      canHaveApexVariants := false, isCcModule := false, isVndk := false },
          tagIsAlwaysRequire := true, tagAlwaysRequireApexVariant := true,
          depInSameApex := true }
      ∧ continueApexDepsWalk false
        { child := { name := "libfoo", isApexBundle := false, isApexModule := false,
                     canHaveApexVariants := false, isCcModule := false, isVndk := false },
          parent := { name := "myapex", isApexBundle := true, isApexModule := false,
                      canHaveApexVariants := false, isCcModule := false, isVndk := false },
          tagIsAlwaysRequire := true, tagAlwaysRequireApexVariant := true,
          depInSameApex := true } = false := by
  decide

/-- C2 (amended): the walk of `ApexInfoMutator` continues through an edge exactly
when the child is an ApexModule that can have apex variants and, in addition,
the tag always requires an apex variant or the child is in the same apex as the
parent and is not a VNDK library while VNDK exclusion is active. In that case
the child's entry is updated and the child is marked; in every other case the
membership table and the marks are left as they were and the visitor returns
false. -/
theorem ApexInfoMutator_visitors_continue_iff (excludeVndkLibs : Bool) (contents : Contents)
    (marked : List String) (v : Visit) :
    (continueApexDepsWalk excludeVndkLibs v = true ↔ continuesWalk excludeVndkLibs v)
      ∧ contentsVisitor excludeVndkLibs contents v
          = (if continuesWalk excludeVndkLibs v then
              (contents.set v.child.name ((contents v.child.name).Add v.parent.isApexBundle), true)
             else (contents, false))
      ∧ buildForApexVisitor excludeVndkLibs marked v
          = (if continuesWalk excludeVndkLibs v then (marked ++ [v.child.name], true)
             else (marked, false)) := by
  have h := continueApexDepsWalk_iff excludeVndkLibs v
  refine ⟨h, ?_, ?_⟩
  · unfold contentsVisitor
    by_cases hc : continuesWalk excludeVndkLibs v
    · simp [hc, h.mpr hc]
    · have hf : continueApexDepsWalk excludeVndkLibs v = false := by
        cases hb : continueApexDepsWalk excludeVndkLibs v
        · rfl
        · exact absurd (h.mp hb) hc
      simp [hc, hf]
  · unfold buildForApexVisitor
    by_cases hc : continuesWalk excludeVndkLibs v
    · simp [hc, h.mpr hc]
    · have hf : continueApexDepsWalk excludeVndkLibs v = false := by
        cases hb : continueApexDepsWalk excludeVndkLibs v
        · rfl
        · exact absurd (h.mp hb) hc
      simp [hc, hf]

/-! ### Native dependency requests -/

theorem foldl_Merge_listOf (k : NativeKind) (rs : List ApexNativeDependencies)
    (d : ApexNativeDependencies) :
    (rs.foldl ApexNativeDependencies.Merge d).listOf k
      = d.listOf k ++ rs.flatMap (fun r => r.listOf k) := by
  induction rs generalizing d with
  | nil => simp
  | cons r rs ih =>
    simp only [List.foldl_cons, List.flatMap_cons, ih]
    cases k <;> simp [ApexNativeDependencies.Merge, ApexNativeDependencies.listOf]

theorem foldl_Merge_excludeOf (k : NativeKind) (rs : List ApexNativeDependencies)
    (d : ApexNativeDependencies) :
    (rs.foldl ApexNativeDependencies.Merge d).excludeOf k
      = d.excludeOf k ++ rs.flatMap (fun r => r.excludeOf k) := by
  induction rs generalizing d with
  | nil => simp
  | cons r rs ih =>
    simp only [List.foldl_cons, List.flatMap_cons, ih]
    cases k <;> simp [ApexNativeDependencies.Merge, ApexNativeDependencies.excludeOf]

theorem targetNativeDeps_eq_foldl (a : apexBundle) (has32 : Bool) (i : Nat) (target : Target)
    (deps : ApexNativeDependencies) (h : targetNativeDeps a has32 i target = .ok deps) :
    deps = (mergedRequests a has32 i target).foldl ApexNativeDependencies.Merge {} := by
  unfold targetNativeDeps at h
  unfold mergedRequests
  by_cases hi : i = 0 <;> by_cases h32 : target.multilib = "lib32" <;>
    by_cases h64 : target.multilib = "lib64" <;> cases has32 <;>
    cases hat : target.archType <;>
    simp_all [List.foldl_append]

theorem declaredNames_addDependencies (ctx : MutatorContext) (deps : ApexNativeDependencies)
    (target : Target) (imageVariation : String) (sh : List String) (k : NativeKind) :
    declaredNames k (addDependenciesForNativeModules ctx deps target imageVariation ++
        [{ variations := [{ Mutator := "os", Variation := target.OsVariation },
                          { Mutator := "arch", Variation := target.ArchVariation }],
           tag := shBinaryTag, names := sh }])
      = RemoveListFromList (deps.listOf k) (deps.excludeOf k) := by
  cases hd : ctx.device <;> cases k <;>
    simp [declaredNames, addDependenciesForNativeModules, DepCall.nativeKind, hd,
      Target.Variations, executableTag, testTag, jniLibTag, sharedLibTag, fsTag, shBinaryTag,
      List.filter_cons, ApexNativeDependencies.listOf, ApexNativeDependencies.excludeOf]

theorem targetDepCalls_declaredNames (ctx : MutatorContext) (a : apexBundle) (has32 : Bool)
    (i : Nat) (target : Target) (calls : List DepCall) (k : NativeKind)
    (hcross : target.HostCross = false)
    (hc : targetDepCalls ctx a has32 i target = .ok calls) :
    declaredNames k calls
      = RemoveListFromList ((mergedRequests a has32 i target).flatMap (fun r => r.listOf k))
          ((mergedRequests a has32 i target).flatMap (fun r => r.excludeOf k)) := by
  unfold targetDepCalls at hc
  rw [hcross] at hc
  cases hd : targetNativeDeps a has32 i target with
  | error e => simp [hd] at hc
  | ok deps =>
    simp only [hd, Bool.false_eq_true, if_false] at hc
    injection hc with hc
    subst hc
    rw [declaredNames_addDependencies, targetNativeDeps_eq_foldl a has32 i target deps hd,
      foldl_Merge_listOf, foldl_Merge_excludeOf]
    cases k <;> simp [ApexNativeDependencies.listOf, ApexNativeDependencies.excludeOf]

theorem mem_RemoveListFromList (name : String) (list filter_out : List String) :
    name ∈ RemoveListFromList list filter_out ↔ name ∈ list ∧ name ∉ filter_out := by
  simp [RemoveListFromList, InList, List.mem_filter]
  intro _
  constructor
  · intro h hm
    exact h name hm rfl
  · intro h x hx hxe
    exact h (hxe ▸ hx)

/-- C8: a bundle whose top-level request lists libfoo in `native_shared_libs`
and in `exclude_native_shared_libs`. The top-level exclusion list is not merged,
so `DepsMutator` declares the shared library edge to libfoo for the arm64
target; when the same exclusion is written for arm64 instead, no edge to libfoo
is declared. -/
theorem DepsMutator_ignores_top_level_exclusion :
    "libfoo" ∈ exampleTopLevelExclusion.properties.Exclude_native_shared_libs
      ∧ (exampleTopLevelExclusion.DepsMutator { MultiTargets := [exampleArm64] }).map
          (fun r => declaredNames .native_shared_libs r.2) = .ok ["libfoo"]
      ∧ (exampleArchExclusion.DepsMutator { MultiTargets := [exampleArm64] }).map
          (fun r => declaredNames .native_shared_libs r.2) = .ok ["libbar"] := by
  refine ⟨by decide, ?_, ?_⟩
  · rfl
  · rfl

/-- In the iteration of `DepsMutator` for a target, a name that
appears in the exclusion list of a kind in any request merged for that target
(a multilib bucket that applies to the target, or the per-arch request) is
never among the names for which an edge of that kind is declared for the
target, even when another request includes it. -/
theorem DepsMutator_exclusion_wins (ctx : MutatorContext) (a : apexBundle) (has32 : Bool)
    (i : Nat) (target : Target) (calls : List DepCall) (k : NativeKind)
    (r : ApexNativeDependencies) (name : String)
    (hc : targetDepCalls ctx a has32 i target = .ok calls)
    (hr : r ∈ mergedRequests a has32 i target)
    (hn : name ∈ r.excludeOf k) :
    name ∉ declaredNames k calls := by
  cases hcross : target.HostCross with
  | true =>
    unfold targetDepCalls at hc
    simp only [hcross, if_true] at hc
    injection hc with hc
    subst hc
    simp [declaredNames]
  | false =>
    rw [targetDepCalls_declaredNames ctx a has32 i target calls k hcross hc,
      mem_RemoveListFromList]
    intro h
    exact h.2 (List.mem_flatMap.mpr ⟨r, hr, hn⟩)

/-- An instance: libfoo is listed under `multilib.both` and excluded
for arm64; no shared library edge to libfoo is declared for the arm64 target. -/
theorem DepsMutator_exclusion_wins_witness :
    targetDepCalls {} exampleArchExclusion false 0 exampleArm64
        = .ok (addDependenciesForNativeModules {}
            { Native_shared_libs := ["libfoo", "libbar"],
              Exclude_native_shared_libs := ["libfoo"] } exampleArm64 "" ++
            [{ variations := [{ Mutator := "os", Variation := "android" },
                              { Mutator := "arch", Variation := "arm64" }],
               tag := shBinaryTag, names := [] }])
      ∧ exampleArchExclusion.archProperties.Arm64
          ∈ mergedRequests exampleArchExclusion false 0 exampleArm64
      ∧ "libfoo" ∈ exampleArchExclusion.archProperties.Arm64.excludeOf .native_shared_libs
      ∧ "libfoo" ∉ declaredNames .native_shared_libs
          (addDependenciesForNativeModules {}
            { Native_shared_libs := ["libfoo", "libbar"],
              Exclude_native_shared_libs := ["libfoo"] } exampleArm64 "" ++
            [{ variations := [{ Mutator := "os", Variation := "android" },
                              { Mutator := "arch", Variation := "arm64" }],
               tag := shBinaryTag, names := [] }]) :=
  ⟨rfl, by decide, by decide,
    DepsMutator_exclusion_wins {} exampleArchExclusion false 0 exampleArm64 _
      .native_shared_libs exampleArchExclusion.archProperties.Arm64 "libfoo" rfl
      (by decide) (by decide)⟩

/-- C9 (as stated, refuted): libfoo is listed under `multilib.both` and excluded
for arm64. Subtracting each request's own exclusion list before concatenating
leaves libfoo and libbar; `DepsMutator` declares an edge to libbar only. -/
theorem DepsMutator_not_per_request_subtraction :
    (targetDepCalls {} exampleArchExclusion false 0 exampleArm64).map
        (declaredNames .native_shared_libs) = .ok ["libbar"]
      ∧ specDeclaredNames .native_shared_libs
          (mergedRequests exampleArchExclusion false 0 exampleArm64) = ["libfoo", "libbar"] := by
  refine ⟨rfl, by decide⟩

/-- C9 (amended): in the iteration of `DepsMutator` for a target that is not host
cross, the names for which edges of a kind are declared are the concatenation,
in merge order, of the lists of the merged requests, from which the
concatenation of the exclusion lists of all merged requests is subtracted. -/
theorem DepsMutator_declares_concat_minus_all_exclusions (ctx : MutatorContext)
    (a : apexBundle) (has32 : Bool) (i : Nat) (target : Target) (calls : List DepCall)
    (k : NativeKind)
    (hcross : target.HostCross = false)
    (hc : targetDepCalls ctx a has32 i target = .ok calls) :
    declaredNames k calls
      = RemoveListFromList ((mergedRequests a has32 i target).flatMap (fun r => r.listOf k))
          ((mergedRequests a has32 i target).flatMap (fun r => r.excludeOf k)) :=
  targetDepCalls_declaredNames ctx a has32 i target calls k hcross hc

/-- C9 (amended), instance: for the bundle that lists libfoo and libbar under
`multilib.both` and excludes libfoo for arm64, the declared shared library
names are the merged list minus the merged exclusion list. -/
theorem DepsMutator_declares_concat_minus_all_exclusions_witness :
    exampleArm64.HostCross = false
      ∧ targetDepCalls {} exampleArchExclusion false 0 exampleArm64
        = .ok (addDependenciesForNativeModules {}
            { Native_shared_libs := ["libfoo", "libbar"],
              Exclude_native_shared_libs := ["libfoo"] } exampleArm64 "" ++
            [{ variations := [{ Mutator := "os", Variation := "android" },
                              { Mutator := "arch", Variation := "arm64" }],
               tag := shBinaryTag, names := [] }])
      ∧ declaredNames .native_shared_libs
          (addDependenciesForNativeModules {}
            { Native_shared_libs := ["libfoo", "libbar"],
              Exclude_native_shared_libs := ["libfoo"] } exampleArm64 "" ++
            [{ variations := [{ Mutator := "os", Variation := "android" },
                              { Mutator := "arch", Variation := "arm64" }],
               tag := shBinaryTag, names := [] }])
        = RemoveListFromList
            ((mergedRequests exampleArchExclusion false 0 exampleArm64).flatMap
              (fun r => r.listOf .native_shared_libs))
            ((mergedRequests exampleArchExclusion false 0 exampleArm64).flatMap
              (fun r => r.excludeOf .native_shared_libs)) :=
  ⟨rfl, rfl,
    DepsMutator_declares_concat_minus_all_exclusions {} exampleArchExclusion false 0
      exampleArm64 _ .native_shared_libs rfl rfl⟩

/-- C10: after `a.Merge(b)` each of the six inclusion lists and of the six
exclusion lists of `a` is its previous value followed by the corresponding list
of `b`, order and duplicates preserved. The argument `b` is passed by value and
is not written. -/
theorem Merge_is_concatenation (a b : ApexNativeDependencies) :
    (a.Merge b).Native_shared_libs = a.Native_shared_libs ++ b.Native_shared_libs
      ∧ (a.Merge b).Jni_libs = a.Jni_libs ++ b.Jni_libs
      ∧ (a.Merge b).Rust_dyn_libs = a.Rust_dyn_libs ++ b.Rust_dyn_libs
      ∧ (a.Merge b).Binaries = a.Binaries ++ b.Binaries
      ∧ (a.Merge b).Tests = a.Tests ++ b.Tests
      ∧ (a.Merge b).Filesystems = a.Filesystems ++ b.Filesystems
      ∧ (a.Merge b).Exclude_native_shared_libs
          = a.Exclude_native_shared_libs ++ b.Exclude_native_shared_libs
      ∧ (a.Merge b).Exclude_jni_libs = a.Exclude_jni_libs ++ b.Exclude_jni_libs
      ∧ (a.Merge b).Exclude_rust_dyn_libs = a.Exclude_rust_dyn_libs ++ b.Exclude_rust_dyn_libs
      ∧ (a.Merge b).Exclude_binaries = a.Exclude_binaries ++ b.Exclude_binaries
      ∧ (a.Merge b).Exclude_tests = a.Exclude_tests ++ b.Exclude_tests
      ∧ (a.Merge b).Exclude_filesystems = a.Exclude_filesystems ++ b.Exclude_filesystems :=
  ⟨rfl, rfl, rfl, rfl, rfl, rfl, rfl, rfl, rfl, rfl, rfl, rfl⟩

/-! ### The map `encountered` -/

theorem FileMap.get_set (m : FileMap) (k : String) (v : apexFile) (d : String) :
    (m.set k v).get d = if d = k then some v else m.get d := by
  induction m with
  | nil =>
    by_cases h : d = k
    · simp [FileMap.set, FileMap.get, h]
    · have h2 : ¬ k = d := fun e => h e.symm
      simp [FileMap.set, FileMap.get, h, h2]
  | cons p m ih =>
    obtain ⟨k1, v1⟩ := p
    by_cases h1 : k1 = k
    · subst h1
      by_cases h : d = k1
      · simp [FileMap.set, FileMap.get, h]
      · have h2 : ¬ k1 = d := fun e => h e.symm
        simp [FileMap.set, FileMap.get, h, h2]
    · by_cases h : k1 = d
      · have h3 : ¬ d = k := fun e => h1 (h.trans e)
        simp [FileMap.set, FileMap.get, h1, h, h3]
      · simp [FileMap.set, FileMap.get, h1, h, ih]

theorem FileMap.mem_set (m : FileMap) (k : String) (v : apexFile) (p : String × apexFile)
    (h : p ∈ m.set k v) : p = (k, v) ∨ p ∈ m := by
  induction m with
  | nil => simpa [FileMap.set] using h
  | cons q m ih =>
    obtain ⟨k1, v1⟩ := q
    by_cases h1 : k1 = k
    · subst h1
      simp only [FileMap.set, if_true, List.mem_cons] at h
      rcases h with h | h
      · exact Or.inl h
      · exact Or.inr (List.mem_cons_of_mem _ h)
    · simp only [FileMap.set, h1, if_false, List.mem_cons] at h
      rcases h with h | h
      · exact Or.inr (by simp [h])
      · rcases ih h with h2 | h2
        · exact Or.inl h2
        · exact Or.inr (List.mem_cons_of_mem _ h2)

theorem FileMap.keys_set (m : FileMap) (k : String) (v : apexFile) :
    (m.set k v).map Prod.fst
      = if k ∈ m.map Prod.fst then m.map Prod.fst else m.map Prod.fst ++ [k] := by
  induction m with
  | nil => simp [FileMap.set]
  | cons q m ih =>
    obtain ⟨k1, v1⟩ := q
    by_cases h1 : k1 = k
    · subst h1
      simp [FileMap.set]
    · have h2 : ¬ k = k1 := fun e => h1 e.symm
      simp only [FileMap.set, h1, if_false, List.map_cons, ih, List.mem_cons, h2, false_or]
      split <;> simp

theorem FileMap.WF_set (m : FileMap) (k : String) (v : apexFile) (hm : m.WF)
    (hv : v.dest = k) : (m.set k v).WF := by
  refine ⟨?_, ?_⟩
  · rw [FileMap.keys_set]
    split
    · exact hm.1
    · rename_i hk
      exact List.Nodup.append hm.1 (List.nodup_singleton k) (by simpa using hk)
  · intro p hp
    rcases FileMap.mem_set m k v p hp with h | h
    · subst h
      exact hv
    · exact hm.2 p h

theorem FileMap.get_eq_none (m : FileMap) (d : String) (h : d ∉ m.map Prod.fst) :
    m.get d = none := by
  induction m with
  | nil => rfl
  | cons q m ih =>
    obtain ⟨k1, v1⟩ := q
    simp only [List.map_cons, List.mem_cons, not_or] at h
    have h1 : ¬ k1 = d := fun e => h.1 e.symm
    simp [FileMap.get, h1, ih h.2]

theorem FileMap.get_mem (m : FileMap) (d : String) (e : apexFile) (h : m.get d = some e) :
    (d, e) ∈ m := by
  induction m with
  | nil => simp [FileMap.get] at h
  | cons q m ih =>
    obtain ⟨k1, v1⟩ := q
    by_cases h1 : k1 = d
    · simp only [FileMap.get, h1, if_true, Option.some.injEq] at h
      simp [h1, h]
    · simp only [FileMap.get, h1, if_false] at h
      exact List.mem_cons_of_mem _ (ih h)

theorem FileMap.values_filter_dest (m : FileMap) (d : String) (hm : m.WF) :
    m.values.filter (fun e => decide (e.dest = d)) = (m.get d).toList := by
  induction m with
  | nil => rfl
  | cons q m ih =>
    obtain ⟨k1, v1⟩ := q
    have hnd : k1 ∉ m.map Prod.fst ∧ (m.map Prod.fst).Nodup := by
      simpa [List.nodup_cons] using hm.1
    have hv1 : v1.dest = k1 := hm.2 (k1, v1) (List.mem_cons_self _ _)
    have hwf : FileMap.WF m := ⟨hnd.2, fun p hp => hm.2 p (List.mem_cons_of_mem _ hp)⟩
    have ih2 := ih hwf
    by_cases h1 : k1 = d
    · subst h1
      have hnone := FileMap.get_eq_none m k1 hnd.1
      rw [hnone] at ih2
      simp only [FileMap.values] at ih2 ⊢
      simp [FileMap.get, hv1, ih2]
    · have hv2 : ¬ v1.dest = d := fun e => h1 (hv1.symm.trans e)
      simp only [FileMap.values] at ih2 ⊢
      simp [FileMap.get, h1, hv2, ih2]

/-! ### The first loop of `normalizeFileInfo` -/

theorem normalizeLoop_cons (cd : Bool) (f : apexFile) (rest : List apexFile) (enc : FileMap) :
    normalizeLoop cd (f :: rest) enc
      = match enc.get f.dest with
        | none => normalizeLoop cd rest (enc.set f.dest f)
        | some e =>
          if cd && f.builtFile != e.builtFile then
            .error ("apex file " ++ f.dest ++ " is provided by two different files " ++
              e.builtFile ++ " and " ++ f.builtFile)
          else
            normalizeLoop cd rest
              (enc.set f.dest { e with transitiveDep := e.transitiveDep && f.transitiveDep }) :=
  rfl

theorem mergeInto_step (e f : apexFile) (g : List apexFile) :
    apexFile.mergeInto { e with transitiveDep := e.transitiveDep && f.transitiveDep } g
      = e.mergeInto (f :: g) := by
  simp [apexFile.mergeInto, Bool.and_assoc]

theorem mergeInto_dest (e : apexFile) (g : List apexFile) : (e.mergeInto g).dest = e.dest := rfl

theorem mergeInto_builtFile (e : apexFile) (g : List apexFile) :
    (e.mergeInto g).builtFile = e.builtFile := rfl

theorem normalizeLoop_get (cd : Bool) (fs : List apexFile) (enc out : FileMap)
    (h : normalizeLoop cd fs enc = .ok out) (d : String) :
    out.get d = groupValue (enc.get d) (fs.filter (fun f => decide (f.dest = d))) := by
  induction fs generalizing enc with
  | nil =>
    simp only [normalizeLoop, Except.ok.injEq] at h
    subst h
    cases hg : FileMap.get enc d <;> simp [groupValue, apexFile.mergeInto]
  | cons f rest ih =>
    rw [normalizeLoop_cons] at h
    cases hget : enc.get f.dest with
    | none =>
      simp only [hget] at h
      rw [ih _ h, FileMap.get_set]
      by_cases hd : d = f.dest
      · subst hd
        simp [hget, groupValue]
      · have hd2 : ¬ f.dest = d := fun e => hd e.symm
        simp [hd, hd2]
    | some e =>
      simp only [hget] at h
      split at h
      · exact absurd h (by simp)
      · rw [ih _ h, FileMap.get_set]
        by_cases hd : d = f.dest
        · subst hd
          simp [hget, groupValue, mergeInto_step]
        · have hd2 : ¬ f.dest = d := fun e => hd e.symm
          simp [hd, hd2]

theorem normalizeLoop_WF (cd : Bool) (fs : List apexFile) (enc out : FileMap)
    (h : normalizeLoop cd fs enc = .ok out) (hwf : enc.WF) : out.WF := by
  induction fs generalizing enc with
  | nil =>
    simp only [normalizeLoop, Except.ok.injEq] at h
    subst h
    exact hwf
  | cons f rest ih =>
    rw [normalizeLoop_cons] at h
    cases hget : enc.get f.dest with
    | none =>
      simp only [hget] at h
      exact ih _ h (FileMap.WF_set enc f.dest f hwf rfl)
    | some e =>
      simp only [hget] at h
      split at h
      · exact absurd h (by simp)
      · refine ih _ h (FileMap.WF_set enc f.dest _ hwf ?_)
        exact hwf.2 (f.dest, e) (FileMap.get_mem enc f.dest e hget)

theorem normalizeLoop_builtFile (fs : List apexFile) (enc out : FileMap)
    (h : normalizeLoop true fs enc = .ok out) (f : apexFile) (hf : f ∈ fs) (e : apexFile)
    (he : out.get f.dest = some e) : e.builtFile = f.builtFile := by
  induction fs generalizing enc with
  | nil => simp at hf
  | cons f0 rest ih =>
    rw [normalizeLoop_cons] at h
    cases hget : enc.get f0.dest with
    | none =>
      simp only [hget] at h
      rcases List.mem_cons.mp hf with hf | hf
      · subst hf
        have hg := normalizeLoop_get true rest _ out h f.dest
        rw [FileMap.get_set, if_pos rfl, he] at hg
        simp only [groupValue, Option.some.injEq] at hg
        rw [hg, mergeInto_builtFile]
      · exact ih _ h hf
    | some e0 =>
      simp only [hget] at h
      split at h
      · exact absurd h (by simp)
      · rename_i hne
        rcases List.mem_cons.mp hf with hf | hf
        · subst hf
          have hg := normalizeLoop_get true rest _ out h f.dest
          rw [FileMap.get_set, if_pos rfl, he] at hg
          simp only [groupValue, Option.some.injEq] at hg
          rw [hg, mergeInto_builtFile]
          simp at hne
          exact hne.symm
        · exact ih _ h hf

theorem normalizeLoop_false_ok (fs : List apexFile) (enc : FileMap) :
    ∃ out, normalizeLoop false fs enc = .ok out := by
  induction fs generalizing enc with
  | nil => exact ⟨enc, rfl⟩
  | cons f rest ih =>
    rw [normalizeLoop_cons]
    cases hget : enc.get f.dest with
    | none => exact ih _
    | some e => simpa using ih _

theorem FileMap.WF_nil : FileMap.WF [] := ⟨List.nodup_nil, fun _ h => absurd h (List.not_mem_nil _)⟩

/-! ### `normalizeFileInfo` -/

theorem normalizeFileInfo_of_ok (vctx : visitorContext) (out : FileMap)
    (h : normalizeLoop vctx.checkDuplicate vctx.filesInfo [] = .ok out) :
    vctx.normalizeFileInfo
      = ({ vctx with filesInfo := List.insertionSort apexFile.pathLE out.values }, []) := by
  simp [visitorContext.normalizeFileInfo, h]

theorem normalizeFileInfo_of_error (vctx : visitorContext) (msg : String)
    (h : normalizeLoop vctx.checkDuplicate vctx.filesInfo [] = .error msg) :
    vctx.normalizeFileInfo = (vctx, [msg]) := by
  simp [visitorContext.normalizeFileInfo, h]

theorem normalizeFileInfo_ok (vctx : visitorContext) (h : vctx.normalizeFileInfo.2 = []) :
    ∃ out, normalizeLoop vctx.checkDuplicate vctx.filesInfo [] = .ok out := by
  cases hl : normalizeLoop vctx.checkDuplicate vctx.filesInfo [] with
  | error msg => rw [normalizeFileInfo_of_error vctx msg hl] at h; simp at h
  | ok out => exact ⟨out, rfl⟩

theorem groupValue_none_isSome (f : apexFile) (g : List apexFile) (h : f ∈ g) :
    ∃ f0 g0, g = f0 :: g0 ∧ groupValue none g = some (f0.mergeInto g0) := by
  cases g with
  | nil => simp at h
  | cons f0 g0 => exact ⟨f0, g0, rfl, rfl⟩

/-- C3 (evaluation at the failing input): two java libraries with different dex
jars and the same stem. `normalizeFileInfo` reports no error and keeps both
records, which have the same `path()` and different built files. -/
theorem normalizeFileInfo_keeps_two_files_at_one_path :
    (visitorContext.normalizeFileInfo
        { filesInfo := exampleSameStem, checkDuplicate := true }).2 = []
      ∧ (visitorContext.normalizeFileInfo
          { filesInfo := exampleSameStem, checkDuplicate := true }).1.filesInfo.Perm
            exampleSameStem
      ∧ exampleSameStem.map apexFile.path = ["javalib/bar.jar", "javalib/bar.jar"]
      ∧ exampleSameStem.map (fun f => f.builtFile) = ["out/foo/foo.jar", "out/bar/bar.jar"] := by
  decide

/-- C4: when two records of the input share a destination (installDir joined
with the base name of the built file) and have different built files,
`normalizeFileInfo` reports a module error and leaves the visitor context as it
was if `checkDuplicate` is set, and reports no error otherwise; the flag, set
from `shouldCheckDuplicate`, is false exactly for a coverage variant, a test
apex, a host apex and a device configuration with empty device arch. -/
theorem normalizeFileInfo_conflict (a : apexBundle) (deviceArch : String)
    (vctx : visitorContext) (f g : apexFile)
    (hcd : vctx.checkDuplicate = a.shouldCheckDuplicate deviceArch)
    (hf : f ∈ vctx.filesInfo) (hg : g ∈ vctx.filesInfo)
    (hdest : f.dest = g.dest) (hbuilt : f.builtFile ≠ g.builtFile) :
    (a.shouldCheckDuplicate deviceArch = false ↔
        (a.properties.IsCoverageVariant = true ∨ a.testApex = true ∨ a.host = true ∨
          (a.device = true ∧ deviceArch = "")))
      ∧ (a.shouldCheckDuplicate deviceArch = true →
          vctx.normalizeFileInfo.2 ≠ [] ∧ vctx.normalizeFileInfo.1 = vctx)
      ∧ (a.shouldCheckDuplicate deviceArch = false → vctx.normalizeFileInfo.2 = []) := by
  refine ⟨?_, ?_, ?_⟩
  · unfold apexBundle.shouldCheckDuplicate
    cases a.properties.IsCoverageVariant <;> cases a.testApex <;> cases a.host <;>
      cases a.device <;> by_cases hd : deviceArch = "" <;> simp [hd]
  · intro ht
    rw [← hcd] at ht
    cases hl : normalizeLoop vctx.checkDuplicate vctx.filesInfo [] with
    | error msg => rw [normalizeFileInfo_of_error vctx msg hl]; simp
    | ok out =>
      exfalso
      rw [ht] at hl
      have hget := normalizeLoop_get true vctx.filesInfo [] out hl f.dest
      obtain ⟨f0, g0, _, hgv⟩ := groupValue_none_isSome f
        (vctx.filesInfo.filter (fun x => decide (x.dest = f.dest)))
        (List.mem_filter.mpr ⟨hf, by simp⟩)
      have hget2 : out.get f.dest = some (f0.mergeInto g0) := by
        rw [hget]; exact hgv
      have h1 := normalizeLoop_builtFile vctx.filesInfo [] out hl f hf _ hget2
      have h2 := normalizeLoop_builtFile vctx.filesInfo [] out hl g hg _ (hdest ▸ hget2)
      exact hbuilt (h1.symm.trans h2)
  · intro hfalse
    rw [← hcd] at hfalse
    obtain ⟨out, hout⟩ := normalizeLoop_false_ok vctx.filesInfo []
    rw [← hfalse] at hout
    rw [normalizeFileInfo_of_ok vctx out hout]

/-- C4, instance: lib64/libfoo.so is provided by two different built files, in
a bundle of the default class on an arm64 device. -/
theorem normalizeFileInfo_conflict_witness :
    (true = apexBundle.shouldCheckDuplicate {} "arm64")
      ∧ ({ builtFile := "out/a/libfoo.so", installDir := "lib64",
           class_ := .nativeSharedLib } : apexFile) ∈ exampleConflict
      ∧ ({ builtFile := "out/b/libfoo.so", installDir := "lib64",
           class_ := .nativeSharedLib } : apexFile) ∈ exampleConflict
      ∧ apexFile.dest { builtFile := "out/a/libfoo.so", installDir := "lib64",
                        class_ := .nativeSharedLib }
          = apexFile.dest { builtFile := "out/b/libfoo.so", installDir := "lib64",
                            class_ := .nativeSharedLib }
      ∧ "out/a/libfoo.so" ≠ "out/b/libfoo.so"
      ∧ (visitorContext.normalizeFileInfo
            { filesInfo := exampleConflict, checkDuplicate := true }).2 ≠ []
      ∧ (visitorContext.normalizeFileInfo
            { filesInfo := exampleConflict, checkDuplicate := true }).1
          = { filesInfo := exampleConflict, checkDuplicate := true } :=
  have h := normalizeFileInfo_conflict {} "arm64"
    { filesInfo := exampleConflict, checkDuplicate := true }
    { builtFile := "out/a/libfoo.so", installDir := "lib64", class_ := .nativeSharedLib }
    { builtFile := "out/b/libfoo.so", installDir := "lib64", class_ := .nativeSharedLib }
    (by decide) (by decide) (by decide) (by decide) (by decide)
  ⟨by decide, by decide, by decide, by decide, by decide,
    (h.2.1 (by decide)).1, (h.2.1 (by decide)).2⟩

theorem all_mergeInto (f0 : apexFile) (g0 : List apexFile) :
    (f0.mergeInto g0).transitiveDep = (f0 :: g0).all (fun f => f.transitiveDep) := by
  simp [apexFile.mergeInto]

theorem normalizeFileInfo_filter_dest (vctx : visitorContext) (out : FileMap)
    (h : normalizeLoop vctx.checkDuplicate vctx.filesInfo [] = .ok out) (d : String) :
    (vctx.normalizeFileInfo.1.filesInfo.filter (fun x => decide (x.dest = d))).Perm
      (out.get d).toList := by
  rw [normalizeFileInfo_of_ok vctx out h]
  have hwf := normalizeLoop_WF _ _ [] out h FileMap.WF_nil
  rw [← FileMap.values_filter_dest out d hwf]
  exact (List.perm_insertionSort apexFile.pathLE out.values).filter _

/-- C5: after `normalizeFileInfo` has completed without an error, for every
record of the input the output has exactly one record with that record's
destination, and the `transitiveDep` of this record is the conjunction of the
`transitiveDep` of all input records with the destination: it is true if and
only if every merged record was a transitive dependency. -/
theorem normalizeFileInfo_merges_by_dest (vctx : visitorContext) (f : apexFile)
    (hok : vctx.normalizeFileInfo.2 = []) (hf : f ∈ vctx.filesInfo) :
    (vctx.normalizeFileInfo.1.filesInfo.filter (fun x => decide (x.dest = f.dest))).map
        (fun x => x.transitiveDep)
      = [(vctx.filesInfo.filter (fun x => decide (x.dest = f.dest))).all
          (fun x => x.transitiveDep)] := by
  obtain ⟨out, hout⟩ := normalizeFileInfo_ok vctx hok
  have hperm := normalizeFileInfo_filter_dest vctx out hout f.dest
  have hget := normalizeLoop_get _ vctx.filesInfo [] out hout f.dest
  obtain ⟨f0, g0, hfg, hgv⟩ := groupValue_none_isSome f
    (vctx.filesInfo.filter (fun x => decide (x.dest = f.dest)))
    (List.mem_filter.mpr ⟨hf, by simp⟩)
  have hget2 : out.get f.dest = some (f0.mergeInto g0) := by
    rw [hget]; exact hgv
  rw [hget2] at hperm
  rw [List.perm_singleton.mp hperm, hfg]
  simp [all_mergeInto]

/-- C5, instance: liba.so is included directly and reached again as a transitive
dependency; the output has one record for lib64/liba.so, which is not a
transitive dependency. -/
theorem normalizeFileInfo_merges_by_dest_witness :
    (visitorContext.normalizeFileInfo
        { filesInfo := exampleDirectAndTransitive, checkDuplicate := true }).2 = []
      ∧ ({ builtFile := "out/a/liba.so", installDir := "lib64", class_ := .nativeSharedLib,
           transitiveDep := true } : apexFile) ∈ exampleDirectAndTransitive
      ∧ ((visitorContext.normalizeFileInfo
            { filesInfo := exampleDirectAndTransitive, checkDuplicate := true }).1.filesInfo.filter
          (fun x => decide (x.dest = "lib64/liba.so"))).map (fun x => x.transitiveDep) = [false] :=
  ⟨by decide, by decide,
    normalizeFileInfo_merges_by_dest
      { filesInfo := exampleDirectAndTransitive, checkDuplicate := true }
      { builtFile := "out/a/liba.so", installDir := "lib64", class_ := .nativeSharedLib,
        transitiveDep := true } (by decide) (by decide)⟩

instance : IsTotal apexFile apexFile.pathLE :=
  ⟨fun x y => le_total x.path.toList y.path.toList⟩

instance : IsTrans apexFile apexFile.pathLE :=
  ⟨fun _ _ _ h1 h2 => le_trans h1 h2⟩

theorem normalizeFileInfo_sorted_pathLE (vctx : visitorContext)
    (hok : vctx.normalizeFileInfo.2 = []) :
    List.Sorted apexFile.pathLE vctx.normalizeFileInfo.1.filesInfo := by
  obtain ⟨out, hout⟩ := normalizeFileInfo_ok vctx hok
  rw [normalizeFileInfo_of_ok vctx out hout]
  exact List.sorted_insertionSort apexFile.pathLE out.values

/-- C6: after `normalizeFileInfo` has completed without an error, `filesInfo` is
sorted in non-decreasing order of `path()`. -/
theorem normalizeFileInfo_sorted (vctx : visitorContext)
    (hok : vctx.normalizeFileInfo.2 = []) :
    List.Sorted (fun x y : apexFile => x.path ≤ y.path) vctx.normalizeFileInfo.1.filesInfo := by
  have h := normalizeFileInfo_sorted_pathLE vctx hok
  exact List.Pairwise.imp (fun {x y} hxy => String.le_iff_toList_le.mpr hxy) h

/-- C6, instance: the records for libb.so and liba.so come out in the order
lib64/liba.so, lib64/libb.so. -/
theorem normalizeFileInfo_sorted_witness :
    (visitorContext.normalizeFileInfo
        { filesInfo := exampleDirectAndTransitive, checkDuplicate := true }).2 = []
      ∧ List.Sorted (fun x y : apexFile => x.path ≤ y.path)
          (visitorContext.normalizeFileInfo
            { filesInfo := exampleDirectAndTransitive, checkDuplicate := true }).1.filesInfo
      ∧ (visitorContext.normalizeFileInfo
            { filesInfo := exampleDirectAndTransitive, checkDuplicate := true }).1.filesInfo.map
          apexFile.path = ["lib64/liba.so", "lib64/libb.so"] :=
  ⟨by decide,
    normalizeFileInfo_sorted { filesInfo := exampleDirectAndTransitive, checkDuplicate := true }
      (by decide),
    by decide⟩

/-! ### Independence of the discovery order -/

theorem all_perm (g1 g2 : List apexFile) (hp : g1.Perm g2) (p : apexFile → Bool) :
    g1.all p = g2.all p := by
  rw [Bool.eq_iff_iff, List.all_eq_true, List.all_eq_true]
  exact ⟨fun h x hx => h x (hp.mem_iff.mpr hx), fun h x hx => h x (hp.mem_iff.mp hx)⟩

theorem mergeInto_eq (e : apexFile) (g : List apexFile) :
    e.mergeInto g
      = { ({ e with transitiveDep := false } : apexFile) with
          transitiveDep := (e :: g).all (fun f => f.transitiveDep) } := by
  simp [apexFile.mergeInto]

theorem groupValue_perm (g1 g2 : List apexFile) (hp : g1.Perm g2)
    (hsame : ∀ a ∈ g1, ∀ b ∈ g1,
      ({ a with transitiveDep := false } : apexFile) = { b with transitiveDep := false }) :
    groupValue none g1 = groupValue none g2 := by
  cases g1 with
  | nil =>
    have := hp.length_eq
    cases g2 with
    | nil => rfl
    | cons b g2 => simp at this
  | cons a g1 =>
    cases g2 with
    | nil => simpa using hp.length_eq
    | cons b g2 =>
      have hb : b ∈ a :: g1 := hp.mem_iff.mpr (List.mem_cons_self _ _)
      have hab := hsame a (List.mem_cons_self _ _) b hb
      simp only [groupValue, Option.some.injEq]
      rw [mergeInto_eq, mergeInto_eq, hab, all_perm _ _ hp]

theorem FileMap.mem_get (m : FileMap) (hm : (m.map Prod.fst).Nodup) (k : String) (e : apexFile)
    (h : (k, e) ∈ m) : m.get k = some e := by
  induction m with
  | nil => simp at h
  | cons q m ih =>
    obtain ⟨k1, v1⟩ := q
    have hnd : k1 ∉ m.map Prod.fst ∧ (m.map Prod.fst).Nodup := by
      simpa [List.nodup_cons] using hm
    rcases List.mem_cons.mp h with h | h
    · injection h with h1 h2
      subst h1 h2
      simp [FileMap.get]
    · have hk : k ∈ m.map Prod.fst := List.mem_map.mpr ⟨(k, e), h, rfl⟩
      have hne : ¬ k1 = k := fun e1 => hnd.1 (e1 ▸ hk)
      simp [FileMap.get, hne, ih hnd.2 h]

theorem FileMap.mem_values_iff (m : FileMap) (hm : m.WF) (e : apexFile) :
    e ∈ m.values ↔ m.get e.dest = some e := by
  constructor
  · intro h
    obtain ⟨p, hp, hpe⟩ := List.mem_map.mp h
    obtain ⟨k, v⟩ := p
    simp only at hpe
    subst hpe
    have hk := hm.2 (k, v) hp
    simp only at hk
    rw [hk]
    exact FileMap.mem_get m hm.1 k v hp
  · intro h
    exact List.mem_map.mpr ⟨(e.dest, e), FileMap.get_mem m e.dest e h, rfl⟩

theorem FileMap.values_map_dest (m : FileMap) (hm : m.WF) :
    m.values.map apexFile.dest = m.map Prod.fst := by
  simp only [FileMap.values, List.map_map]
  exact List.map_congr_left (fun p hp => hm.2 p hp)

theorem FileMap.values_nodup (m : FileMap) (hm : m.WF) : m.values.Nodup :=
  List.Nodup.of_map apexFile.dest (by rw [FileMap.values_map_dest m hm]; exact hm.1)

theorem normalizeLoop_values_from_input (cd : Bool) (fs : List apexFile) (out : FileMap)
    (h : normalizeLoop cd fs [] = .ok out) (e : apexFile) (he : e ∈ out.values) :
    ∃ f ∈ fs, e.path = f.path ∧ e.dest = f.dest := by
  have hwf := normalizeLoop_WF cd fs [] out h FileMap.WF_nil
  have hget := (FileMap.mem_values_iff out hwf e).mp he
  rw [normalizeLoop_get cd fs [] out h e.dest] at hget
  cases hfl : fs.filter (fun f => decide (f.dest = e.dest)) with
  | nil => simp [hfl, FileMap.get, groupValue] at hget
  | cons f0 g0 =>
    simp only [hfl, FileMap.get, groupValue, Option.some.injEq] at hget
    have hf0 : f0 ∈ fs.filter (fun f => decide (f.dest = e.dest)) := by
      rw [hfl]; exact List.mem_cons_self _ _
    refine ⟨f0, (List.mem_filter.mp hf0).1, ?_, ?_⟩
    · rw [← hget]; rfl
    · rw [← hget]; rfl

theorem normalizeLoop_ok_of_agree (cd : Bool) (fs : List apexFile) (enc : FileMap)
    (h1 : ∀ f ∈ fs, ∀ e, enc.get f.dest = some e → f.builtFile = e.builtFile)
    (h2 : ∀ f ∈ fs, ∀ g ∈ fs, f.dest = g.dest → f.builtFile = g.builtFile) :
    ∃ out, normalizeLoop cd fs enc = .ok out := by
  induction fs generalizing enc with
  | nil => exact ⟨enc, rfl⟩
  | cons f rest ih =>
    rw [normalizeLoop_cons]
    have h2r : ∀ x ∈ rest, ∀ y ∈ rest, x.dest = y.dest → x.builtFile = y.builtFile :=
      fun x hx y hy => h2 x (List.mem_cons_of_mem _ hx) y (List.mem_cons_of_mem _ hy)
    cases hget : enc.get f.dest with
    | none =>
      refine ih _ ?_ h2r
      intro x hx e he
      rw [FileMap.get_set] at he
      by_cases hd : x.dest = f.dest
      · simp only [hd, if_true, Option.some.injEq] at he
        subst he
        exact h2 x (List.mem_cons_of_mem _ hx) f (List.mem_cons_self _ _) hd
      · simp only [hd, if_false] at he
        exact h1 x (List.mem_cons_of_mem _ hx) e he
    | some e0 =>
      have hfe := h1 f (List.mem_cons_self _ _) e0 hget
      simp only [hfe, bne_self_eq_false, Bool.and_false, Bool.false_eq_true, if_false]
      refine ih _ ?_ h2r
      intro x hx e he
      rw [FileMap.get_set] at he
      by_cases hd : x.dest = f.dest
      · simp only [hd, if_true, Option.some.injEq] at he
        subst he
        exact (h2 x (List.mem_cons_of_mem _ hx) f (List.mem_cons_self _ _) hd).trans hfe
      · simp only [hd, if_false] at he
        exact h1 x (List.mem_cons_of_mem _ hx) e he

theorem normalizeFileInfo_ok_iff (vctx : visitorContext) :
    vctx.normalizeFileInfo.2 = [] ↔
      (vctx.checkDuplicate = false ∨
        ∀ f ∈ vctx.filesInfo, ∀ g ∈ vctx.filesInfo, f.dest = g.dest →
          f.builtFile = g.builtFile) := by
  constructor
  · intro hok
    obtain ⟨out, hout⟩ := normalizeFileInfo_ok vctx hok
    cases hcd : vctx.checkDuplicate with
    | false => exact Or.inl rfl
    | true =>
      right
      intro f hf g hg hdest
      rw [hcd] at hout
      have hget := normalizeLoop_get true vctx.filesInfo [] out hout f.dest
      obtain ⟨f0, g0, _, hgv⟩ := groupValue_none_isSome f
        (vctx.filesInfo.filter (fun x => decide (x.dest = f.dest)))
        (List.mem_filter.mpr ⟨hf, by simp⟩)
      have hget2 : out.get f.dest = some (f0.mergeInto g0) := by
        rw [hget]; exact hgv
      have h1 := normalizeLoop_builtFile vctx.filesInfo [] out hout f hf _ hget2
      have h2 := normalizeLoop_builtFile vctx.filesInfo [] out hout g hg _ (hdest ▸ hget2)
      exact h1.symm.trans h2
  · intro h
    rcases h with h | h
    · obtain ⟨out, hout⟩ := normalizeLoop_false_ok vctx.filesInfo []
      rw [← h] at hout
      rw [normalizeFileInfo_of_ok vctx out hout]
    · obtain ⟨out, hout⟩ := normalizeLoop_ok_of_agree vctx.checkDuplicate vctx.filesInfo []
        (fun f _ e he => by simp [FileMap.get] at he) h
      rw [normalizeFileInfo_of_ok vctx out hout]

instance : IsAntisymm apexFile apexFile.pathLT :=
  ⟨fun _ _ h1 h2 => absurd h1 (lt_asymm h2)⟩

theorem sorted_pathLT (l : List apexFile) (hs : List.Sorted apexFile.pathLE l)
    (hnd : (l.map apexFile.path).Nodup) : List.Sorted apexFile.pathLT l := by
  have hne : List.Pairwise (fun x y : apexFile => x.path ≠ y.path) l :=
    List.pairwise_map.mp hnd
  refine List.Pairwise.imp ?_ (List.Pairwise.and hs hne)
  intro x y hxy
  exact lt_of_le_of_ne hxy.1 (fun e => hxy.2 (String.ext e))

theorem sorted_unique (l1 l2 : List apexFile) (hp : l1.Perm l2)
    (h1 : List.Sorted apexFile.pathLE l1) (h2 : List.Sorted apexFile.pathLE l2)
    (hnd : (l1.map apexFile.path).Nodup) : l1 = l2 :=
  List.eq_of_perm_of_sorted hp (sorted_pathLT l1 h1 hnd)
    (sorted_pathLT l2 h2 ((hp.map apexFile.path).nodup_iff.mp hnd))

theorem normalizeLoop_values_perm (cd : Bool) (fs1 fs2 : List apexFile) (out1 out2 : FileMap)
    (hp : fs1.Perm fs2)
    (hsame : ∀ f ∈ fs1, ∀ g ∈ fs1, f.dest = g.dest →
      ({ f with transitiveDep := false } : apexFile) = { g with transitiveDep := false })
    (h1 : normalizeLoop cd fs1 [] = .ok out1) (h2 : normalizeLoop cd fs2 [] = .ok out2) :
    out1.values.Perm out2.values := by
  have hwf1 := normalizeLoop_WF cd fs1 [] out1 h1 FileMap.WF_nil
  have hwf2 := normalizeLoop_WF cd fs2 [] out2 h2 FileMap.WF_nil
  have hget : ∀ d, out1.get d = out2.get d := by
    intro d
    rw [normalizeLoop_get cd fs1 [] out1 h1 d, normalizeLoop_get cd fs2 [] out2 h2 d]
    simp only [FileMap.get]
    refine groupValue_perm _ _ (hp.filter _) ?_
    intro a ha b hb
    have ha2 := List.mem_filter.mp ha
    have hb2 := List.mem_filter.mp hb
    refine hsame a ha2.1 b hb2.1 ?_
    have e1 : a.dest = d := by simpa using ha2.2
    have e2 : b.dest = d := by simpa using hb2.2
    exact e1.trans e2.symm
  rw [List.perm_ext_iff_of_nodup (FileMap.values_nodup out1 hwf1)
    (FileMap.values_nodup out2 hwf2)]
  intro e
  rw [FileMap.mem_values_iff out1 hwf1, FileMap.mem_values_iff out2 hwf2, hget]

theorem normalizeLoop_values_path_nodup (cd : Bool) (fs : List apexFile) (out : FileMap)
    (hpath : ∀ f ∈ fs, ∀ g ∈ fs, f.path = g.path → f.dest = g.dest)
    (h : normalizeLoop cd fs [] = .ok out) : (out.values.map apexFile.path).Nodup := by
  have hwf := normalizeLoop_WF cd fs [] out h FileMap.WF_nil
  have hd : (out.values.map apexFile.dest).Nodup := by
    rw [FileMap.values_map_dest out hwf]; exact hwf.1
  have hd2 : List.Pairwise (fun x y : apexFile => x.dest ≠ y.dest) out.values :=
    List.pairwise_map.mp hd
  refine List.pairwise_map.mpr (List.Pairwise.imp_of_mem ?_ hd2)
  intro x y hx hy hxy hpe
  obtain ⟨f, hf, hfp, hfd⟩ := normalizeLoop_values_from_input cd fs out h x hx
  obtain ⟨g, hg, hgp, hgd⟩ := normalizeLoop_values_from_input cd fs out h y hy
  apply hxy
  rw [hfd, hgd]
  exact hpath f hf g hg (by rw [← hfp, ← hgp]; exact hpe)

/-- C7 (as stated, refuted): a library listed both in `native_shared_libs` and
in `jni_libs` gives two records with one destination and one built file. Neither
order of the two reports an error, and the record kept is the one read first:
the two results differ in `isJniLib`. -/
theorem normalizeFileInfo_keeps_first_record :
    exampleJniAndShared.reverse.Perm exampleJniAndShared
      ∧ (visitorContext.normalizeFileInfo
          { filesInfo := exampleJniAndShared, checkDuplicate := true }).2 = []
      ∧ (visitorContext.normalizeFileInfo
          { filesInfo := exampleJniAndShared.reverse, checkDuplicate := true }).2 = []
      ∧ (visitorContext.normalizeFileInfo
          { filesInfo := exampleJniAndShared, checkDuplicate := true }).1.filesInfo.map
            (fun f => f.isJniLib) = [false]
      ∧ (visitorContext.normalizeFileInfo
          { filesInfo := exampleJniAndShared.reverse, checkDuplicate := true }).1.filesInfo.map
            (fun f => f.isJniLib) = [true] := by
  decide

/-- C7 (amended): for every input list, every permutation of it and the same
`checkDuplicate` flag, the two runs of `normalizeFileInfo` either both report an
error or both report none; and when the records of the input that share a
destination differ at most in `transitiveDep` and records with different
destinations have different `path()`, the two runs report no error and produce
the identical `filesInfo` list. -/
theorem normalizeFileInfo_permutation (vctx : visitorContext) (files : List apexFile)
    (hperm : files.Perm vctx.filesInfo) :
    ((visitorContext.normalizeFileInfo { vctx with filesInfo := files }).2 = [] ↔
        vctx.normalizeFileInfo.2 = [])
      ∧ ((∀ f ∈ vctx.filesInfo, ∀ g ∈ vctx.filesInfo, f.dest = g.dest →
            ({ f with transitiveDep := false } : apexFile) = { g with transitiveDep := false }) →
          (∀ f ∈ vctx.filesInfo, ∀ g ∈ vctx.filesInfo, f.path = g.path → f.dest = g.dest) →
          visitorContext.normalizeFileInfo { vctx with filesInfo := files }
            = vctx.normalizeFileInfo ∧ vctx.normalizeFileInfo.2 = []) := by
  have hiff : (visitorContext.normalizeFileInfo { vctx with filesInfo := files }).2 = [] ↔
      vctx.normalizeFileInfo.2 = [] := by
    rw [normalizeFileInfo_ok_iff, normalizeFileInfo_ok_iff]
    simp only
    constructor
    · rintro (h | h)
      · exact Or.inl h
      · exact Or.inr (fun f hf g hg =>
          h f (hperm.mem_iff.mpr hf) g (hperm.mem_iff.mpr hg))
    · rintro (h | h)
      · exact Or.inl h
      · exact Or.inr (fun f hf g hg =>
          h f (hperm.mem_iff.mp hf) g (hperm.mem_iff.mp hg))
  refine ⟨hiff, ?_⟩
  intro hsame hpath
  have hok : vctx.normalizeFileInfo.2 = [] := by
    rw [normalizeFileInfo_ok_iff]
    right
    intro f hf g hg hd
    have hfg := congrArg (fun r : apexFile => r.builtFile) (hsame f hf g hg hd)
    exact hfg
  refine ⟨?_, hok⟩
  obtain ⟨out1, hout1⟩ := normalizeFileInfo_ok vctx hok
  obtain ⟨out2, hout2⟩ := normalizeFileInfo_ok { vctx with filesInfo := files } (hiff.mpr hok)
  rw [normalizeFileInfo_of_ok vctx out1 hout1,
    normalizeFileInfo_of_ok { vctx with filesInfo := files } out2 hout2]
  simp only at hout2
  have hvp := normalizeLoop_values_perm vctx.checkDuplicate vctx.filesInfo files out1 out2
    hperm.symm hsame hout1 hout2
  have hnd := normalizeLoop_values_path_nodup vctx.checkDuplicate vctx.filesInfo out1 hpath hout1
  have hsort : List.insertionSort apexFile.pathLE out2.values
      = List.insertionSort apexFile.pathLE out1.values := by
    refine (sorted_unique _ _ ?_ (List.sorted_insertionSort _ _)
      (List.sorted_insertionSort _ _) ?_).symm
    · exact ((List.perm_insertionSort _ _).trans hvp).trans (List.perm_insertionSort _ _).symm
    · exact ((List.perm_insertionSort apexFile.pathLE out1.values).map
        apexFile.path).nodup_iff.mpr hnd
  simp [hsort]

/-- C7 (amended), instance: the three records for libb.so and liba.so, read in
the opposite order, give the same result. -/
theorem normalizeFileInfo_permutation_witness :
    exampleDirectAndTransitive.reverse.Perm exampleDirectAndTransitive
      ∧ visitorContext.normalizeFileInfo
          { filesInfo := exampleDirectAndTransitive.reverse, checkDuplicate := true }
        = visitorContext.normalizeFileInfo
          { filesInfo := exampleDirectAndTransitive, checkDuplicate := true }
      ∧ (visitorContext.normalizeFileInfo
          { filesInfo := exampleDirectAndTransitive, checkDuplicate := true }).2 = [] :=
  have h := normalizeFileInfo_permutation
    { filesInfo := exampleDirectAndTransitive, checkDuplicate := true }
    exampleDirectAndTransitive.reverse (by decide)
  ⟨by decide, (h.2 (by decide) (by decide)).1, (h.2 (by decide) (by decide)).2⟩

/-! ### Order of the merges -/

theorem Merge_listOf (a b : ApexNativeDependencies) (k : NativeKind) :
    (a.Merge b).listOf k = a.listOf k ++ b.listOf k := by
  cases k <;> rfl

theorem Merge_excludeOf (a b : ApexNativeDependencies) (k : NativeKind) :
    (a.Merge b).excludeOf k = a.excludeOf k ++ b.excludeOf k := by
  cases k <;> rfl

/-- C11: merging two requests into an accumulator in either order gives, for
each of the six inclusion lists and of the six exclusion lists, lists with the
same names, and the names left by `RemoveListFromList` of a merged list by the
merged exclusion list are the same for both orders. -/
theorem Merge_order_independent (a b1 b2 : ApexNativeDependencies) (k : NativeKind)
    (name : String) :
    (name ∈ ((a.Merge b1).Merge b2).listOf k ↔ name ∈ ((a.Merge b2).Merge b1).listOf k)
      ∧ (name ∈ ((a.Merge b1).Merge b2).excludeOf k ↔
          name ∈ ((a.Merge b2).Merge b1).excludeOf k)
      ∧ (name ∈ RemoveListFromList (((a.Merge b1).Merge b2).listOf k)
            (((a.Merge b1).Merge b2).excludeOf k) ↔
          name ∈ RemoveListFromList (((a.Merge b2).Merge b1).listOf k)
            (((a.Merge b2).Merge b1).excludeOf k)) := by
  have h1 : name ∈ ((a.Merge b1).Merge b2).listOf k ↔
      name ∈ ((a.Merge b2).Merge b1).listOf k := by
    simp only [Merge_listOf, List.mem_append]
    tauto
  have h2 : name ∈ ((a.Merge b1).Merge b2).excludeOf k ↔
      name ∈ ((a.Merge b2).Merge b1).excludeOf k := by
    simp only [Merge_excludeOf, List.mem_append]
    tauto
  refine ⟨h1, h2, ?_⟩
  rw [mem_RemoveListFromList, mem_RemoveListFromList, h1, h2]

/-! ### The target loop of `DepsMutator` -/

theorem targetDepCalls_ok (ctx : MutatorContext) (a : apexBundle) (has32 : Bool) (i : Nat)
    (target : Target) (h : target.HostCross = false → target.archType ≠ .other) :
    ∃ calls, targetDepCalls ctx a has32 i target = .ok calls := by
  unfold targetDepCalls
  cases hc : target.HostCross with
  | true => exact ⟨[], by simp⟩
  | false =>
    have hne := h hc
    have hd : ∃ deps, targetNativeDeps a has32 i target = .ok deps := by
      unfold targetNativeDeps
      cases hat : target.archType <;> first | exact absurd hat hne | exact ⟨_, rfl⟩
    obtain ⟨deps, hdeps⟩ := hd
    simp [hdeps]

theorem targetLoop_ok (ctx : MutatorContext) (a : apexBundle) (has32 : Bool)
    (targets : List Target) (i : Nat)
    (hsupp : ∀ x ∈ targets, x.HostCross = false → x.archType ≠ .other) :
    ∃ calls, targetLoop ctx a has32 i targets = .ok calls ∧
      ∀ j t, targets[j]? = some t →
        ∃ cj, targetDepCalls ctx a has32 (i + j) t = .ok cj ∧ ∀ c ∈ cj, c ∈ calls := by
  induction targets generalizing i with
  | nil => exact ⟨[], rfl, fun j t h => by simp at h⟩
  | cons x rest ih =>
    obtain ⟨cx, hcx⟩ := targetDepCalls_ok ctx a has32 i x (hsupp x (List.mem_cons_self _ _))
    obtain ⟨more, hmore, hsub⟩ := ih (i + 1) (fun y hy => hsupp y (List.mem_cons_of_mem _ hy))
    refine ⟨cx ++ more, by simp [targetLoop, hcx, hmore], ?_⟩
    intro j t ht
    cases j with
    | zero =>
      simp only [List.getElem?_cons_zero, Option.some.injEq] at ht
      subst ht
      exact ⟨cx, hcx, fun c hc => List.mem_append_left _ hc⟩
    | succ j =>
      simp only [List.getElem?_cons_succ] at ht
      obtain ⟨cj, hcj, hin⟩ := hsub j t ht
      refine ⟨cj, ?_, fun c hc => List.mem_append_right _ (hin c hc)⟩
      rw [← hcj]
      congr 1
      omega

theorem DepsMutator_ok (a : apexBundle) (ctx : MutatorContext)
    (hsupp : ∀ x ∈ ctx.MultiTargets, x.HostCross = false → x.archType ≠ .other) :
    ∃ calls, a.DepsMutator ctx = .ok (a.combineProperties ctx, calls) ∧
      ∀ j t, ctx.MultiTargets[j]? = some t →
        ∃ cj, targetDepCalls ctx (a.combineProperties ctx) (has32BitTarget ctx.MultiTargets) j t
            = .ok cj ∧ ∀ c ∈ cj, c ∈ calls := by
  obtain ⟨calls, hcalls, hsub⟩ := targetLoop_ok ctx (a.combineProperties ctx)
    (has32BitTarget ctx.MultiTargets) ctx.MultiTargets 0 hsupp
  simp only [apexBundle.DepsMutator, hcalls]
  refine ⟨_, rfl, ?_⟩
  intro j t ht
  obtain ⟨cj, hcj, hin⟩ := hsub j t ht
  refine ⟨cj, by simpa using hcj, fun c hc => List.mem_append_left _ (hin c hc)⟩

theorem targetDepCalls_prefix (ctx : MutatorContext) (a : apexBundle) (has32 : Bool) (i : Nat)
    (target : Target) (calls : List DepCall)
    (h : targetDepCalls ctx a has32 i target = .ok calls) (c : DepCall) (hc : c ∈ calls) :
    target.Variations.isPrefixOf c.variations = true := by
  unfold targetDepCalls at h
  cases hcross : target.HostCross with
  | true =>
    simp only [hcross, if_true, Except.ok.injEq] at h
    subst h
    simp at hc
  | false =>
    cases hd : targetNativeDeps a has32 i target with
    | error e => simp [hcross, hd] at h
    | ok deps =>
      simp only [hcross, hd, Bool.false_eq_true, if_false, Except.ok.injEq] at h
      subst h
      have key : ∀ extra : List Variation,
          target.Variations.isPrefixOf (target.Variations ++ extra) = true := by
        intro extra
        simp [Target.Variations, List.isPrefixOf]
      simp only [addDependenciesForNativeModules, List.mem_append, List.mem_cons,
        List.mem_singleton, List.not_mem_nil, or_false] at hc
      rcases hc with (hc | hc | hc | hc | hc | hc) | hc <;> subst hc
      · exact key _
      · exact key _
      · simp [Target.Variations, List.isPrefixOf]
      · simp [Target.Variations, List.isPrefixOf]
      · simp [Target.Variations, List.isPrefixOf]
      · simp [Target.Variations, List.isPrefixOf]
      · simp [Target.Variations, List.isPrefixOf]

theorem edgeDeclared_of_declaredNames (ctx : MutatorContext) (a : apexBundle) (has32 : Bool)
    (i : Nat) (target : Target) (cj calls : List DepCall) (k : NativeKind) (name : String)
    (h : targetDepCalls ctx a has32 i target = .ok cj) (hsub : ∀ c ∈ cj, c ∈ calls)
    (hn : name ∈ declaredNames k cj) : edgeDeclared k target name calls = true := by
  unfold declaredNames at hn
  obtain ⟨c, hc, hname⟩ := List.mem_flatMap.mp hn
  have hc2 := List.mem_filter.mp hc
  unfold edgeDeclared
  rw [List.any_eq_true]
  refine ⟨c, hsub c hc2.1, ?_⟩
  have hk : c.nativeKind = some k := by simpa using hc2.2
  simp [hk, targetDepCalls_prefix ctx a has32 i target cj h c hc2.1, hname]

theorem combineProperties_top_level (a : apexBundle) (ctx : MutatorContext) :
    (a.combineProperties ctx).properties.toApexNativeDependencies
      = a.properties.toApexNativeDependencies := by
  unfold apexBundle.combineProperties
  rfl

theorem top_level_in_mergedRequests (a : apexBundle) (has32 : Bool) (i : Nat) (t : Target)
    (k : NativeKind) (name : String)
    (hk : k = .native_shared_libs ∨ k = .jni_libs ∨ k = .tests)
    (hname : name ∈ a.properties.toApexNativeDependencies.listOf k) :
    name ∈ (mergedRequests a has32 i t).flatMap (fun r => r.listOf k) := by
  refine List.mem_flatMap.mpr
    ⟨{ Native_shared_libs := a.properties.Native_shared_libs,
       Tests := a.properties.Tests,
       Jni_libs := a.properties.Jni_libs }, ?_, ?_⟩
  · simp [mergedRequests]
  · rcases hk with h | h | h <;> subst h <;> exact hname

/-- C12: when no target that is not host cross has an arch type outside the
five that `DepsMutator` supports, the mutator returns, and for every target that
is not host cross it declares an edge of the kind to every name of the top-level
`native_shared_libs`, `jni_libs` or `tests` that no exclusion list merged for
the target names. -/
theorem DepsMutator_unqualified_libs_for_every_target (a : apexBundle)
    (ctx : MutatorContext) (i : Nat) (t : Target) (k : NativeKind) (name : String)
    (hsupp : ∀ x ∈ ctx.MultiTargets, x.HostCross = false → x.archType ≠ .other)
    (ht : ctx.MultiTargets[i]? = some t) (hcross : t.HostCross = false)
    (hk : k = .native_shared_libs ∨ k = .jni_libs ∨ k = .tests)
    (hname : name ∈ a.properties.toApexNativeDependencies.listOf k)
    (hex : ∀ r ∈ mergedRequests (a.combineProperties ctx)
        (has32BitTarget ctx.MultiTargets) i t, name ∉ r.excludeOf k) :
    (a.DepsMutator ctx).map (fun r => edgeDeclared k t name r.2) = .ok true := by
  obtain ⟨calls, hcalls, hsub⟩ := DepsMutator_ok a ctx hsupp
  obtain ⟨cj, hcj, hin⟩ := hsub i t ht
  rw [hcalls]
  have hdecl := targetDepCalls_declaredNames ctx (a.combineProperties ctx)
    (has32BitTarget ctx.MultiTargets) i t cj k hcross hcj
  have hmem : name ∈ declaredNames k cj := by
    rw [hdecl, mem_RemoveListFromList]
    refine ⟨top_level_in_mergedRequests _ _ i t k name hk ?_, ?_⟩
    · rw [combineProperties_top_level]; exact hname
    · intro hx
      obtain ⟨r, hr, hrn⟩ := List.mem_flatMap.mp hx
      exact hex r hr hrn
  have hed := edgeDeclared_of_declaredNames ctx (a.combineProperties ctx)
    (has32BitTarget ctx.MultiTargets) i t cj calls k name hcj hin hmem
  simp [Except.map, hed]

/-- C12, instance: with the targets arm and arm64, libfoo of the top-level
`native_shared_libs` gets a shared library edge for both. -/
theorem DepsMutator_unqualified_libs_for_every_target_witness :
    (exampleUnqualifiedLib.DepsMutator { MultiTargets := [exampleArm, exampleArm64] }).map
        (fun r => edgeDeclared .native_shared_libs exampleArm "libfoo" r.2) = .ok true
      ∧ (exampleUnqualifiedLib.DepsMutator { MultiTargets := [exampleArm, exampleArm64] }).map
        (fun r => edgeDeclared .native_shared_libs exampleArm64 "libfoo" r.2) = .ok true :=
  ⟨DepsMutator_unqualified_libs_for_every_target exampleUnqualifiedLib
      { MultiTargets := [exampleArm, exampleArm64] } 0 exampleArm .native_shared_libs "libfoo"
      (by decide) (by decide) (by decide) (by decide) (by decide) (by decide),
    DepsMutator_unqualified_libs_for_every_target exampleUnqualifiedLib
      { MultiTargets := [exampleArm, exampleArm64] } 1 exampleArm64 .native_shared_libs "libfoo"
      (by decide) (by decide) (by decide) (by decide) (by decide) (by decide)⟩

theorem binaries_in_mergedRequests_iff (a : apexBundle) (has32 : Bool) (i : Nat) (t : Target)
    (name : String)
    (hin : name ∈ a.properties.Binaries ∨ name ∈ a.properties.Multilib.First.Binaries)
    (honly : ∀ r ∈ [a.properties.Multilib.Both, a.properties.Multilib.Prefer32,
        a.properties.Multilib.Lib32, a.properties.Multilib.Lib64, a.archProperties.Arm,
        a.archProperties.Arm64, a.archProperties.Riscv64, a.archProperties.X86,
        a.archProperties.X86_64], name ∉ r.Binaries)
    (harch : t.archType ≠ .other) :
    name ∈ (mergedRequests a has32 i t).flatMap (fun r => r.listOf .binaries) ↔ i = 0 := by
  simp only [List.mem_cons, List.mem_singleton, List.not_mem_nil, or_false, forall_eq_or_imp,
    forall_eq] at honly
  obtain ⟨h1, h2, h3, h4, h5, h6, h7, h8, h9⟩ := honly
  by_cases hi : i = 0 <;> by_cases h32 : t.multilib = "lib32" <;>
    by_cases h64 : t.multilib = "lib64" <;> cases has32 <;>
    cases hat : t.archType <;>
    simp_all [mergedRequests, ApexNativeDependencies.listOf] <;> tauto

/-- C13 (as stated, refuted): the only target of the list is host cross. The
bundle lists toolA in its top-level `binaries`; `DepsMutator` skips the target
and declares no executable edge to toolA at all. -/
theorem DepsMutator_no_binaries_for_host_cross :
    "toolA" ∈ exampleUnqualifiedBinary.properties.Binaries
      ∧ (exampleUnqualifiedBinary.DepsMutator { MultiTargets := [exampleHostCross] }).map
          (fun r => declaredNames .binaries r.2) = .ok [] := by
  refine ⟨by decide, ?_⟩
  rfl

/-- C13 (amended): a binary named in the top-level `binaries` or in
`multilib.first`, and in no other binaries list, gets an executable edge in the
iteration of `DepsMutator` for a target exactly when the target has index 0, is
not host cross and no exclusion list merged for it names the binary. -/
theorem DepsMutator_binaries_first_target_only (ctx : MutatorContext) (a : apexBundle)
    (has32 : Bool) (i : Nat) (t : Target) (calls : List DepCall) (name : String)
    (hc : targetDepCalls ctx a has32 i t = .ok calls)
    (hin : name ∈ a.properties.Binaries ∨ name ∈ a.properties.Multilib.First.Binaries)
    (honly : ∀ r ∈ [a.properties.Multilib.Both, a.properties.Multilib.Prefer32,
        a.properties.Multilib.Lib32, a.properties.Multilib.Lib64, a.archProperties.Arm,
        a.archProperties.Arm64, a.archProperties.Riscv64, a.archProperties.X86,
        a.archProperties.X86_64], name ∉ r.Binaries) :
    name ∈ declaredNames .binaries calls ↔
      (i = 0 ∧ t.HostCross = false ∧
        ∀ r ∈ mergedRequests a has32 i t, name ∉ r.Exclude_binaries) := by
  cases hcross : t.HostCross with
  | true =>
    unfold targetDepCalls at hc
    simp only [hcross, if_true, Except.ok.injEq] at hc
    subst hc
    simp [declaredNames]
  | false =>
    have harch : t.archType ≠ .other := by
      intro hat
      unfold targetDepCalls at hc
      simp [hcross, targetNativeDeps, hat] at hc
    rw [targetDepCalls_declaredNames ctx a has32 i t calls .binaries hcross hc,
      mem_RemoveListFromList, binaries_in_mergedRequests_iff a has32 i t name hin honly harch]
    simp only [List.mem_flatMap, not_exists, not_and, true_and]
    exact Iff.rfl

/-- C13 (amended), instance: toolA of the top-level `binaries` gets an executable
edge in the iteration for the first target, arm64. -/
theorem DepsMutator_binaries_first_target_only_witness :
    targetDepCalls {} exampleUnqualifiedBinary false 0 exampleArm64
        = .ok (addDependenciesForNativeModules {} { Binaries := ["toolA"] } exampleArm64 "" ++
            [{ variations := [{ Mutator := "os", Variation := "android" },
                              { Mutator := "arch", Variation := "arm64" }],
               tag := shBinaryTag, names := [] }])
      ∧ ("toolA" ∈ exampleUnqualifiedBinary.properties.Binaries ∨
          "toolA" ∈ exampleUnqualifiedBinary.properties.Multilib.First.Binaries)
      ∧ "toolA" ∈ declaredNames .binaries
          (addDependenciesForNativeModules {} { Binaries := ["toolA"] } exampleArm64 "" ++
            [{ variations := [{ Mutator := "os", Variation := "android" },
                              { Mutator := "arch", Variation := "arm64" }],
               tag := shBinaryTag, names := [] }]) :=
  ⟨rfl, by decide,
    (DepsMutator_binaries_first_target_only {} exampleUnqualifiedBinary false 0 exampleArm64 _
      "toolA" rfl (by decide) (by decide)).mpr ⟨rfl, rfl, by decide⟩⟩

theorem has32BitTarget_foldl (targets : List Target) (acc : Bool) :
    targets.foldl (fun acc target => if target.multilib = "lib32" then true else acc) acc
      = (acc || targets.any (fun x => decide (x.multilib = "lib32"))) := by
  induction targets generalizing acc with
  | nil => simp
  | cons x rest ih =>
    simp only [List.foldl_cons, ih, List.any_cons]
    by_cases h : x.multilib = "lib32" <;> simp [h]

theorem has32BitTarget_eq_false_iff (targets : List Target) :
    has32BitTarget targets = false ↔ ∀ x ∈ targets, x.multilib ≠ "lib32" := by
  unfold has32BitTarget
  rw [has32BitTarget_foldl]
  simp

theorem mem_mergedRequests (a : apexBundle) (has32 : Bool) (i : Nat) (t : Target)
    (r : ApexNativeDependencies) (h : r ∈ mergedRequests a has32 i t) :
    r = a.properties.Multilib.Both
      ∨ r = { Native_shared_libs := a.properties.Native_shared_libs,
              Tests := a.properties.Tests, Jni_libs := a.properties.Jni_libs }
      ∨ (i = 0 ∧ (r = a.properties.Multilib.First ∨ r = { Binaries := a.properties.Binaries }))
      ∨ r = a.properties.Multilib.Lib32 ∨ r = a.properties.Multilib.Lib64
      ∨ ((t.multilib = "lib32" ∨ (t.multilib = "lib64" ∧ has32 = false)) ∧
          r = a.properties.Multilib.Prefer32)
      ∨ r = a.archProperties.Arm ∨ r = a.archProperties.Arm64 ∨ r = a.archProperties.Riscv64
      ∨ r = a.archProperties.X86 ∨ r = a.archProperties.X86_64 := by
  unfold mergedRequests at h
  simp only [List.mem_append, List.mem_cons, List.mem_singleton, List.not_mem_nil,
    or_false] at h
  rcases h with ((h | h) | h) | h
  · rcases h with h | h
    · exact Or.inl h
    · exact Or.inr (Or.inl h)
  · split at h
    · rename_i hi
      simp only [List.mem_cons, List.mem_singleton, List.not_mem_nil, or_false] at h
      exact Or.inr (Or.inr (Or.inl ⟨hi, h⟩))
    · simp at h
  · split at h
    · rename_i h32
      simp only [List.mem_cons, List.mem_singleton, List.not_mem_nil, or_false] at h
      rcases h with h | h
      · exact Or.inr (Or.inr (Or.inr (Or.inl h)))
      · exact Or.inr (Or.inr (Or.inr (Or.inr (Or.inr (Or.inl ⟨Or.inl h32, h⟩)))))
    · split at h
      · rename_i h64
        simp only [List.mem_cons] at h
        rcases h with h | h
        · exact Or.inr (Or.inr (Or.inr (Or.inr (Or.inl h))))
        · cases has32 with
          | true => simp at h
          | false =>
            simp only [Bool.false_eq_true, if_false, List.mem_singleton] at h
            exact Or.inr (Or.inr (Or.inr (Or.inr (Or.inr (Or.inl ⟨Or.inr ⟨h64, rfl⟩, h⟩)))))
      · simp at h
  · cases hat : t.archType <;> simp only [hat, List.mem_singleton, List.not_mem_nil] at h
    · exact Or.inr (Or.inr (Or.inr (Or.inr (Or.inr (Or.inr (Or.inl h))))))
    · exact Or.inr (Or.inr (Or.inr (Or.inr (Or.inr (Or.inr (Or.inr (Or.inl h)))))))
    · exact Or.inr (Or.inr (Or.inr (Or.inr (Or.inr (Or.inr (Or.inr (Or.inr (Or.inl h))))))))
    · exact Or.inr (Or.inr (Or.inr (Or.inr (Or.inr (Or.inr (Or.inr (Or.inr
        (Or.inr (Or.inl h)))))))))
    · exact Or.inr (Or.inr (Or.inr (Or.inr (Or.inr (Or.inr (Or.inr (Or.inr
        (Or.inr (Or.inr h)))))))))

theorem prefer32_mem_mergedRequests (a : apexBundle) (has32 : Bool) (i : Nat) (t : Target)
    (h : t.multilib = "lib32" ∨ (t.multilib = "lib64" ∧ has32 = false)) :
    a.properties.Multilib.Prefer32 ∈ mergedRequests a has32 i t := by
  unfold mergedRequests
  simp only [List.mem_append]
  refine Or.inl (Or.inr ?_)
  rcases h with h | ⟨h, hh⟩
  · simp [h]
  · by_cases h32 : t.multilib = "lib32"
    · simp [h32]
    · simp [h32, h, hh]

theorem top_literal_listOf (a : apexBundle) (k : NativeKind) (name : String)
    (h : name ∈ ApexNativeDependencies.listOf
      { Native_shared_libs := a.properties.Native_shared_libs,
        Tests := a.properties.Tests,
        Jni_libs := a.properties.Jni_libs } k) :
    name ∈ a.properties.toApexNativeDependencies.listOf k := by
  cases k <;> simp [ApexNativeDependencies.listOf] at h ⊢
  all_goals exact h

theorem binaries_literal_listOf (a : apexBundle) (k : NativeKind) (name : String)
    (h : name ∈ ApexNativeDependencies.listOf { Binaries := a.properties.Binaries } k) :
    name ∈ a.properties.toApexNativeDependencies.listOf k := by
  cases k <;> simp [ApexNativeDependencies.listOf] at h ⊢
  all_goals exact h

theorem prefer32_in_mergedRequests_iff (a : apexBundle) (has32 : Bool) (i : Nat) (t : Target)
    (k : NativeKind) (name : String)
    (hname : name ∈ a.properties.Multilib.Prefer32.listOf k)
    (honly : ∀ r ∈ [a.properties.Multilib.Both, a.properties.Multilib.First,
        a.properties.Multilib.Lib32, a.properties.Multilib.Lib64,
        a.properties.toApexNativeDependencies, a.archProperties.Arm,
        a.archProperties.Arm64, a.archProperties.Riscv64, a.archProperties.X86,
        a.archProperties.X86_64], name ∉ r.listOf k) :
    name ∈ (mergedRequests a has32 i t).flatMap (fun r => r.listOf k) ↔
      (t.multilib = "lib32" ∨ (t.multilib = "lib64" ∧ has32 = false)) := by
  simp only [List.mem_cons, List.mem_singleton, List.not_mem_nil, or_false, forall_eq_or_imp,
    forall_eq] at honly
  obtain ⟨h1, h2, h3, h4, h5, h6, h7, h8, h9, h10⟩ := honly
  constructor
  · intro h
    obtain ⟨r, hr, hrn⟩ := List.mem_flatMap.mp h
    rcases mem_mergedRequests a has32 i t r hr with
      e | e | ⟨_, e | e⟩ | e | e | ⟨hc, _⟩ | e | e | e | e | e
    · exact absurd (e ▸ hrn) h1
    · exact absurd (top_literal_listOf a k name (e ▸ hrn)) h5
    · exact absurd (e ▸ hrn) h2
    · exact absurd (binaries_literal_listOf a k name (e ▸ hrn)) h5
    · exact absurd (e ▸ hrn) h3
    · exact absurd (e ▸ hrn) h4
    · exact hc
    · exact absurd (e ▸ hrn) h6
    · exact absurd (e ▸ hrn) h7
    · exact absurd (e ▸ hrn) h8
    · exact absurd (e ▸ hrn) h9
    · exact absurd (e ▸ hrn) h10
  · intro h
    exact List.mem_flatMap.mpr ⟨_, prefer32_mem_mergedRequests a has32 i t h, hname⟩

/-- C14 (as stated, refuted): two runs in which `multilib.prefer32` lists libx
and targets are requested, yet `DepsMutator` declares no shared library edge to
libx for any target. In the first the targets are arm64 and arm and libx is
excluded for arm, the only target into whose request prefer32 is merged; in the
second the only target is host cross. -/
theorem DepsMutator_prefer32_not_requested :
    (examplePrefer32Excluded.DepsMutator { MultiTargets := [exampleArm64, exampleArm] }).map
        (fun r => declaredNames .native_shared_libs r.2) = .ok []
      ∧ (examplePrefer32.DepsMutator { MultiTargets := [exampleHostCross] }).map
        (fun r => declaredNames .native_shared_libs r.2) = .ok [] := by
  refine ⟨?_, ?_⟩ <;> rfl

/-- C14 (amended): no 32-bit target is requested exactly when no target of the
list has multilib lib32; and in the iteration of `DepsMutator` for a target that
is not host cross, a name listed for a kind in `multilib.prefer32` and in no
other request gets an edge of the kind exactly when the target is lib32, or is
lib64 while no 32-bit target is requested, and no exclusion list merged for the
target names it. -/
theorem DepsMutator_prefer32 (ctx : MutatorContext) (a : apexBundle) (targets : List Target)
    (i : Nat) (t : Target) (calls : List DepCall) (k : NativeKind) (name : String)
    (hc : targetDepCalls ctx a (has32BitTarget targets) i t = .ok calls)
    (hcross : t.HostCross = false)
    (hname : name ∈ a.properties.Multilib.Prefer32.listOf k)
    (honly : ∀ r ∈ [a.properties.Multilib.Both, a.properties.Multilib.First,
        a.properties.Multilib.Lib32, a.properties.Multilib.Lib64,
        a.properties.toApexNativeDependencies, a.archProperties.Arm,
        a.archProperties.Arm64, a.archProperties.Riscv64, a.archProperties.X86,
        a.archProperties.X86_64], name ∉ r.listOf k) :
    (has32BitTarget targets = false ↔ ∀ x ∈ targets, x.multilib ≠ "lib32")
      ∧ (name ∈ declaredNames k calls ↔
          ((t.multilib = "lib32" ∨ (t.multilib = "lib64" ∧ has32BitTarget targets = false)) ∧
            ∀ r ∈ mergedRequests a (has32BitTarget targets) i t, name ∉ r.excludeOf k)) := by
  refine ⟨has32BitTarget_eq_false_iff targets, ?_⟩
  rw [targetDepCalls_declaredNames ctx a _ i t calls k hcross hc, mem_RemoveListFromList,
    prefer32_in_mergedRequests_iff a _ i t k name hname honly]
  simp only [List.mem_flatMap, not_exists, not_and]

/-- C14 (amended), instance: with the single target arm64, libx of
`multilib.prefer32` gets a shared library edge for arm64. -/
theorem DepsMutator_prefer32_witness :
    targetDepCalls {} examplePrefer32 (has32BitTarget [exampleArm64]) 0 exampleArm64
        = .ok (addDependenciesForNativeModules {} { Native_shared_libs := ["libx"] }
            exampleArm64 "" ++
            [{ variations := [{ Mutator := "os", Variation := "android" },
                              { Mutator := "arch", Variation := "arm64" }],
               tag := shBinaryTag, names := [] }])
      ∧ exampleArm64.HostCross = false
      ∧ "libx" ∈ examplePrefer32.properties.Multilib.Prefer32.listOf .native_shared_libs
      ∧ "libx" ∈ declaredNames .native_shared_libs
          (addDependenciesForNativeModules {} { Native_shared_libs := ["libx"] }
            exampleArm64 "" ++
            [{ variations := [{ Mutator := "os", Variation := "android" },
                              { Mutator := "arch", Variation := "arm64" }],
               tag := shBinaryTag, names := [] }]) :=
  ⟨rfl, rfl, by decide,
    (DepsMutator_prefer32 {} examplePrefer32 [exampleArm64] 0 exampleArm64 _
      .native_shared_libs "libx" rfl rfl (by decide) (by decide)).2.mpr
      ⟨by decide, by decide⟩⟩

/-- C15 (evaluation at the failing input): the bundle lists a rust dylib in its
top-level `rust_dyn_libs`, no exclusion list names it and the target arm64 is
not host cross; `DepsMutator` declares no edge to it. Listed under
`multilib.both` instead, the same name gets its edge. -/
theorem DepsMutator_drops_top_level_rust_dyn_libs :
    "libfoo.dylib.rust" ∈ exampleTopLevelRustDylib.properties.Rust_dyn_libs
      ∧ (exampleTopLevelRustDylib.DepsMutator { MultiTargets := [exampleArm64] }).map
          (fun r => r.2.flatMap (fun c => c.names)) = .ok []
      ∧ (exampleBothRustDylib.DepsMutator { MultiTargets := [exampleArm64] }).map
          (fun r => declaredNames .rust_dyn_libs r.2) = .ok ["libfoo.dylib.rust"] := by
  refine ⟨by decide, ?_, ?_⟩ <;> rfl

/-! ### `OverridablePropertiesDepsMutator` -/

/-- C16: when the `key` property is unset or empty,
`OverridablePropertiesDepsMutator` reports a property error on key and declares
no edge with the key tag and none with the certificate tag; otherwise it reports
no property error and declares exactly one edge with the key tag, to the module
the property names; and neither the key tag nor the certificate tag contributes
to the payload. -/
theorem OverridablePropertiesDepsMutator_key (a : apexBundle) (ctx : OverridableContext) :
    (if proptoolsString a.overridableProperties.Key = "" then
        propertyErrors (a.OverridablePropertiesDepsMutator ctx) = ["key"]
          ∧ taggedNames keyTag (a.OverridablePropertiesDepsMutator ctx) = []
          ∧ taggedNames certificateTag (a.OverridablePropertiesDepsMutator ctx) = []
      else
        propertyErrors (a.OverridablePropertiesDepsMutator ctx) = []
          ∧ taggedNames keyTag (a.OverridablePropertiesDepsMutator ctx)
              = [proptoolsString a.overridableProperties.Key])
      ∧ keyTag.payload = false ∧ certificateTag.payload = false := by
  refine ⟨?_, rfl, rfl⟩
  have h1 : ¬ androidAppTag = keyTag := by decide
  have h2 : ¬ bpfTag = keyTag := by decide
  have h3 : ¬ prebuiltTag = keyTag := by decide
  have h4 : ¬ androidAppTag = certificateTag := by decide
  have h5 : ¬ bpfTag = certificateTag := by decide
  have h6 : ¬ prebuiltTag = certificateTag := by decide
  have h7 : ¬ certificateTag = keyTag := by decide
  by_cases hk : proptoolsString a.overridableProperties.Key = ""
  · simp only [hk, if_true]
    unfold apexBundle.OverridablePropertiesDepsMutator
    simp only [hk, if_true]
    refine ⟨?_, ?_, ?_⟩
    · cases a.overridableProperties.Allowed_files <;>
        cases hp : decide (a.overridableProperties.Prebuilts.length > 0) <;>
        cases ha : ctx.Arches <;>
        simp_all [propertyErrors]
    · cases a.overridableProperties.Allowed_files <;>
        cases hp : decide (a.overridableProperties.Prebuilts.length > 0) <;>
        cases ha : ctx.Arches <;>
        simp_all [taggedNames, MutatorCall.namesTagged]
    · cases a.overridableProperties.Allowed_files <;>
        cases hp : decide (a.overridableProperties.Prebuilts.length > 0) <;>
        cases ha : ctx.Arches <;>
        simp_all [taggedNames, MutatorCall.namesTagged]
  · simp only [hk, if_false]
    unfold apexBundle.OverridablePropertiesDepsMutator
    simp only [hk, if_false]
    refine ⟨?_, ?_⟩
    · cases a.overridableProperties.Allowed_files <;>
        cases hp : decide (a.overridableProperties.Prebuilts.length > 0) <;>
        cases ha : ctx.Arches <;>
        by_cases hc : ctx.SrcIsModule (a.getCertString ctx) = "" <;>
        simp_all [propertyErrors]
    · cases a.overridableProperties.Allowed_files <;>
        cases hp : decide (a.overridableProperties.Prebuilts.length > 0) <;>
        cases ha : ctx.Arches <;>
        by_cases hc : ctx.SrcIsModule (a.getCertString ctx) = "" <;>
        simp_all [taggedNames, MutatorCall.namesTagged]

/-! ### `checkApexAvailability` -/

theorem mem_of_InList (name : String) (val : List String) :
    InList name val = true ↔ name ∈ val := by
  unfold InList
  rw [List.any_eq_true]
  constructor
  · rintro ⟨x, hx, he⟩
    have : x = name := by simpa using he
    exact this ▸ hx
  · intro h
    exact ⟨name, h, by simp⟩

theorem baselineApexAvailable_iff (apex moduleName : String) :
    baselineApexAvailable apex moduleName = true ↔
      ((∃ val, apexAvailBaseline.lookup apex = some val ∧ normalizeModuleName moduleName ∈ val)
        ∨ (∃ val, apexAvailBaseline.lookup AvailableToAnyApex = some val ∧
            normalizeModuleName moduleName ∈ val)) := by
  simp only [baselineApexAvailable]
  generalize apexAvailBaseline = table
  generalize normalizeModuleName moduleName = name
  generalize AvailableToAnyApex = anyKey
  have hany : (match List.lookup anyKey table with
      | some val => InList name val
      | none => false) = true ↔ ∃ val, List.lookup anyKey table = some val ∧ name ∈ val := by
    cases h : List.lookup anyKey table with
    | none => simp
    | some val =>
      simp only [Option.some.injEq, exists_eq_left']
      exact mem_of_InList name val
  cases h : List.lookup apex table with
  | none =>
    rw [hany]
    constructor
    · exact Or.inr
    · rintro (⟨val, hv, _⟩ | h2)
      · exact absurd hv (by simp)
      · exact h2
  | some val =>
    simp only [Option.some.injEq, exists_eq_left']
    by_cases hin : InList name val = true
    · simp only [hin, if_true, true_iff]
      exact Or.inl ((mem_of_InList name val).mp hin)
    · have hnot : ¬ name ∈ val := fun hm => hin ((mem_of_InList name val).mpr hm)
      simp only [hin, Bool.false_eq_true, if_false, hnot, false_or]
      exact hany

theorem hasPrefix_append (pre rest : String) : hasPrefix (pre ++ rest) pre = true := by
  unfold hasPrefix
  rw [String.toList, String.toList, String.data_append, List.isPrefixOf_iff_prefix]
  exact List.prefix_append _ _

theorem hasPrefix_iff (s pre : String) : hasPrefix s pre = true ↔ ∃ rest, s = pre ++ rest := by
  constructor
  · intro h
    unfold hasPrefix at h
    rw [List.isPrefixOf_iff_prefix] at h
    obtain ⟨t, ht⟩ := h
    refine ⟨String.mk t, ?_⟩
    apply String.ext
    rw [String.data_append]
    exact ht.symm
  · rintro ⟨rest, rfl⟩
    exact hasPrefix_append pre rest

theorem RemoveOptionalPrebuiltPrefix_append (rest : String) :
    RemoveOptionalPrebuiltPrefix ("prebuilt_" ++ rest) = rest := by
  unfold RemoveOptionalPrebuiltPrefix
  rw [hasPrefix_append, if_pos rfl]
  apply String.ext
  rw [String.toList, String.data_append]
  have : "prebuilt_".length = "prebuilt_".data.length := rfl
  rw [this, List.drop_left]


theorem hasPrefix_literal_false (lit rest pre : String) (c d : Char) (p q : List Char)
    (hlit : lit.data = d :: q) (hpre : pre.data = c :: p) (hcd : c ≠ d) :
    hasPrefix (lit ++ rest) pre = false := by
  unfold hasPrefix
  rw [String.toList, String.toList, String.data_append, hlit, hpre]
  simp [List.isPrefixOf, hcd]

theorem normalizeModuleName_spec (m rest : String) :
    ((m = "libclang_rt." ++ rest ∨ m = "prebuilt_libclang_rt." ++ rest) →
        normalizeModuleName m = "libclang_rt")
      ∧ ((m = "androidx." ++ rest ∨ m = "prebuilt_androidx." ++ rest) →
          normalizeModuleName m = "androidx")
      ∧ (m = "prebuilt_" ++ rest → hasPrefix rest "libclang_rt." = false →
          hasPrefix rest "androidx." = false → normalizeModuleName m = rest)
      ∧ (hasPrefix m "prebuilt_" = false → hasPrefix m "libclang_rt." = false →
          hasPrefix m "androidx." = false → normalizeModuleName m = m) := by
  have hclang : ∀ r : String, (if hasPrefix
      (if hasPrefix ("libclang_rt." ++ r) "libclang_rt." = true then "libclang_rt"
        else "libclang_rt." ++ r) "androidx." = true then "androidx"
      else if hasPrefix ("libclang_rt." ++ r) "libclang_rt." = true then "libclang_rt"
        else "libclang_rt." ++ r) = "libclang_rt" := by
    intro r
    rw [hasPrefix_append]
    simp only [if_true]
    decide
  have handroidx : ∀ r : String, (if hasPrefix
      (if hasPrefix ("androidx." ++ r) "libclang_rt." = true then "libclang_rt"
        else "androidx." ++ r) "androidx." = true then "androidx"
      else if hasPrefix ("androidx." ++ r) "libclang_rt." = true then "libclang_rt"
        else "androidx." ++ r) = "androidx" := by
    intro r
    rw [hasPrefix_literal_false "androidx." r "libclang_rt." 'l' 'a' _ _ rfl rfl (by decide)]
    simp only [Bool.false_eq_true, if_false]
    rw [hasPrefix_append, if_pos rfl]
  have hp1 : ∀ r : String, RemoveOptionalPrebuiltPrefix ("libclang_rt." ++ r)
      = "libclang_rt." ++ r := by
    intro r
    unfold RemoveOptionalPrebuiltPrefix
    rw [hasPrefix_literal_false "libclang_rt." r "prebuilt_" 'p' 'l' _ _ rfl rfl (by decide)]
    simp
  have hp2 : ∀ r : String, RemoveOptionalPrebuiltPrefix ("androidx." ++ r)
      = "androidx." ++ r := by
    intro r
    unfold RemoveOptionalPrebuiltPrefix
    rw [hasPrefix_literal_false "androidx." r "prebuilt_" 'p' 'a' _ _ rfl rfl (by decide)]
    simp
  have hs1 : ("prebuilt_libclang_rt." : String) = "prebuilt_" ++ "libclang_rt." := by decide
  have hs2 : ("prebuilt_androidx." : String) = "prebuilt_" ++ "androidx." := by decide
  refine ⟨?_, ?_, ?_, ?_⟩
  · rintro (h | h)
    · subst h
      simp only [normalizeModuleName, hp1]
      exact hclang rest
    · subst h
      rw [hs1, String.append_assoc]
      simp only [normalizeModuleName, RemoveOptionalPrebuiltPrefix_append]
      exact hclang rest
  · rintro (h | h)
    · subst h
      simp only [normalizeModuleName, hp2]
      exact handroidx rest
    · subst h
      rw [hs2, String.append_assoc]
      simp only [normalizeModuleName, RemoveOptionalPrebuiltPrefix_append]
      exact handroidx rest
  · intro h h1 h2
    subst h
    simp only [normalizeModuleName, RemoveOptionalPrebuiltPrefix_append, h1, h2,
      Bool.false_eq_true, if_false]
  · intro h0 h1 h2
    simp only [normalizeModuleName, RemoveOptionalPrebuiltPrefix, h0, h1, h2,
      Bool.false_eq_true, if_false]

/-- C19: when the check applies (the context is not host, the bundle is neither
a test apex nor a VNDK apex, is on a system partition, and the build is not a
coverage build), `checkApexAvailability` is the walk of `WalkPayloadDeps` with
its callback; on every edge that the walk passes to the callback, that is not
external and whose target is in the same apex as its source, the callback
reports a module error if and only if the target is not `AvailableFor` the name
of the bundle and `baselineApexAvailable` is false for it, and the walk goes on
through the edge; `baselineApexAvailable` holds exactly when the normalized
name of the target is in the list of `apexAvailBaseline` keyed by the name of
the bundle or in the list keyed by `AvailableToAnyApex`; and the normalized
name of a module is libclang_rt when the name, after its prefix prebuilt_ if it
has one, starts with libclang_rt., androidx when it starts with androidx., the
name without its prefix prebuilt_ when it starts with neither, and the name
itself when it has none of the three prefixes. -/
theorem checkApexAvailability_error_iff (a : apexBundle) (ctx : AvailabilityContext)
    (directDeps : String → List PayloadEdge) (fuel : Nat)
    (errors : List AvailabilityError) (e : PayloadEdge)
    (happlies : ctx.Host = false ∧ a.testApex = false ∧ a.vndkApex = false ∧
      a.socSpecific = false ∧ a.deviceSpecific = false ∧
      (a.productSpecific = true → ctx.EnforceProductPartitionInterface = false) ∧
      ctx.emmaInstrument = false ∧ ctx.IsNativeCoverageNeeded = false)
    (hvisited : e.isApexModule = true ∧ e.canHaveApexVariants = true ∧
      e.tagExcludeFromApexContents = false ∧ (∀ dt, e.apexTag = some dt → dt.payload = true))
    (hinternal : ctx.ModuleName ∈ e.InApexVariants)
    (hsame : e.fromIsDepIsInSameApex = true → e.DepIsInSameApex = true) :
    a.checkApexAvailability ctx directDeps fuel
        = WalkPayloadDeps ctx.ModuleName ctx.module directDeps fuel
            (checkApexAvailabilityCallback ctx.ModuleName) []
      ∧ WalkPayloadDepsVisitor ctx.ModuleName (checkApexAvailabilityCallback ctx.ModuleName)
          errors e
        = (if e.AvailableFor = false ∧ baselineApexAvailable ctx.ModuleName e.toName = false
            then errors ++ [{ fromName := e.fromName, toName := e.toName,
                              apexName := ctx.ModuleName }]
            else errors, true)
      ∧ (baselineApexAvailable ctx.ModuleName e.toName = true ↔
          ((∃ val, apexAvailBaseline.lookup ctx.ModuleName = some val ∧
              normalizeModuleName e.toName ∈ val)
            ∨ (∃ val, apexAvailBaseline.lookup AvailableToAnyApex = some val ∧
                normalizeModuleName e.toName ∈ val)))
      ∧ (∀ m rest : String,
          ((m = "libclang_rt." ++ rest ∨ m = "prebuilt_libclang_rt." ++ rest) →
              normalizeModuleName m = "libclang_rt")
            ∧ ((m = "androidx." ++ rest ∨ m = "prebuilt_androidx." ++ rest) →
                normalizeModuleName m = "androidx")
            ∧ (m = "prebuilt_" ++ rest → hasPrefix rest "libclang_rt." = false →
                hasPrefix rest "androidx." = false → normalizeModuleName m = rest)
            ∧ (hasPrefix m "prebuilt_" = false → hasPrefix m "libclang_rt." = false →
                hasPrefix m "androidx." = false → normalizeModuleName m = m)) := by
  obtain ⟨h1, h2, h3, h4, h5, h6, h7, h8⟩ := happlies
  obtain ⟨v1, v2, v3, v4⟩ := hvisited
  refine ⟨?_, ?_, baselineApexAvailable_iff _ _, normalizeModuleName_spec⟩
  · unfold apexBundle.checkApexAvailability
    cases hp : a.productSpecific
    · simp [h1, h2, h3, h4, h5, h7, h8]
    · simp [h1, h2, h3, h4, h5, h6 hp, h7, h8]
  · have htag : e.apexTag.any (fun dt => !dt.payload) = false := by
      cases ht : e.apexTag with
      | none => rfl
      | some dt => simp [v4 dt ht]
    have hin : InList ctx.ModuleName e.InApexVariants = true :=
      (mem_of_InList _ _).mpr hinternal
    unfold WalkPayloadDepsVisitor checkApexAvailabilityCallback
    simp only [v1, v2, v3, htag, hin, Bool.not_true, Bool.or_self, Bool.false_eq_true,
      if_false]
    cases hf : e.fromIsDepIsInSameApex <;> cases hd : e.DepIsInSameApex <;>
      cases hav : e.AvailableFor <;>
      cases hb : baselineApexAvailable ctx.ModuleName e.toName <;>
      simp_all

/-- C19, instance: in the bundle myapex, libA depends on libB, which is built
for myapex, is not available for it and is not in the baseline; the error is
reported. The name prebuilt_libz_current is normalized to libz_current, which
the baseline lists for com.android.extservices, and the name
libclang_rt.asan-aarch64-android to libclang_rt, which it lists for every
apex. -/
theorem checkApexAvailability_error_iff_witness :
    ("myapex" ∈ ["myapex"])
      ∧ WalkPayloadDepsVisitor "myapex" (checkApexAvailabilityCallback "myapex") []
          { parent := "libA", child := "libB", fromName := "libA", toName := "libB",
            InApexVariants := ["myapex"] }
        = ([{ fromName := "libA", toName := "libB", apexName := "myapex" }], true)
      ∧ apexBundle.checkApexAvailability {} { ModuleName := "myapex", module := "myapex" }
          exampleInternalGraph 3
        = some [{ fromName := "libA", toName := "libB", apexName := "myapex" }]
      ∧ normalizeModuleName "prebuilt_libz_current" = "libz_current"
      ∧ baselineApexAvailable "com.android.extservices" "prebuilt_libz_current" = true
      ∧ normalizeModuleName "libclang_rt.asan-aarch64-android" = "libclang_rt"
      ∧ baselineApexAvailable "myapex" "libclang_rt.asan-aarch64-android" = true :=
  have h := checkApexAvailability_error_iff {} { ModuleName := "myapex", module := "myapex" }
    exampleInternalGraph 3 []
    { parent := "libA", child := "libB", fromName := "libA", toName := "libB",
      InApexVariants := ["myapex"] }
    (by decide) (by decide) (by decide) (by decide)
  ⟨by decide, h.2.1.trans (by decide), by decide,
    (h.2.2.2 "prebuilt_libz_current" "libz_current").2.2.1 (by decide) (by decide) (by decide),
    by decide,
    (h.2.2.2 "libclang_rt.asan-aarch64-android" "asan-aarch64-android").1 (Or.inl (by decide)),
    by decide⟩

/-- C20 (as stated, refuted): the bundle myapex depends on libA through an
external edge and libA depends on libB, which is not available for myapex. The
check reports nothing: it does not go on through the external edge, so the edge
from libA to libB, on which the callback would report an error, is never
visited. -/
theorem checkApexAvailability_stops_at_external_edge :
    apexBundle.checkApexAvailability {} { ModuleName := "myapex", module := "myapex" }
        exampleExternalGraph 3 = some []
      ∧ exampleExternalGraph "libA"
        = [{ parent := "libA", child := "libB", fromName := "libA", toName := "libB",
             InApexVariants := ["myapex"] }]
      ∧ WalkPayloadDepsVisitor "myapex" (checkApexAvailabilityCallback "myapex") []
          { parent := "libA", child := "libB", fromName := "libA", toName := "libB",
            InApexVariants := ["myapex"] }
        = ([{ fromName := "libA", toName := "libB", apexName := "myapex" }], true) := by
  decide

/-- C20 (amended): on an edge to a target that is not built for the bundle (an
external edge), the visitor of `checkApexAvailability` reports no error and
returns false: the walk does not go on through the edge, so the dependencies of
the target are not visited through it. -/
theorem checkApexAvailability_external_edge (apexName : String)
    (errors : List AvailabilityError) (e : PayloadEdge)
    (hexternal : apexName ∉ e.InApexVariants) :
    WalkPayloadDepsVisitor apexName (checkApexAvailabilityCallback apexName) errors e
      = (errors, false) := by
  have hin : InList apexName e.InApexVariants = false := by
    cases h : InList apexName e.InApexVariants
    · rfl
    · exact absurd ((mem_of_InList _ _).mp h) hexternal
  unfold WalkPayloadDepsVisitor checkApexAvailabilityCallback
  simp only [hin]
  split
  · rfl
  · split
    · rfl
    · split
      · rfl
      · simp

/-- C20 (amended), instance: the edge from myapex to libA, which is not built
for myapex. -/
theorem checkApexAvailability_external_edge_witness :
    ("myapex" ∉ ([] : List String))
      ∧ WalkPayloadDepsVisitor "myapex" (checkApexAvailabilityCallback "myapex") []
          { parent := "myapex", child := "libA", fromName := "myapex", toName := "libA",
            apexTag := some sharedLibTag, InApexVariants := [] }
        = ([], false) :=
  ⟨by decide,
    checkApexAvailability_external_edge "myapex" []
      { parent := "myapex", child := "libA", fromName := "myapex", toName := "libA",
        apexTag := some sharedLibTag, InApexVariants := [] } (by decide)⟩

/-! ### Invariants of a walk -/

theorem WalkDeps_foldl_none {E σ : Type} (f : Option (σ × List String) → E →
    Option (σ × List String)) (hf : ∀ e, f none e = none) (l : List E) :
    l.foldl f none = none := by
  induction l with
  | nil => rfl
  | cons e l ih => simp [List.foldl_cons, hf, ih]

theorem WalkDeps_invariant {E σ : Type} (directDeps : String → List E) (childOf : E → String)
    (visit : σ → E → σ × Bool) (P : σ → Prop)
    (hstep : ∀ s m e, e ∈ directDeps m → P s → P (visit s e).1) :
    ∀ (fuel : Nat) (m : String) (s r : σ × List String),
      WalkDeps directDeps childOf visit fuel m s = some r → P s.1 → P r.1 := by
  intro fuel
  induction fuel with
  | zero => intro m s r h; simp [WalkDeps] at h
  | succ fuel ih =>
    intro m s r h hs
    unfold WalkDeps at h
    have key : ∀ (l : List E) (s r : σ × List String), (∀ e ∈ l, e ∈ directDeps m) →
        l.foldl
          (fun acc dep =>
            match acc with
            | none => none
            | some (st, visited) =>
              let r := visit st dep
              if r.2 && !visited.contains (childOf dep) then
                match WalkDeps directDeps childOf visit fuel (childOf dep) (r.1, visited) with
                | none => none
                | some (st2, visited2) => some (st2, childOf dep :: visited2)
              else some (r.1, visited))
          (some s) = some r → P s.1 → P r.1 := by
      intro l
      induction l with
      | nil =>
        intro s r _ h hs
        simp only [List.foldl_nil, Option.some.injEq] at h
        exact h ▸ hs
      | cons e l ihl =>
        intro s r hmem h hs
        obtain ⟨st, visited⟩ := s
        have he : e ∈ directDeps m := hmem e (List.mem_cons_self _ _)
        have hl : ∀ x ∈ l, x ∈ directDeps m := fun x hx => hmem x (List.mem_cons_of_mem _ hx)
        have hv : P (visit st e).1 := hstep st m e he hs
        simp only [List.foldl_cons] at h
        by_cases hc : ((visit st e).2 && !visited.contains (childOf e)) = true
        · simp only [hc, if_true] at h
          cases hw : WalkDeps directDeps childOf visit fuel (childOf e) ((visit st e).1, visited)
            with
          | none =>
            simp only [hw] at h
            rw [WalkDeps_foldl_none _ (fun _ => rfl)] at h
            exact absurd h (by simp)
          | some r2 =>
            obtain ⟨st2, visited2⟩ := r2
            simp only [hw] at h
            have hp2 : P st2 := ih (childOf e) ((visit st e).1, visited) (st2, visited2) hw hv
            exact ihl (st2, childOf e :: visited2) r hl h hp2
        · simp only [hc, Bool.false_eq_true, if_false] at h
          exact ihl ((visit st e).1, visited) r hl h hv
    exact key (directDeps m) s r (fun e he => he) h hs

theorem WalkDeps_terminates {E σ : Type} (directDeps : String → List E) (childOf : E → String)
    (visit : σ → E → σ × Bool) (rank : String → Nat)
    (hrank : ∀ m, ∀ e ∈ directDeps m, rank (childOf e) < rank m) :
    ∀ (fuel : Nat) (m : String) (s : σ × List String), rank m < fuel →
      ∃ r, WalkDeps directDeps childOf visit fuel m s = some r := by
  intro fuel
  induction fuel with
  | zero => intro m s h; exact absurd h (Nat.not_lt_zero _)
  | succ fuel ih =>
    intro m s hm
    unfold WalkDeps
    have key : ∀ (l : List E) (s : σ × List String), (∀ e ∈ l, rank (childOf e) < fuel) →
        ∃ r, l.foldl
          (fun acc dep =>
            match acc with
            | none => none
            | some (st, visited) =>
              let r := visit st dep
              if r.2 && !visited.contains (childOf dep) then
                match WalkDeps directDeps childOf visit fuel (childOf dep) (r.1, visited) with
                | none => none
                | some (st2, visited2) => some (st2, childOf dep :: visited2)
              else some (r.1, visited))
          (some s) = some r := by
      intro l
      induction l with
      | nil => intro s _; exact ⟨s, rfl⟩
      | cons e l ihl =>
        intro s hmem
        obtain ⟨st, visited⟩ := s
        have he : rank (childOf e) < fuel := hmem e (List.mem_cons_self _ _)
        have hl : ∀ x ∈ l, rank (childOf x) < fuel :=
          fun x hx => hmem x (List.mem_cons_of_mem _ hx)
        simp only [List.foldl_cons]
        by_cases hc : ((visit st e).2 && !visited.contains (childOf e)) = true
        · simp only [hc, if_true]
          obtain ⟨r2, hr2⟩ := ih (childOf e) ((visit st e).1, visited) he
          obtain ⟨st2, visited2⟩ := r2
          simp only [hr2]
          exact ihl (st2, childOf e :: visited2) hl
        · simp only [hc, Bool.false_eq_true, if_false]
          exact ihl ((visit st e).1, visited) hl
    exact key (directDeps m) s
      (fun e he => Nat.lt_of_lt_of_le (hrank m e he) (Nat.le_of_lt_succ hm))

/-! ### `depVisitor` -/

/-- C17 (as stated, refuted): for a host bundle, an indirect shared library
dependency on libstub, which has stub variants and is not directly in the
bundle: `depVisitor` appends its file to `filesInfo`, leaves `requireNativeLibs`
as it was and lets the walk go on through it. -/
theorem depVisitor_host_includes_stub_library :
    DirectlyInApex emptyContents "libstub" = false
      ∧ apexBundle.depVisitor { host := true, device := false } {} {} exampleStubEdge
        = ({ vctx := { filesInfo := [{ exampleStubEdge.file with transitiveDep := true }] } },
            true) := by
  decide

/-- C17 (amended): for a bundle that is neither a host bundle nor the VNDK apex,
on an edge whose parent is not the bundle and whose tag is a shared library or
runtime tag and not an `ExcludeFromApexContentsTag`, to an enabled cc library
that is a stub or has stub variants, that is not directly in the membership
table of the bundle and that is not a VNDK library left out by
`use_vndk_as_stable`, `depVisitor` appends nothing to `filesInfo`, appends the
stem of the library to `requireNativeLibs` and returns false. -/
theorem depVisitor_stub_library_required (a : apexBundle) (ctx : DepVisitorContext)
    (s : DepVisitorState) (e : DepEdge)
    (hhost : a.host = false) (hvndkApex : a.vndkApex = false)
    (hexclude : e.tagExcludeFromApexContents = false)
    (henabled : e.isAndroidModule = true → e.Enabled = true)
    (hindirect : e.parentIsApexBundle = false)
    (hapex : e.isApexModule = true)
    (htag : e.IsSharedDepTag = true ∨ e.IsRuntimeDepTag = true)
    (hcc : e.moduleType = .ccModule)
    (hvndk : ¬ (e.UseVndk = true ∧ proptoolsBool a.properties.Use_vndk_as_stable = true ∧
      e.IsVndk = true))
    (hstub : e.IsStubs = true ∨ e.HasStubsVariants = true)
    (hdirect : DirectlyInApex ctx.Contents e.depName = false) :
    (a.depVisitor ctx s e).1.vctx.filesInfo = s.vctx.filesInfo
      ∧ (a.depVisitor ctx s e).1.vctx.requireNativeLibs
          = s.vctx.requireNativeLibs ++ [apexFile.stem { e.file with transitiveDep := true }]
      ∧ (a.depVisitor ctx s e).2 = false := by
  have hen : (e.isAndroidModule && !e.Enabled) = false := by
    cases h1 : e.isAndroidModule
    · rfl
    · simp [henabled h1]
  have ht : (e.IsSharedDepTag || e.IsRuntimeDepTag) = true := by
    rcases htag with h | h <;> simp [h]
  have hv : (e.UseVndk && proptoolsBool a.properties.Use_vndk_as_stable && e.IsVndk) = false := by
    cases h1 : e.UseVndk <;> cases h2 : proptoolsBool a.properties.Use_vndk_as_stable <;>
      cases h3 : e.IsVndk <;> simp_all
  have hs : (e.IsStubs || e.HasStubsVariants) = true := by
    rcases hstub with h | h <;> simp [h]
  unfold apexBundle.depVisitor apexBundle.depVisitorIndirect
  simp only [hexclude, hen, hindirect, hvndkApex, hapex, ht, hcc, hv, hhost, hdirect, hs,
    Bool.false_eq_true, if_false, if_true, Bool.not_true, Bool.not_false, Bool.and_self]
  split <;> (try split) <;> simp

/-- C17 (amended), instance: for a device bundle, the indirect shared library
dependency on libstub adds libstub.so to `requireNativeLibs` and no file. -/
theorem depVisitor_stub_library_required_witness :
    DirectlyInApex emptyContents "libstub" = false
      ∧ (apexBundle.depVisitor {} {} {} exampleStubEdge).1.vctx.filesInfo = []
      ∧ (apexBundle.depVisitor {} {} {} exampleStubEdge).1.vctx.requireNativeLibs
          = ["libstub.so"]
      ∧ (apexBundle.depVisitor {} {} {} exampleStubEdge).2 = false :=
  have h := depVisitor_stub_library_required {} {} {} exampleStubEdge
    (by decide) (by decide) (by decide) (by decide) (by decide) (by decide) (by decide)
    (by decide) (by decide) (by decide) (by decide)
  ⟨by decide, h.1, h.2.1.trans (by decide), h.2.2⟩

/-! ### VNDK libraries under `use_vndk_as_stable` -/

theorem excludeVndkLibs_of_no_errors {L : Type} (a : apexBundle) (mctx : ApexInfoContext)
    (api : ApiLevels L)
    (huse : proptoolsBool a.properties.Use_vndk_as_stable = true)
    (herr : (a.useVndkAsStableErrors mctx api).isEmpty = true) :
    a.excludeVndkLibs mctx = true := by
  unfold apexBundle.useVndkAsStableErrors at herr
  unfold apexBundle.excludeVndkLibs
  simp only [huse, if_true, Bool.and_true] at herr ⊢
  cases hu : (a.socSpecific || a.deviceSpecific ||
    (a.productSpecific && mctx.EnforceProductPartitionInterface))
  · simp [hu] at herr
  · rfl

theorem continueApexDepsWalk_vndk (v : Visit)
    (hcc : v.child.isCcModule = true) (hvndk : v.child.isVndk = true)
    (halways : ¬ (v.tagIsAlwaysRequire = true ∧ v.tagAlwaysRequireApexVariant = true)) :
    continueApexDepsWalk true v = false := by
  unfold continueApexDepsWalk
  cases h1 : v.tagIsAlwaysRequire <;> cases h2 : v.tagAlwaysRequireApexVariant <;>
    simp_all

theorem contentsVisitor_other_name (excl : Bool) (c : Contents) (v : Visit) (n : String)
    (h : v.child.name = n → continueApexDepsWalk excl v = false) :
    (contentsVisitor excl c v).1 n = c n := by
  unfold contentsVisitor
  by_cases hc : continueApexDepsWalk excl v = true
  · have hn : ¬ v.child.name = n := fun e => by simp [h e] at hc
    have hn2 : ¬ n = v.child.name := fun e => hn e.symm
    simp [hc, Contents.set, hn2]
  · simp [hc]

theorem buildForApexVisitor_other_name (excl : Bool) (marked : List String) (v : Visit)
    (n : String) (h : v.child.name = n → continueApexDepsWalk excl v = false)
    (hm : n ∉ marked) : n ∉ (buildForApexVisitor excl marked v).1 := by
  unfold buildForApexVisitor
  by_cases hc : continueApexDepsWalk excl v = true
  · have hn : ¬ v.child.name = n := fun e => by simp [h e] at hc
    have hn2 : ¬ n = v.child.name := fun e => hn e.symm
    simp [hc, hm, hn2]
  · simp [hc, hm]

/-- C18 (as stated, refuted): a vendor bundle with `use_vndk_as_stable: true`.
In the graph, the VNDK library libvndk is reached only through libfoo, by an
edge whose tag always requires an apex variant: `ApexInfoMutator` records it as
an indirect member and marks it. And on an indirect shared library edge to the
variant of libvndk that does not use the VNDK, `depVisitor` appends the file of
the library. -/
theorem use_vndk_as_stable_keeps_vndk_library :
    (apexBundle.ApexInfoMutator exampleVendorApex { ModuleName := "myapex", module := "myapex" }
        (exampleApiLevels "") (exampleVndkGraph true) 3).map
          (fun r => (r.contents "libvndk", r.marked))
        = some (.indirectlyInApex, ["libfoo", "libvndk"])
      ∧ apexBundle.depVisitor exampleVendorApex {} {} (exampleVndkEdge false)
        = ({ vctx := { filesInfo :=
              [{ (exampleVndkEdge false).file with transitiveDep := true }] } }, true) := by
  decide

/-- C18 (amended): for a bundle with `use_vndk_as_stable` set to true, on a
graph without cycles (its edges decrease a rank) and with fuel above the rank
of the bundle, `ApexInfoMutator` returns, and when every edge of the graph to a
module of the name leads to a VNDK cc library by a tag that does not always
require an apex variant, it neither records the name in the membership table
nor marks it; and on an edge whose parent is not the bundle, with a shared
library or runtime tag, to a VNDK cc library that uses the VNDK, `depVisitor`
appends nothing to `filesInfo` and returns false. -/
theorem use_vndk_as_stable_excludes_vndk_library {L : Type} (a : apexBundle)
    (mctx : ApexInfoContext) (api : ApiLevels L)
    (directDeps : String → List (String × Visit)) (rank : String → Nat) (fuel : Nat)
    (name : String) (ctx : DepVisitorContext) (s : DepVisitorState) (e : DepEdge)
    (huse : proptoolsBool a.properties.Use_vndk_as_stable = true)
    (hrank : ∀ m, ∀ x ∈ directDeps m, rank x.1 < rank m)
    (hfuel : rank mctx.module < fuel)
    (hgraph : ∀ m, ∀ x ∈ directDeps m, x.2.child.name = name →
      x.2.child.isCcModule = true ∧ x.2.child.isVndk = true ∧
        ¬ (x.2.tagIsAlwaysRequire = true ∧ x.2.tagAlwaysRequireApexVariant = true))
    (hindirect : e.parentIsApexBundle = false)
    (htag : e.IsSharedDepTag = true ∨ e.IsRuntimeDepTag = true)
    (hcc : e.moduleType = .ccModule)
    (hvndk : e.UseVndk = true ∧ e.IsVndk = true) :
    (∃ r, a.ApexInfoMutator mctx api directDeps fuel = some r
        ∧ r.contents name = .notInApex ∧ name ∉ r.marked)
      ∧ ((a.depVisitor ctx s e).1.vctx.filesInfo = s.vctx.filesInfo
          ∧ (a.depVisitor ctx s e).2 = false) := by
  constructor
  · unfold apexBundle.ApexInfoMutator
    cases hva : a.vndkApex with
    | true =>
      simp only [if_true]
      exact ⟨_, rfl, rfl, by simp⟩
    | false =>
      simp only [Bool.false_eq_true, if_false, huse, Bool.true_and]
      cases herr : (a.useVndkAsStableErrors mctx api).isEmpty with
      | false =>
        simp only [Bool.not_false, if_true]
        exact ⟨_, rfl, rfl, by simp⟩
      | true =>
        have hex := excludeVndkLibs_of_no_errors a mctx api huse herr
        simp only [Bool.not_true, Bool.false_eq_true, if_false, hex]
        have hrej : ∀ m, ∀ x ∈ directDeps m, x.2.child.name = name →
            continueApexDepsWalk true x.2 = false := by
          intro m x hx hn
          obtain ⟨h1, h2, h3⟩ := hgraph m x hx hn
          exact continueApexDepsWalk_vndk x.2 h1 h2 h3
        obtain ⟨r1, hw1⟩ := WalkDeps_terminates directDeps (fun e => e.1)
          (fun contents e => contentsVisitor true contents e.2) rank hrank
          fuel mctx.module (emptyContents, []) hfuel
        obtain ⟨r2, hw2⟩ := WalkDeps_terminates directDeps (fun e => e.1)
          (fun marked e => buildForApexVisitor true marked e.2) rank hrank
          fuel mctx.module ([], []) hfuel
        obtain ⟨contents, v1⟩ := r1
        obtain ⟨marked, v2⟩ := r2
        simp only [hw1, hw2]
        have hc := WalkDeps_invariant directDeps (fun e => e.1)
          (fun contents e => contentsVisitor true contents e.2)
          (fun c => c name = .notInApex)
          (fun c m x hx hp => by
            show (contentsVisitor true c x.2).1 name = .notInApex
            rw [contentsVisitor_other_name true c x.2 name (hrej m x hx)]
            exact hp)
          fuel mctx.module (emptyContents, []) (contents, v1) hw1 rfl
        have hm := WalkDeps_invariant directDeps (fun e => e.1)
          (fun marked e => buildForApexVisitor true marked e.2)
          (fun l => name ∉ l)
          (fun l m x hx hp =>
            buildForApexVisitor_other_name true l x.2 name (hrej m x hx) hp)
          fuel mctx.module ([], []) (marked, v2) hw2 (by simp)
        exact ⟨_, rfl, hc, hm⟩
  · have ht : (e.IsSharedDepTag || e.IsRuntimeDepTag) = true := by
      rcases htag with h | h <;> simp [h]
    unfold apexBundle.depVisitor
    split
    · exact ⟨rfl, rfl⟩
    · split
      · exact ⟨rfl, rfl⟩
      · simp only [hindirect, Bool.false_eq_true, if_false]
        split
        · exact ⟨rfl, rfl⟩
        · have hv : (e.UseVndk && proptoolsBool a.properties.Use_vndk_as_stable &&
              e.IsVndk) = true := by
            rw [hvndk.1, hvndk.2, huse]
            rfl
          unfold apexBundle.depVisitorIndirect
          cases hapex : e.isApexModule
          · simp only [Bool.not_false, if_true, and_self]
          · simp only [Bool.not_true, Bool.false_eq_true, if_false, ht, hcc, hv, if_true,
              and_self]

/-- C18 (amended), instance: the vendor bundle myapex with
`use_vndk_as_stable: true` depends on libfoo and libfoo on the VNDK library
libvndk by an ordinary edge; libfoo is recorded and marked, libvndk is neither
recorded nor marked, and the edge to the variant of libvndk that uses the VNDK
adds no file. When min_sdk_version of such a bundle does not parse, the mutator
reports the property error and returns before its walks. -/
theorem use_vndk_as_stable_excludes_vndk_library_witness :
    (apexBundle.ApexInfoMutator exampleVendorApex { ModuleName := "myapex", module := "myapex" }
        (exampleApiLevels "") (exampleVndkGraph false) 3).map
          (fun r => (r.contents "libfoo", r.contents "libvndk", r.marked))
        = some (.directlyInApex, .notInApex, ["libfoo"])
      ∧ (apexBundle.depVisitor exampleVendorApex {} {} (exampleVndkEdge true)).1.vctx.filesInfo
          = []
      ∧ (apexBundle.depVisitor exampleVendorApex {} {} (exampleVndkEdge true)).2 = false
      ∧ (apexBundle.ApexInfoMutator
          { properties := { Use_vndk_as_stable := some true, Min_sdk_version := some "thirty" },
            socSpecific := true }
          { ModuleName := "myapex", module := "myapex" }
          (exampleApiLevels "") (exampleVndkGraph false) 3).map
            (fun r => (r.errors.map (fun err => err.property), r.published, r.marked))
        = some ([some "min_sdk_version"], false, []) :=
  have h := use_vndk_as_stable_excludes_vndk_library exampleVendorApex
    { ModuleName := "myapex", module := "myapex" } (exampleApiLevels "") (exampleVndkGraph false)
    (fun m => if m = "myapex" then 2 else if m = "libfoo" then 1 else 0) 3
    "libvndk" {} {} (exampleVndkEdge true) (by decide)
    (by
      intro m x hx
      unfold exampleVndkGraph at hx
      split at hx
      · simp only [List.mem_singleton] at hx
        subst hx
        simp_all
      · split at hx
        · simp only [List.mem_singleton] at hx
          subst hx
          simp_all
        · simp at hx)
    (by decide)
    (by
      intro m x hx hn
      unfold exampleVndkGraph at hx
      split at hx
      · simp only [List.mem_singleton] at hx
        subst hx
        exact absurd hn (by decide)
      · split at hx
        · simp only [List.mem_singleton] at hx
          subst hx
          decide
        · simp at hx)
    (by decide) (by decide) (by decide) (by decide)
  ⟨by decide, h.2.1, h.2.2, by decide⟩

/-! ### `checkStaticLinkingToStubLibraries` -/

/-- C21 (as stated, refuted): in the bundle com.android.runtime, the binary
linkerconfig links libc, a cc library with stub variants that is not a direct
member of the bundle, by an edge inside the apex that is not external. The
check reports nothing: linkerconfig is exempt like linker and crash_dump, while
for a binary of another name the error is reported. -/
theorem checkStaticLinkingToStubLibraries_exempts_linkerconfig :
    apexBundle.checkStaticLinkingToStubLibraries {}
        { ModuleName := "com.android.runtime", module := "com.android.runtime" }
        emptyContents (exampleRuntimeGraph "linkerconfig") 3 = some []
      ∧ apexBundle.checkStaticLinkingToStubLibraries {}
        { ModuleName := "com.android.runtime", module := "com.android.runtime" }
        emptyContents (exampleRuntimeGraph "toybox") 3
          = some [{ toName := "libc", fromName := "toybox" }] := by
  decide

/-- C21 (amended): for a bundle that is not a test apex nor the VNDK apex, in
a context that is not host, `checkStaticLinkingToStubLibraries` is the walk of
`WalkPayloadDeps` with its callback; on every edge that the walk passes to the
callback, that is not external, whose target is in the same apex as its source
and is a cc module with stub variants that is not directly in the bundle, the
callback reports a module error and the walk goes on, except when the bundle is
com.android.runtime and the source of the edge is named linker, crash_dump or
linkerconfig: then nothing is reported and the walk does not go on through the
edge. -/
theorem checkStaticLinkingToStubLibraries_error (a : apexBundle) (ctx : AvailabilityContext)
    (abInfo : Contents) (directDeps : String → List PayloadEdge) (fuel : Nat)
    (errors : List StubLinkError) (e : PayloadEdge)
    (happlies : ctx.Host = false ∧ a.testApex = false ∧ a.vndkApex = false)
    (hvisited : e.isApexModule = true ∧ e.canHaveApexVariants = true ∧
      e.tagExcludeFromApexContents = false ∧ (∀ dt, e.apexTag = some dt → dt.payload = true))
    (hinternal : ctx.ModuleName ∈ e.InApexVariants)
    (hsame : e.fromIsDepIsInSameApex = true → e.DepIsInSameApex = true)
    (hcc : e.toIsCcModule = true) (hstub : e.HasStubsVariants = true)
    (hdirect : DirectlyInApex abInfo e.toName = false) :
    a.checkStaticLinkingToStubLibraries ctx abInfo directDeps fuel
        = WalkPayloadDeps ctx.ModuleName ctx.module directDeps fuel
            (checkStaticLinkingToStubLibrariesCallback ctx.ModuleName abInfo) []
      ∧ WalkPayloadDepsVisitor ctx.ModuleName
          (checkStaticLinkingToStubLibrariesCallback ctx.ModuleName abInfo) errors e
        = (if ctx.ModuleName = "com.android.runtime" ∧
              (e.fromName = "linker" ∨ e.fromName = "crash_dump" ∨ e.fromName = "linkerconfig")
            then (errors, false)
            else (errors ++ [{ toName := e.toName, fromName := e.fromName }], true)) := by
  obtain ⟨h1, h2, h3⟩ := happlies
  obtain ⟨v1, v2, v3, v4⟩ := hvisited
  constructor
  · simp [apexBundle.checkStaticLinkingToStubLibraries, h1, h2, h3]
  · have htag : e.apexTag.any (fun dt => !dt.payload) = false := by
      cases ht : e.apexTag with
      | none => rfl
      | some dt => simp [v4 dt ht]
    have hin : InList ctx.ModuleName e.InApexVariants = true :=
      (mem_of_InList _ _).mpr hinternal
    have hsame2 : (e.fromIsDepIsInSameApex && !e.DepIsInSameApex) = false := by
      cases hf : e.fromIsDepIsInSameApex
      · rfl
      · simp [hsame hf]
    unfold WalkPayloadDepsVisitor checkStaticLinkingToStubLibrariesCallback
    simp only [v1, v2, v3, htag, hin, hcc, hstub, hdirect, hsame2, Bool.not_true, Bool.or_self,
      Bool.false_eq_true, if_false, if_true, Bool.not_false, Bool.and_self]
    by_cases hc : ctx.ModuleName = "com.android.runtime" ∧
        (e.fromName = "linker" ∨ e.fromName = "crash_dump" ∨ e.fromName = "linkerconfig")
    · have hb : (ctx.ModuleName == "com.android.runtime" &&
          (e.fromName == "linker" || e.fromName == "crash_dump" ||
            e.fromName == "linkerconfig")) = true := by
        simpa [Bool.and_eq_true, Bool.or_eq_true, or_assoc] using hc
      rw [if_pos hb, if_pos hc]
    · have hb : (ctx.ModuleName == "com.android.runtime" &&
          (e.fromName == "linker" || e.fromName == "crash_dump" ||
            e.fromName == "linkerconfig")) = false := by
        rw [Bool.eq_false_iff]
        intro h
        apply hc
        simpa [Bool.and_eq_true, Bool.or_eq_true, or_assoc] using h
      rw [if_neg (by rw [hb]; decide), if_neg hc]

/-- C21 (amended), instance: in the bundle com.android.runtime the edge from
toybox to libc is reported, the edge from crash_dump to libc is not. -/
theorem checkStaticLinkingToStubLibraries_error_witness :
    ("com.android.runtime" ∈ ["com.android.runtime"])
      ∧ WalkPayloadDepsVisitor "com.android.runtime"
          (checkStaticLinkingToStubLibrariesCallback "com.android.runtime" emptyContents) []
          { parent := "toybox", child := "libc", fromName := "toybox", toName := "libc",
            InApexVariants := ["com.android.runtime"], toIsCcModule := true,
            HasStubsVariants := true }
        = ([{ toName := "libc", fromName := "toybox" }], true)
      ∧ apexBundle.checkStaticLinkingToStubLibraries {}
        { ModuleName := "com.android.runtime", module := "com.android.runtime" }
        emptyContents (exampleRuntimeGraph "crash_dump") 3 = some [] :=
  ⟨by decide,
    (checkStaticLinkingToStubLibraries_error {}
      { ModuleName := "com.android.runtime", module := "com.android.runtime" }
      emptyContents (exampleRuntimeGraph "toybox") 3 []
      { parent := "toybox", child := "libc", fromName := "toybox", toName := "libc",
        InApexVariants := ["com.android.runtime"], toIsCcModule := true,
        HasStubsVariants := true }
      (by decide) (by decide) (by decide) (by decide) (by decide) (by decide)
      (by decide)).2.trans (by decide),
    by decide⟩

/-! ### `checkStaticExecutables` -/

theorem isStaticExecutableAllowed_iff (apex exec : String) :
    isStaticExecutableAllowed apex exec = true ↔
      apex = "com.android.runtime" ∧ (exec = "linker" ∨ exec = "linkerconfig") := by
  unfold isStaticExecutableAllowed
  by_cases h : apex = "com.android.runtime"
  · subst h
    have hl : List.lookup "com.android.runtime"
        [("com.android.runtime", ["linker", "linkerconfig"])] = some ["linker", "linkerconfig"] := by
      decide
    simp only [hl, mem_of_InList, List.mem_cons, List.mem_singleton, List.not_mem_nil, or_false,
      true_and]
  · have hl : List.lookup apex [("com.android.runtime", ["linker", "linkerconfig"])] = none := by
      have hb : (apex == "com.android.runtime") = false := by simpa using h
      simp [List.lookup, hb]
    simp [hl, h]

/-- For a host context `checkStaticExecutables` reports nothing; otherwise
it reports one module error, naming the executable, for every direct dependency
with the tag `executableTag` that is a linkable module and a static executable,
unless `isStaticExecutableAllowed` holds for the apex variation name and the
name of the executable, and it reports nothing else; and
`isStaticExecutableAllowed` holds exactly when the apex is com.android.runtime
and the executable is linker or linkerconfig. -/
theorem checkStaticExecutables_errors (a : apexBundle) (host : Bool)
    (directDeps : List ExecutableDep) (apex exec : String) :
    a.checkStaticExecutables host directDeps
        = (if host then []
           else
            (directDeps.filter (fun d =>
                decide (d.tag = some executableTag) && d.isLinkableInterface &&
                  d.StaticExecutable &&
                  !isStaticExecutableAllowed a.properties.ApexVariationName d.name)).map
              (fun d =>
                { property := none, format := "executable %s is static", args := [d.name] }))
      ∧ (isStaticExecutableAllowed apex exec = true ↔
          apex = "com.android.runtime" ∧ (exec = "linker" ∨ exec = "linkerconfig")) := by
  refine ⟨?_, isStaticExecutableAllowed_iff apex exec⟩
  unfold apexBundle.checkStaticExecutables
  cases host
  · simp only [Bool.false_eq_true, if_false]
    induction directDeps with
    | nil => rfl
    | cons d ds ih =>
      rw [List.flatMap_cons, ih, List.filter_cons]
      by_cases ht : d.tag = some executableTag
      · cases hl : d.isLinkableInterface <;> cases hs : d.StaticExecutable <;>
          cases hal : isStaticExecutableAllowed a.properties.ApexVariationName d.name <;>
          simp [ht, hl, hs, hal]
      · simp [ht]
  · rfl

/-- C22: the cc test mytest, a static executable, is a direct dependency of a
device bundle by the tag `testTag`. `depVisitor` packages its file, as a native
test, while `checkStaticExecutables` reports nothing for it; for the same
module with the tag `executableTag` it reports the module error. -/
theorem checkStaticExecutables_skips_static_test :
    (apexBundle.depVisitor {} {} {} exampleStaticTestEdge).1.vctx.filesInfo
        = [{ builtFile := "out/mytest/mytest", installDir := "bin", class_ := .nativeTest }]
      ∧ exampleStaticTest.StaticExecutable = true
      ∧ isStaticExecutableAllowed (apexBundle.properties {}).ApexVariationName
          exampleStaticTest.name = false
      ∧ apexBundle.checkStaticExecutables {} false [exampleStaticTest] = []
      ∧ apexBundle.checkStaticExecutables {} false
          [{ exampleStaticTest with tag := some executableTag }]
        = [{ property := none, format := "executable %s is static", args := ["mytest"] }] := by
  decide

/-! ### `checkUpdatable` -/

/-- C23: a bundle is updatable exactly when `updatable` is set to true or left
unset; for an updatable bundle whose `minSdkVersionValue` is empty,
`checkUpdatable` reports the property error on updatable that asks for
min_sdk_version; for a bundle with `updatable` set to false it reports
nothing. -/
theorem checkUpdatable_min_sdk_version {L : Type} (a : apexBundle) (ctx : UpdatableContext L) :
    (a.Updatable = true ↔ a.properties.Updatable = some true ∨ a.properties.Updatable = none)
      ∧ (a.Updatable = true → (a.minSdkVersionValue ctx.api).1 = "" →
          { property := some "updatable",
            format := "updatable APEXes should set min_sdk_version as well", args := [] }
            ∈ a.checkUpdatable ctx)
      ∧ (a.properties.Updatable = some false → a.checkUpdatable ctx = []) := by
  refine ⟨?_, ?_, ?_⟩
  · unfold apexBundle.Updatable proptoolsBoolDefault
    cases h : a.properties.Updatable with
    | none => simp
    | some b => cases b <;> simp
  · intro hu hv
    unfold apexBundle.checkUpdatable
    simp only [hu, if_true, hv]
    simp
  · intro hu
    unfold apexBundle.checkUpdatable
    have : a.Updatable = false := by
      unfold apexBundle.Updatable proptoolsBoolDefault
      rw [hu]
      rfl
    simp [this]

/-- C23, instance: a bundle that sets neither updatable nor min_sdk_version
gets the property error on updatable, and nothing else; the same bundle with
updatable set to false gets nothing. -/
theorem checkUpdatable_min_sdk_version_witness :
    apexBundle.checkUpdatable {} { ModuleName := "myapex", api := exampleApiLevels "" }
        = [{ property := some "updatable",
             format := "updatable APEXes should set min_sdk_version as well", args := [] }]
      ∧ ({ property := some "updatable",
           format := "updatable APEXes should set min_sdk_version as well", args := [] }
          ∈ apexBundle.checkUpdatable {}
              { ModuleName := "myapex", api := exampleApiLevels "" })
      ∧ apexBundle.checkUpdatable { properties := { Updatable := some false } }
          { ModuleName := "myapex", api := exampleApiLevels "" } = [] :=
  ⟨by decide,
    (checkUpdatable_min_sdk_version {}
      { ModuleName := "myapex", api := exampleApiLevels "" }).2.1 (by decide) (by decide),
    (checkUpdatable_min_sdk_version { properties := { Updatable := some false } }
      { ModuleName := "myapex", api := exampleApiLevels "" }).2.2 rfl⟩

/-! ### `setSystemLibLink` and `setCompression` -/

/-- C24 (as stated, refuted): an updatable bundle (updatable is left unset)
that is installable, in a bundled build for the device. For its variant of the
flattened packaging `setSystemLibLink` sets `linkToSystemLib` to true, and so it
does for the variant of the image packaging when the configuration forces the
symlink optimization. -/
theorem setSystemLibLink_links_updatable_bundle :
    apexBundle.Updatable { properties := { ApexType := .flattenedApex } } = true
      ∧ (apexBundle.setSystemLibLink { properties := { ApexType := .flattenedApex } }
          {}).linkToSystemLib = true
      ∧ (apexBundle.setSystemLibLink { properties := { ApexType := .imageApex } }
          { ForceApexSymlinkOptimization := true }).linkToSystemLib = true := by
  decide

/-- C24 (amended): for a bundle for which `Updatable` or `FutureUpdatable` is
true, of the image packaging, when the configuration does not force the symlink
optimization, `setSystemLibLink` leaves `linkToSystemLib` false. -/
theorem setSystemLibLink_updatable_image (a : apexBundle) (ctx : BuildContext)
    (hupdatable : a.Updatable = true ∨ a.FutureUpdatable = true)
    (himage : a.properties.ApexType = .imageApex)
    (hforced : ctx.ForceApexSymlinkOptimization = false) :
    (a.setSystemLibLink ctx).linkToSystemLib = false := by
  have hu : (a.Updatable || a.FutureUpdatable) = true := by
    rcases hupdatable with h | h <;> simp [h]
  unfold apexBundle.setSystemLibLink
  simp only [apexBundle.Updatable, apexBundle.FutureUpdatable] at hu ⊢
  simp only [hforced, himage, Bool.not_false, Bool.true_and, beq_self_eq_true, Bool.and_true]
  split_ifs <;> simp_all

/-- C24 (amended), instance: the variant of the image packaging of a bundle that
leaves updatable unset, in a bundled build. -/
theorem setSystemLibLink_updatable_image_witness :
    (apexBundle.setSystemLibLink { properties := { ApexType := .imageApex } }
      {}).linkToSystemLib = false :=
  setSystemLibLink_updatable_image { properties := { ApexType := .imageApex } } {}
    (Or.inl (by decide)) rfl rfl

/-- C25 (as stated, refuted): a bundle of the image packaging that leaves
compressible unset and sets test_only_force_compression: `setCompression` sets
`isCompressed` to true, whether the configuration enables compression or not. -/
theorem setCompression_forced_without_compressible :
    (apexBundle.setCompression { properties := { Test_only_force_compression := some true } }
        {}).isCompressed = true
      ∧ (apexBundle.setCompression
          { properties := { Test_only_force_compression := some true },
            overridableProperties := { Compressible := some false } }
          {}).isCompressed = true := by
  decide

/-- C25 (amended): when compressible is not true and test_only_force_compression
is not set to true, `setCompression` sets `isCompressed` to false; and it sets
`isCompressed` to false for every packaging other than image. -/
theorem setCompression_not_compressible (a : apexBundle) (ctx : BuildContext) :
    (a.overridableProperties.Compressible ≠ some true →
        a.properties.Test_only_force_compression ≠ some true →
        (a.setCompression ctx).isCompressed = false)
      ∧ (a.properties.ApexType ≠ .imageApex → (a.setCompression ctx).isCompressed = false) := by
  constructor
  · intro hc ht
    have hc2 : proptoolsBoolDefault a.overridableProperties.Compressible false = false := by
      unfold proptoolsBoolDefault
      cases h : a.overridableProperties.Compressible with
      | none => rfl
      | some b =>
        cases b
        · rfl
        · exact absurd h hc
    have ht2 : proptoolsBool a.properties.Test_only_force_compression = false := by
      unfold proptoolsBool
      cases h : a.properties.Test_only_force_compression with
      | none => rfl
      | some b =>
        cases b
        · rfl
        · exact absurd h ht
    unfold apexBundle.setCompression apexBundle.testOnlyShouldForceCompression
      apexBundle.isCompressable
    simp only [hc2, ht2, Bool.false_and, Bool.and_false, Bool.false_eq_true, if_false]
    split <;> rfl
  · intro hty
    unfold apexBundle.setCompression
    simp [hty]

/-- C25 (amended), instance: a bundle of the image packaging with compressible
set to false in a configuration that enables compression, and a bundle of the
zip packaging with compressible set to true. -/
theorem setCompression_not_compressible_witness :
    (apexBundle.setCompression { overridableProperties := { Compressible := some false } }
        { ApexCompressionEnabled := true }).isCompressed = false
      ∧ (apexBundle.setCompression
          { properties := { ApexType := .zipApex },
            overridableProperties := { Compressible := some true } }
          { ApexCompressionEnabled := true }).isCompressed = false :=
  ⟨(setCompression_not_compressible { overridableProperties := { Compressible := some false } }
      { ApexCompressionEnabled := true }).1 (by decide) (by decide),
    (setCompression_not_compressible
      { properties := { ApexType := .zipApex },
        overridableProperties := { Compressible := some true } }
      { ApexCompressionEnabled := true }).2 (by decide)⟩

/-! ### `apexFlattenedMutator` and `setApexTypeAndSuffix` -/

/-- C26 (as stated, refuted): for a bundle that is not enabled,
`apexFlattenedMutator` creates no variant when payload_type is unset, and
reports no error when payload_type is not one of its three values. -/
theorem apexFlattenedMutator_skips_disabled_bundle :
    apexFlattenedMutator { Enabled := false } (.apexBundle {}) = {}
      ∧ apexFlattenedMutator { Enabled := false }
          (.apexBundle { properties := { Payload_type := some "tar" } }) = {} := by
  decide

/-- C26 (amended): for an enabled bundle, `apexFlattenedMutator` creates the
variants image and flattened when payload_type is unset or image, the variant
zip when it is zip, and the variants image, zip and flattened when it is both;
the module of each variant is the bundle with `ApexType` set to the packaging
of the variant. For every other value it reports a property error on
payload_type and creates no variant. Hence, when it reports no error, it
creates between 1 and 3 variants. -/
theorem apexFlattenedMutator_variants (mctx : FlattenedMutatorContext) (ab : apexBundle)
    (henabled : mctx.Enabled = true) :
    ((ab.properties.Payload_type = none ∨ ab.properties.Payload_type = some "image") →
        (apexFlattenedMutator mctx (.apexBundle ab)).errors = []
          ∧ (apexFlattenedMutator mctx (.apexBundle ab)).variants = ["image", "flattened"]
          ∧ (apexFlattenedMutator mctx (.apexBundle ab)).modules
              = [{ ab with properties.ApexType := .imageApex },
                 { ab with properties.ApexType := .flattenedApex }])
      ∧ (ab.properties.Payload_type = some "zip" →
          (apexFlattenedMutator mctx (.apexBundle ab)).errors = []
            ∧ (apexFlattenedMutator mctx (.apexBundle ab)).variants = ["zip"]
            ∧ (apexFlattenedMutator mctx (.apexBundle ab)).modules
                = [{ ab with properties.ApexType := .zipApex }])
      ∧ (ab.properties.Payload_type = some "both" →
          (apexFlattenedMutator mctx (.apexBundle ab)).errors = []
            ∧ (apexFlattenedMutator mctx (.apexBundle ab)).variants
                = ["image", "zip", "flattened"]
            ∧ (apexFlattenedMutator mctx (.apexBundle ab)).modules
                = [{ ab with properties.ApexType := .imageApex },
                   { ab with properties.ApexType := .zipApex },
                   { ab with properties.ApexType := .flattenedApex }])
      ∧ (∀ v, ab.properties.Payload_type = some v → v ≠ "image" → v ≠ "zip" → v ≠ "both" →
          (apexFlattenedMutator mctx (.apexBundle ab)).errors
              = [{ property := some "payload_type",
                   format := "%q is not one of \"image\", \"zip\", or \"both\".",
                   args := [v] }]
            ∧ (apexFlattenedMutator mctx (.apexBundle ab)).variants = []
            ∧ (apexFlattenedMutator mctx (.apexBundle ab)).modules = [])
      ∧ ((apexFlattenedMutator mctx (.apexBundle ab)).errors = [] →
          1 ≤ (apexFlattenedMutator mctx (.apexBundle ab)).variants.length
            ∧ (apexFlattenedMutator mctx (.apexBundle ab)).variants.length ≤ 3
            ∧ (apexFlattenedMutator mctx (.apexBundle ab)).modules.length
                = (apexFlattenedMutator mctx (.apexBundle ab)).variants.length) := by
  refine ⟨?_, ?_, ?_, ?_, ?_⟩
  · intro h
    rcases h with h | h <;>
      simp [apexFlattenedMutator, henabled, h, proptoolsStringDefault, payloadTypeVariants,
        variantModule, imageApexType, zipApexType, flattenedApexType]
  · intro h
    simp [apexFlattenedMutator, henabled, h, proptoolsStringDefault, payloadTypeVariants,
      variantModule, imageApexType, zipApexType, flattenedApexType]
  · intro h
    simp [apexFlattenedMutator, henabled, h, proptoolsStringDefault, payloadTypeVariants,
      variantModule, imageApexType, zipApexType, flattenedApexType]
  · intro v h h1 h2 h3
    simp [apexFlattenedMutator, henabled, h, proptoolsStringDefault, payloadTypeVariants,
      h1, h2, h3, proptoolsString]
  · intro he
    unfold apexFlattenedMutator at he ⊢
    simp only [henabled, Bool.not_true, Bool.false_eq_true, if_false] at he ⊢
    unfold payloadTypeVariants at he ⊢
    split_ifs at he ⊢ <;>
      simp_all [imageApexType, zipApexType, flattenedApexType]

/-- C26 (amended), instance: an enabled bundle with payload_type both gets the
three variants. -/
theorem apexFlattenedMutator_variants_witness :
    (apexFlattenedMutator {} (.apexBundle { properties := { Payload_type := some "both" } })).errors
        = []
      ∧ (apexFlattenedMutator {}
          (.apexBundle { properties := { Payload_type := some "both" } })).variants
        = ["image", "zip", "flattened"]
      ∧ (apexFlattenedMutator {}
          (.apexBundle { properties := { Payload_type := some "both" } })).modules.map
            (fun m => m.properties.ApexType)
        = [.imageApex, .zipApex, .flattenedApex] :=
  have h := (apexFlattenedMutator_variants {}
    { properties := { Payload_type := some "both" } } rfl).2.2.1 rfl
  ⟨h.1, h.2.1, by decide⟩

/-- C28 (as stated, refuted): for a bundle that is not enabled, with payload_type
image, `apexFlattenedMutator` creates no variant, so no variant has
`primaryApexType` true after `setApexTypeAndSuffix`. -/
theorem setApexTypeAndSuffix_no_primary_for_disabled_bundle :
    (((apexFlattenedMutator { Enabled := false }
        (.apexBundle { properties := { Payload_type := some "image" } })).modules.map
          (fun m => m.setApexTypeAndSuffix {})).filter (fun m => m.primaryApexType)).length
      = 0 := by
  decide

/-- C28 (amended): for an enabled bundle whose payload_type is unset, image,
zip or both and whose `primaryApexType` has its initial value false, and for
either value of the flatten-by-default switch, among the modules of the variants
that `apexFlattenedMutator` creates, after `setApexTypeAndSuffix`, exactly one
has `primaryApexType` true; a variant has it true exactly when its suffix is
empty; the suffixes are pairwise distinct, and each is the empty string, .apex,
.zipapex or .flattened. -/
theorem setApexTypeAndSuffix_one_primary (mctx : FlattenedMutatorContext) (ctx : BuildContext)
    (ab : apexBundle) (henabled : mctx.Enabled = true)
    (hvalid : ab.properties.Payload_type = none ∨ ab.properties.Payload_type = some "image" ∨
      ab.properties.Payload_type = some "zip" ∨ ab.properties.Payload_type = some "both")
    (hfresh : ab.primaryApexType = false) :
    (((apexFlattenedMutator mctx (.apexBundle ab)).modules.map
        (fun m => m.setApexTypeAndSuffix ctx)).filter (fun m => m.primaryApexType)).length = 1
      ∧ (∀ m ∈ (apexFlattenedMutator mctx (.apexBundle ab)).modules.map
            (fun m => m.setApexTypeAndSuffix ctx),
          (m.primaryApexType = true ↔ m.suffix = "")
            ∧ m.suffix ∈ ["", ".apex", ".zipapex", ".flattened"])
      ∧ (((apexFlattenedMutator mctx (.apexBundle ab)).modules.map
          (fun m => m.setApexTypeAndSuffix ctx)).map (fun m => m.suffix)).Nodup := by
  rcases hvalid with h | h | h | h <;> cases hf : ctx.FlattenApex <;>
    cases hi : ctx.InstallExtraFlattenedApexes <;>
    simp [apexFlattenedMutator, henabled, h, proptoolsStringDefault, payloadTypeVariants,
      variantModule, imageApexType, zipApexType, flattenedApexType,
      apexBundle.setApexTypeAndSuffix, hf, hi, hfresh, proptoolsString, imageApexSuffix,
      zipApexSuffix, flattenedSuffix, List.filter]

/-- C28 (amended), instance: payload_type both without flattening by default;
the suffixes of the variants are the empty string, .zipapex and .flattened, and
the variant of the image packaging is the primary one. -/
theorem setApexTypeAndSuffix_one_primary_witness :
    ((apexFlattenedMutator {}
        (.apexBundle { properties := { Payload_type := some "both" } })).modules.map
          (fun m => ((m.setApexTypeAndSuffix {}).suffix,
            (m.setApexTypeAndSuffix {}).primaryApexType)))
        = [("", true), (".zipapex", false), (".flattened", false)]
      ∧ (((apexFlattenedMutator {}
          (.apexBundle { properties := { Payload_type := some "both" } })).modules.map
            (fun m => m.setApexTypeAndSuffix {})).filter (fun m => m.primaryApexType)).length
        = 1 :=
  ⟨by decide,
    (setApexTypeAndSuffix_one_primary {} {} { properties := { Payload_type := some "both" } }
      rfl (by decide) rfl).1⟩

/-! ### Rust binaries -/

/-- C27: for a rust binary with static_executable set to true, `preferRlib` is
true, `autoDep` returns `rlibAutoDep` and `stdLinkage` returns `RlibLinkage`, for
device and host alike (none of the three reads the toolchain); when neither
prefer_rlib nor static_executable is true, `autoDep` returns `dylibAutoDep` for a
device and `rlibAutoDep` for a host. -/
theorem binaryDecorator_static_executable_prefers_rlib (binary : binaryDecorator)
    (device : Bool) :
    (binary.Static_executable = some true →
        binary.preferRlib = true ∧ binary.autoDep device = .rlibAutoDep
          ∧ binary.stdLinkage = .RlibLinkage)
      ∧ (proptoolsBool binary.Prefer_rlib = false →
          proptoolsBool binary.Static_executable = false →
          binary.autoDep device = (if device then .dylibAutoDep else .rlibAutoDep)) := by
  constructor
  · intro h
    have hp : binary.preferRlib = true := by
      simp [binaryDecorator.preferRlib, h, proptoolsBool]
    exact ⟨hp, by simp [binaryDecorator.autoDep, hp], by simp [binaryDecorator.stdLinkage, hp]⟩
  · intro h1 h2
    have hp : binary.preferRlib = false := by
      simp [binaryDecorator.preferRlib, h1, h2]
    cases device <;> simp [binaryDecorator.autoDep, hp]

/-- C27, instance: a static executable for the device and for the host, and a
binary that sets neither property. -/
theorem binaryDecorator_static_executable_prefers_rlib_witness :
    binaryDecorator.autoDep { Static_executable := some true } true = .rlibAutoDep
      ∧ binaryDecorator.stdLinkage { Static_executable := some true } = .RlibLinkage
      ∧ binaryDecorator.autoDep {} true = .dylibAutoDep
      ∧ binaryDecorator.autoDep {} false = .rlibAutoDep :=
  have h := (binaryDecorator_static_executable_prefers_rlib
    { Static_executable := some true } true).1 rfl
  ⟨h.2.1, h.2.2,
    (binaryDecorator_static_executable_prefers_rlib {} true).2 rfl rfl,
    (binaryDecorator_static_executable_prefers_rlib {} false).2 rfl rfl⟩

/-! ### `minSdkVersionValue` -/

/-- C29 (as stated, refuted): the global override is 30 and the bundle sets
min_sdk_version to a string that is not an API level. `minSdkVersionValue`
reports a property error on min_sdk_version and returns the empty string, while
for the declared level 29 it returns 30. -/
theorem minSdkVersionValue_empty_for_invalid_version :
    apexBundle.minSdkVersionValue { properties := { Min_sdk_version := some "thirty" } }
        (exampleApiLevels "30")
        = ("", [{ property := some "min_sdk_version", format := "%s",
                  args := ["could not be parsed as an integer and is not a recognized codename"] }])
      ∧ apexBundle.minSdkVersionValue { properties := { Min_sdk_version := some "29" } }
          (exampleApiLevels "30") = ("30", []) := by
  decide

/-- C29 (amended): given that the level none is none and that `CompareTo` is
reflexive and antisymmetric, `minSdkVersionValue` returns the empty string when
min_sdk_version is unset or empty, when it does not parse as an API level, and
when its level is none. Otherwise, with declared level `d`: when the override is
empty or does not parse, the string of `d` is returned; when the override parses
to `o`, the string of `o` is returned if `o` is not none and greater than `d`,
and that of `d` if not; and for `o` not none the level returned is `d` or `o`
and is not lower than either. -/
theorem minSdkVersionValue_max {L : Type} (a : apexBundle) (api : ApiLevels L)
    (hnone : api.IsNone api.NoneApiLevel = true)
    (hrefl : ∀ l, api.CompareTo l l = 0)
    (hanti : ∀ l other, api.CompareTo l other ≤ 0 → 0 ≤ api.CompareTo other l) :
    (proptoolsString a.properties.Min_sdk_version = "" → (a.minSdkVersionValue api).1 = "")
      ∧ (∀ err, api.ApiLevelFromUser (proptoolsString a.properties.Min_sdk_version) = .error err →
          (a.minSdkVersionValue api).1 = "")
      ∧ (∀ d, api.ApiLevelFromUser (proptoolsString a.properties.Min_sdk_version) = .ok d →
          api.IsNone d = true → (a.minSdkVersionValue api).1 = "")
      ∧ (∀ d, proptoolsString a.properties.Min_sdk_version ≠ "" →
          api.ApiLevelFromUser (proptoolsString a.properties.Min_sdk_version) = .ok d →
          api.IsNone d = false →
          ((api.ApexGlobalMinSdkVersionOverride = "" ∨
              (∃ err, api.ApiLevelFromUser api.ApexGlobalMinSdkVersionOverride = .error err)) →
            (a.minSdkVersionValue api).1 = api.levelString d)
          ∧ (∀ o, api.ApexGlobalMinSdkVersionOverride ≠ "" →
              api.ApiLevelFromUser api.ApexGlobalMinSdkVersionOverride = .ok o →
              (a.minSdkVersionValue api).1
                  = api.levelString
                      (if api.IsNone o = false ∧ 0 < api.CompareTo o d then o else d)
                ∧ (api.IsNone o = false →
                    ∃ r, (a.minSdkVersionValue api).1 = api.levelString r ∧ (r = d ∨ r = o)
                      ∧ 0 ≤ api.CompareTo r d ∧ 0 ≤ api.CompareTo r o))) := by
  refine ⟨?_, ?_, ?_, ?_⟩
  · intro h
    simp [apexBundle.minSdkVersionValue, minSdkVersionFromValue, h, hnone]
  · intro err h
    unfold apexBundle.minSdkVersionValue minSdkVersionFromValue
    by_cases hv : proptoolsString a.properties.Min_sdk_version = ""
    · simp [hv, hnone]
    · simp [hv, h, hnone]
  · intro d h hd
    unfold apexBundle.minSdkVersionValue minSdkVersionFromValue
    by_cases hv : proptoolsString a.properties.Min_sdk_version = ""
    · simp [hv, hnone]
    · simp [hv, h, hd]
  · intro d hv h hd
    have hval : ∀ o : L × List VisitError,
        minSdkVersionFromValue api api.ApexGlobalMinSdkVersionOverride = o →
        (a.minSdkVersionValue api).1 = api.levelString (overriddenMinApiLevel api d o.1) := by
      intro o ho
      unfold apexBundle.minSdkVersionValue
      have hr : minSdkVersionFromValue api (proptoolsString a.properties.Min_sdk_version)
          = (d, []) := by
        simp [minSdkVersionFromValue, hv, h]
      simp [hr, hd, ho]
    constructor
    · intro ho
      have hfrom : (minSdkVersionFromValue api api.ApexGlobalMinSdkVersionOverride).1
          = api.NoneApiLevel := by
        unfold minSdkVersionFromValue
        rcases ho with ho | ⟨err, ho⟩
        · simp [ho]
        · by_cases he : api.ApexGlobalMinSdkVersionOverride = ""
          · simp [he]
          · simp [he, ho]
      rw [hval _ rfl, hfrom]
      simp [overriddenMinApiLevel, hnone]
    · intro o hne ho
      have hfrom : (minSdkVersionFromValue api api.ApexGlobalMinSdkVersionOverride).1 = o := by
        simp [minSdkVersionFromValue, hne, ho]
      have hv2 : (a.minSdkVersionValue api).1
          = api.levelString
              (if api.IsNone o = false ∧ 0 < api.CompareTo o d then o else d) := by
        rw [hval _ rfl, hfrom]
        unfold overriddenMinApiLevel
        cases hno : api.IsNone o <;> by_cases hc : 0 < api.CompareTo o d <;> simp [hc]
      refine ⟨hv2, ?_⟩
      intro hno
      by_cases hc : 0 < api.CompareTo o d
      · refine ⟨o, ?_, Or.inr rfl, le_of_lt hc, ?_⟩
        · rw [hv2]; simp [hno, hc]
        · rw [hrefl]
      · refine ⟨d, ?_, Or.inl rfl, ?_, ?_⟩
        · rw [hv2]; simp [hc]
        · rw [hrefl]
        · exact hanti o d (not_lt.mp hc)

/-- C29 (amended), instance: with the levels of the examples, the declared level
29 and the override 30 give 30, and the declared level 31 and the override 30
give 31. -/
theorem minSdkVersionValue_max_witness :
    (apexBundle.minSdkVersionValue { properties := { Min_sdk_version := some "29" } }
        (exampleApiLevels "30")).1 = "30"
      ∧ (apexBundle.minSdkVersionValue { properties := { Min_sdk_version := some "31" } }
          (exampleApiLevels "30")).1 = "31" :=
  have hrefl : ∀ l, (exampleApiLevels "30").CompareTo l l = 0 := by
    intro l
    simp [exampleApiLevels]
  have hanti : ∀ l other, (exampleApiLevels "30").CompareTo l other ≤ 0 →
      0 ≤ (exampleApiLevels "30").CompareTo other l := by
    intro l other
    simp only [exampleApiLevels]
    split_ifs <;> omega
  ⟨((((minSdkVersionValue_max { properties := { Min_sdk_version := some "29" } }
        (exampleApiLevels "30") rfl hrefl hanti).2.2.2 29 (by decide) rfl rfl).2 30
          (by decide) rfl).1).trans (by decide),
    ((((minSdkVersionValue_max { properties := { Min_sdk_version := some "31" } }
        (exampleApiLevels "30") rfl hrefl hanti).2.2.2 31 (by decide) rfl rfl).2 30
          (by decide) rfl).1).trans (by decide)⟩

/-! ### Conversion of the native shared libraries -/

theorem convert_invalid_compile_multilib (compileMultilb : String) (libs : List String)
    (s : ConversionState) (h32 : compileMultilb ≠ "32") (h64 : compileMultilb ≠ "64")
    (hboth : compileMultilb ≠ "both") (hfirst : compileMultilb ≠ "first") (bucket : String) :
    convertBucket bucket compileMultilb libs s
      = { s with errors := s.errors ++
            [{ property := some "compile_multilib", format := "Invalid value: %s",
               args := [compileMultilb] }] } := by
  unfold convertBucket convert32Libs convert64Libs convertBothLibs convertFirstLibs
    invalidCompileMultilib
  simp [h32, h64, hboth, hfirst]

/-- C30 (as stated, refuted): for compile_multilib first and the bucket 32,
`convert32Libs` adds the libraries to `Native_shared_libs_32` for the
architectures x86 and arm only, so that nothing is built for a 64-bit device and
the 32-bit library for a 32-bit device, where the table of the comment, its rows
read as the values of compile_multilib, has 32/32 in the row first and the
column 32. `DepsMutator` does the same: for a library of the bucket
`multilib.lib32` it declares no edge when the only target is arm64 and one edge
when the only target is arm. -/
theorem convert32Libs_first_differs_from_table :
    (convert32Libs "first" ["libfoo"] {}).nativeSharedLibs
        = { Native_shared_libs_32 :=
              [{ axis := .ArchConfigurationAxis, config := "x86", labels := ["libfoo"] },
               { axis := .ArchConfigurationAxis, config := "arm", labels := ["libfoo"] }],
            Native_shared_libs_64 := [] }
      ∧ tableCell "libfoo" (convert32Libs "first" ["libfoo"] {}) = ([], [32])
      ∧ commentTable "first" "32" = some ([32], [32])
      ∧ (exampleLib32Bucket.DepsMutator { MultiTargets := [exampleArm64] }).map
          (fun r => declaredNames .native_shared_libs r.2) = .ok []
      ∧ (exampleLib32Bucket.DepsMutator { MultiTargets := [exampleArm] }).map
          (fun r => declaredNames .native_shared_libs r.2) = .ok ["libfoo"] := by
  refine ⟨by decide, by decide, by decide, ?_, ?_⟩
  · rfl
  · rfl

/-- The cell of the table that the conversions do not give, when its rows are
read as the buckets: for the bucket first and compile_multilib 32,
`convertFirstLibs` adds the libraries for the architectures x86 and arm only
(nothing for a 64-bit device, 32 for a 32-bit device), where the table has
32/32; `DepsMutator` declares the edge for a library of the bucket
`multilib.first` when arm is the first target. -/
theorem convertFirstLibs_32_differs_from_table :
    tableCell "libfoo" (convertFirstLibs "32" ["libfoo"] {}) = ([], [32])
      ∧ commentTable "first" "32" = some ([32], [32])
      ∧ (apexBundle.DepsMutator
          { properties := { Multilib := { First := { Native_shared_libs := ["libfoo"] } } } }
          { MultiTargets := [exampleArm] }).map
            (fun r => declaredNames .native_shared_libs r.2) = .ok ["libfoo"] := by
  refine ⟨by decide, by decide, ?_⟩
  rfl

/-- C30 (amended): with the rows of the table of the comment read as the
buckets (32 for `convert32Libs`, 64 for `convert64Libs`, both for
`convertBothLibs`, first for `convertFirstLibs`) and its columns as the values
of compile_multilib, for every library of the list converted and every cell but
that of the bucket first and compile_multilib 32, the conversion reports no
error and the library is built for a 64-bit device and for a 32-bit device as
the cell says; for a compile_multilib value outside 32, 64, both and first,
every conversion reports a property error on compile_multilib and adds
nothing. -/
theorem convert_implements_table (libs : List String) (lib : String) (hlib : lib ∈ libs) :
    (∀ bucket ∈ ["32", "64", "both", "first"], ∀ compileMultilb ∈ ["32", "64", "both", "first"],
        (bucket, compileMultilb) ≠ ("first", "32") →
        some (tableCell lib (convertBucket bucket compileMultilb libs {}))
            = commentTable bucket compileMultilb
          ∧ (convertBucket bucket compileMultilb libs {}).errors = [])
      ∧ (∀ (bucket compileMultilb : String) (s : ConversionState),
          compileMultilb ∉ ["32", "64", "both", "first"] →
          convertBucket bucket compileMultilb libs s
            = { s with errors := s.errors ++
                  [{ property := some "compile_multilib", format := "Invalid value: %s",
                     args := [compileMultilb] }] })
      ∧ (∀ (compileMultilb : String) (s : ConversionState),
          convertBucket "32" compileMultilb libs s = convert32Libs compileMultilb libs s
            ∧ convertBucket "64" compileMultilb libs s = convert64Libs compileMultilb libs s
            ∧ convertBucket "both" compileMultilb libs s = convertBothLibs compileMultilb libs s
            ∧ convertBucket "first" compileMultilb libs s
                = convertFirstLibs compileMultilb libs s) := by
  refine ⟨?_, ?_, ?_⟩
  · intro bucket hb c hc hne
    simp only [List.mem_cons, List.mem_singleton, List.not_mem_nil, or_false] at hb hc
    rcases hb with rfl | rfl | rfl | rfl <;> rcases hc with rfl | rfl | rfl | rfl <;>
      first
        | exact absurd rfl hne
        | simp [convertBucket, convert32Libs, convert64Libs, convertBothLibs, convertFirstLibs,
            makeNoConfig32SharedLibsAttributes, make32SharedLibsAttributes,
            make64SharedLibsAttributes, makeFirstSharedLibsAttributes, makeSharedLibsAttributes,
            tableCell, builtFor, selectFor, commentTable, hlib, List.lookup]
  · intro bucket c s hc
    simp only [List.mem_cons, List.mem_singleton, List.not_mem_nil, or_false, not_or] at hc
    exact convert_invalid_compile_multilib c libs s hc.1 hc.2.1 hc.2.2.1 hc.2.2.2 bucket
  · intro c s
    simp [convertBucket]

/-- C30 (amended), instance: the library libfoo of the list libfoo, libbar. In
the bucket both with compile_multilib both it is built in both widths for a
64-bit device and in 32 bits for a 32-bit device; in the bucket 32 with
compile_multilib first it is built for a 32-bit device only. -/
theorem convert_implements_table_witness :
    ("libfoo" ∈ ["libfoo", "libbar"])
      ∧ some (tableCell "libfoo" (convertBucket "both" "both" ["libfoo", "libbar"] {}))
        = some ([32, 64], [32])
      ∧ some (tableCell "libfoo" (convertBucket "32" "first" ["libfoo", "libbar"] {}))
        = some ([], [32]) :=
  ⟨by decide,
    ((convert_implements_table ["libfoo", "libbar"] "libfoo" (by decide)).1
      "both" (by decide) "both" (by decide) (by decide)).1.trans (by decide),
    ((convert_implements_table ["libfoo", "libbar"] "libfoo" (by decide)).1
      "32" (by decide) "first" (by decide) (by decide)).1.trans (by decide)⟩

end Apex
